import Mathlib

/-!
Connection registry and admission queue of `World` (TrinityCore).

A shallow embedding of the session bookkeeping of `src/server/game/World/World.cpp`
and `World.h`: the session registry `_sessions`, the admission queue `_queuedPlayer`,
the recent-disconnect list `_disconnects`, and the functions `RemoveSession`,
`AddSession_`, `HasRecentlyDisconnected`, `GetQueuePos`, `AddQueuedPlayer`,
`RemoveQueuedPlayer`, `KickAll`, `UpdateMaxSessionCounters` and `UpdateSessions`.

Conventions of the embedding.

* A `WorldSession*` is a natural number, the address; `0` is `nullptr`.  The objects
  behind the pointers live in `World.heap`.
* `uint32` values are natural numbers reduced modulo `2^32` at every place where the
  source converts to `uint32`, increments or decrements.
* `std::unordered_map` is an association list; iteration follows the list.
* Calls into `WorldSession` whose bodies are outside these sources (`KickPlayer`,
  `InitializeSession`, `SendAuthResponse`, `SendAuthWaitQueue`, `ResetTimeOutTime`) and
  `delete` are recorded, in program order, in `World.trace`.
* `pSession->Update(diff, updater)` is a function `Update` from session pointers to
  its result.
* Histories (`Reachable`, `AdmitRemove`, `AdmitUnlisted`, `FlagHistory`) start from a
  world without sessions; the sessions handed to `AddSession_` are new objects.
* The shutdown countdown (`ShutdownServ`, `ShutdownMsg`, `ShutdownCancel`,
  `_UpdateGameTime`) and the guid watchdog record their `SendServerMessage` calls in
  `World.messages`.
* The timer table `_timers` is a function from the index to an `IntervalTimer`; the
  callouts made under a timer test are recorded in `World.driverCalls`.
* The command inbox holds addresses of `CliCommandHolder` objects; the calls of
  `ProcessCliCommands` are recorded in `World.cliCalls`.
* A `std::map` is an association list in ascending key order.
* Answers of the database (`BanAccount`, `LoadAutobroadcasts`) and random draws
  (`urand`) are inputs of the functions that use them.
-/

namespace Trinity

/-- Reduction to a `uint32`: the value modulo `2^32`. -/
def u32 (n : Nat) : Nat := n % 4294967296

/-- The `uint32` obtained from the unsigned difference `a - b` (computed on `size_t`,
then converted): `(a - b) mod 2^32`, written without negative numbers. -/
def u32sub (a b : Nat) : Nat := (a + (4294967296 - b % 4294967296)) % 4294967296

/-- Conversion of a `uint32` to `int32` (two's complement), as in the
return statement of `GetQueuePos`. -/
def toInt32 (n : Nat) : Int :=
  if n % 4294967296 < 2147483648 then ((n % 4294967296 : Nat) : Int)
  else ((n % 4294967296 : Nat) : Int) - 4294967296

/-- Modelled from the spec: the class `WorldSession`, whose declaration is not among
the sources.  The spec gives a session an identity key (unique per account), a
queued-flag and a permission level; `World.cpp` reads them through `GetAccountId()`,
`HasPermission(rbac::RBAC_PERM_SKIP_QUEUE)`, `PlayerLoading()` and writes the
queued-flag through `SetInQueue`. -/
structure WorldSession where
  /-- Result of `GetAccountId()`. -/
  accountId : Nat
  /-- Result of `HasPermission(rbac::RBAC_PERM_SKIP_QUEUE)`. -/
  skipQueue : Bool
  /-- Result of `PlayerLoading()`. -/
  playerLoading : Bool
  /-- The queued-flag written by `SetInQueue`. -/
  inQueue : Bool
deriving DecidableEq, Repr

/-- Calls that leave `World.cpp`, with the session they are made on. -/
inductive Event where
  | KickPlayer (sess : Nat)
  | Delete (sess : Nat)
  | InitializeSession (sess : Nat)
  | ResetTimeOutTime (sess : Nat)
  | SendAuthResponse (sess : Nat) (queuePos : Int)
  | SendAuthWaitQueue (sess : Nat) (position : Nat)
deriving DecidableEq, Repr

/-- The string parameter of a `SendServerMessage` call.  The countdown text
`secsToTimeString(_shutdownTimer, TimeFormat::Numeric)`, with `" - " + reason` appended
when the reason is not empty, is kept as the seconds and the reason. -/
inductive StringParam where
  | empty
  | countdown (seconds : Nat) (reason : String)
  | text (s : String)
deriving DecidableEq, Repr

/-- A call `SendServerMessage(messageID, stringParam, player)`; `player = 0` is the
`nullptr` of a message to everybody. -/
structure ServerMessage where
  messageID : Nat
  stringParam : StringParam
  player : Nat
deriving DecidableEq, Repr

/-- Modelled from the spec: the class `IntervalTimer` of `Timer.h`, which is not among
the sources.  The spec gives an interval timer a current elapsed value and a period;
a negative current value marks the timer as disabled. -/
structure IntervalTimer where
  /-- The period, read by `GetInterval()` and written by `SetInterval`. -/
  interval : Int
  /-- The current elapsed value, read by `GetCurrent()` and written by `SetCurrent`. -/
  current : Int
deriving DecidableEq, Repr

namespace IntervalTimer

/-- Modelled from the spec: `Update(diff)`; the spec has advancing as a pure addition of
the elapsed milliseconds. -/
def Update (t : IntervalTimer) (diff : Nat) : IntervalTimer :=
  { t with current := t.current + (diff : Int) }

/-- Modelled from the spec: `Passed()`; the spec has it true exactly when
`current >= period`. -/
def Passed (t : IntervalTimer) : Bool := decide (t.current ≥ t.interval)

/-- Modelled from the spec: `Reset()`; the spec has reset as the return to zero. -/
def Reset (t : IntervalTimer) : IntervalTimer := { t with current := 0 }

/-- Modelled from the spec: `SetCurrent(current)`. -/
def SetCurrent (t : IntervalTimer) (current : Int) : IntervalTimer :=
  { t with current := current }

/-- Modelled from the spec: `SetInterval(interval)`. -/
def SetInterval (t : IntervalTimer) (interval : Int) : IntervalTimer :=
  { t with interval := interval }

/-- Modelled from the spec: `GetCurrent()`. -/
def GetCurrent (t : IntervalTimer) : Int := t.current

/-- Modelled from the spec: `GetInterval()`. -/
def GetInterval (t : IntervalTimer) : Int := t.interval

end IntervalTimer

/-- The callouts of `World::Update` that stand under a test of the timer table. -/
inductive Driver where
  /-- Call `sWhoListStorageMgr->Update()`. -/
  | WhoListUpdate
  /-- The `SaveToDB()` calls on the channel managers. -/
  | SaveChannels
  /-- Call `sObjectMgr->ReturnOrDeleteOldMails(true)`. -/
  | ReturnOrDeleteOldMails
  /-- Call `sAuctionMgr->Update()`. -/
  | AuctionUpdate
  /-- Call `sAuctionMgr->UpdatePendingAuctions()`. -/
  | UpdatePendingAuctions
  /-- Call `sAuctionBot->Update()`. -/
  | AuctionBotUpdate
  /-- Call `sScriptReloadMgr->Update()`. -/
  | ScriptReloadUpdate
  /-- The statement `LOGIN_UPD_UPTIME_PLAYERS`. -/
  | UptimeUpdate
  /-- The statement `LOGIN_DEL_OLD_LOGS`. -/
  | CleanLogs
  /-- Call `SendAutoBroadcast()`. -/
  | SendAutoBroadcast
  /-- Call `Player::DeleteOldCharacters()`. -/
  | DeleteOldCharacters
  /-- The `RemoveOldCorpses()` calls on all maps. -/
  | RemoveOldCorpses
  /-- Call `sGameEventMgr->Update()`. -/
  | GameEventUpdate
  /-- The `KeepAlive()` calls on the three databases. -/
  | PingDB
deriving DecidableEq, Repr

/-- Source `CliCommandHolder`.  The two function pointers are kept as numbers, `0` for
`nullptr`. -/
structure CliCommandHolder where
  m_callbackArg : Nat
  m_command : String
  m_print : Nat
  m_commandFinished : Nat
deriving DecidableEq, Repr

/-- The calls made by `ProcessCliCommands` on a command object, named by the address of
the command. -/
inductive CliEvent where
  /-- Call `CliHandler(callbackArg, zprint).ParseCommands(command->m_command)`. -/
  | ParseCommands (command : Nat) (callbackArg print : Nat) (text : String)
  /-- Call `command->m_commandFinished(callbackArg, success)`. -/
  | CommandFinished (command : Nat) (notifier callbackArg : Nat) (success : Bool)
  /-- Statement `delete command`. -/
  | Delete (command : Nat)
deriving DecidableEq, Repr

/-- The calls by which `SendAutoBroadcast` sends its text. -/
inductive BroadcastCall where
  /-- Call `SendWorldText(LANG_AUTO_BROADCAST, msg.c_str())`. -/
  | SendWorldText (msg : String)
  /-- Call `SendGlobalMessage` with an `SMSG_NOTIFICATION` packet holding `msg`. -/
  | SendGlobalMessage (msg : String)
deriving DecidableEq, Repr

/-- Modelled from the spec: the mode argument of `BanAccount` (enum `BanMode` of
`SharedDefines.h`, not among the sources); `other` is any value that is none of the
three enumerators named in `World.cpp`. -/
inductive BanMode where
  | BAN_ACCOUNT
  | BAN_CHARACTER
  | BAN_IP
  | other (value : Nat)
deriving DecidableEq, Repr

/-- Modelled from the spec: the result codes of `BanAccount` (enum `BanReturn` of
`SharedDefines.h`, not among the sources); the spec has "not found", "already banned"
and "syntax error" as distinct results. -/
inductive BanReturn where
  | BAN_SUCCESS
  | BAN_SYNTAX_ERROR
  | BAN_NOTFOUND
  | BAN_EXISTS
deriving DecidableEq, Repr

/-- The members of `World` used by the session bookkeeping, the shutdown countdown, the
guid watchdog, the timer table, the command inbox and the automatic broadcast. -/
structure World where
  /-- The `WorldSession` objects, by address. -/
  heap : Nat → WorldSession
  /-- Member `_sessions` (`SessionMap`): account id to session pointer. -/
  sessions : List (Nat × Nat)
  /-- Member `_queuedPlayer` (`Queue`, a `std::list` of session pointers). -/
  queuedPlayer : List Nat
  /-- Member `_disconnects` (`DisconnectMap`): account id to disconnect time. -/
  disconnects : List (Nat × Int)
  /-- Member `_playerLimit`. -/
  playerLimit : Nat
  /-- Member `_maxActiveSessionCount`. -/
  maxActiveSessionCount : Nat
  /-- Member `_maxQueuedSessionCount`. -/
  maxQueuedSessionCount : Nat
  /-- Member `addSessQueue`: sessions handed over by `AddSession`, oldest first. -/
  addSessQueue : List Nat
  /-- Value of `getIntConfig(CONFIG_INTERVAL_DISCONNECT_TOLERANCE)`. -/
  disconnectTolerance : Nat
  /-- Value of `GameTime::GetGameTime()`. -/
  gameTime : Int
  /-- Calls made on sessions so far, oldest first. -/
  trace : List Event
  /-- Static member `_stopEvent`. -/
  stopEvent : Bool := false
  /-- Static member `_exitCode` (`uint8`), initially `SHUTDOWN_EXIT_CODE`. -/
  exitCode : Nat := 0
  /-- Member `_shutdownTimer`. -/
  shutdownTimer : Nat := 0
  /-- Member `_shutdownMask`. -/
  shutdownMask : Nat := 0
  /-- Member `_guidWarn`. -/
  guidWarn : Bool := false
  /-- Member `_guidAlert`. -/
  guidAlert : Bool := false
  /-- Member `_warnDiff`. -/
  warnDiff : Nat := 0
  /-- Member `_warnShutdownTime`. -/
  warnShutdownTime : Int := 0
  /-- Member `_guidWarningMsg`. -/
  guidWarningMsg : String := ""
  /-- Member `_alertRestartReason`. -/
  alertRestartReason : String := ""
  /-- Value of `getIntConfig(CONFIG_RESPAWN_GUIDWARNING_FREQUENCY)`. -/
  guidWarningFrequency : Nat := 0
  /-- Value of `getIntConfig(CONFIG_RESPAWN_RESTARTQUIETTIME)`. -/
  restartQuietTime : Nat := 0
  /-- The `SendServerMessage` calls so far, oldest first. -/
  messages : List ServerMessage := []
  /-- Member `_timers`, an array of `WUPDATE_COUNT` timers, by index. -/
  timers : Nat → IntervalTimer := fun _ => { interval := 0, current := 0 }
  /-- Member `_mailTimer`. -/
  mailTimer : Int := 0
  /-- Member `_mailTimerExpires`. -/
  mailTimerExpires : Int := 0
  /-- Value of `getBoolConfig(CONFIG_PRESERVE_CUSTOM_CHANNELS)`. -/
  preserveCustomChannels : Bool := false
  /-- Value of `getIntConfig(CONFIG_LOGDB_CLEARTIME)`. -/
  logdbClearTime : Nat := 0
  /-- Value of `getBoolConfig(CONFIG_AUTOBROADCAST)`. -/
  autobroadcastOn : Bool := false
  /-- The callouts made under a timer test so far, oldest first. -/
  driverCalls : List Driver := []
  /-- The `CliCommandHolder` objects, by address. -/
  cliHeap : Nat → CliCommandHolder :=
    fun _ => { m_callbackArg := 0, m_command := "", m_print := 0, m_commandFinished := 0 }
  /-- Member `_cliCmdQueue`: pointers to the queued commands, oldest first. -/
  cliCmdQueue : List Nat := []
  /-- The calls of `ProcessCliCommands` so far, oldest first. -/
  cliCalls : List CliEvent := []
  /-- Member `_autobroadcasts` (a `std::map` from id to text), in ascending id order. -/
  autobroadcasts : List (Nat × String) := []
  /-- Member `_autobroadcastsWeights` (a `std::map` from id to weight), in ascending id
  order. -/
  autobroadcastsWeights : List (Nat × Nat) := []
  /-- Value of `getIntConfig(CONFIG_AUTOBROADCAST_CENTER)`. -/
  autobroadcastCenter : Nat := 0
  /-- The texts sent by `SendAutoBroadcast` so far, oldest first. -/
  broadcasts : List BroadcastCall := []

/-! ## The association list behind `std::unordered_map` -/

/-- Lookup `m.find(k)`; `none` stands for `end()`. -/
def mapFind {β : Type} : List (Nat × β) → Nat → Option β
  | [], _ => none
  | (k, v) :: rest, key => if k = key then some v else mapFind rest key

/-- Assignment `m[k] = v`: overwrite the entry of `k`, or add one. -/
def mapSet {β : Type} : List (Nat × β) → Nat → β → List (Nat × β)
  | [], key, v => [(key, v)]
  | (k, x) :: rest, key, v =>
    if k = key then (k, v) :: rest else (k, x) :: mapSet rest key v

/-- Removal `m.erase(itr)` of the entry whose key is `key`. -/
def mapErase {β : Type} : List (Nat × β) → Nat → List (Nat × β)
  | [], _ => []
  | (k, x) :: rest, key =>
    if k = key then rest else (k, x) :: mapErase rest key

/-- Write of the queued-flag: `sess->SetInQueue(state)`. -/
def SetInQueue (heap : Nat → WorldSession) (sess : Nat) (state : Bool) : Nat → WorldSession :=
  fun p => if p = sess then { heap p with inQueue := state } else heap p

namespace World

/-- The world built by the constructor `World::World()`, for a given heap, clock and
tolerance setting: no session, no limit, counters at zero. -/
def empty (heap : Nat → WorldSession) (tolerance : Nat) (now : Int) : World :=
  { heap := heap, sessions := [], queuedPlayer := [], disconnects := [],
    playerLimit := 0, maxActiveSessionCount := 0, maxQueuedSessionCount := 0,
    addSessQueue := [], disconnectTolerance := tolerance, gameTime := now, trace := [],
    warnShutdownTime := now }

/-- Source `SetPlayerAmountLimit(uint32 limit)`. -/
def SetPlayerAmountLimit (w : World) (limit : Nat) : World :=
  { w with playerLimit := limit }

/-- Source `GetPlayerAmountLimit()`. -/
def GetPlayerAmountLimit (w : World) : Nat := w.playerLimit

/-- Source `GetActiveAndQueuedSessionCount()`: `_sessions.size()` as `uint32`. -/
def GetActiveAndQueuedSessionCount (w : World) : Nat := u32 w.sessions.length

/-- Source `GetActiveSessionCount()`: `_sessions.size() - _queuedPlayer.size()` as `uint32`. -/
def GetActiveSessionCount (w : World) : Nat := u32sub w.sessions.length w.queuedPlayer.length

/-- Source `GetQueuedSessionCount()`: `_queuedPlayer.size()` as `uint32`. -/
def GetQueuedSessionCount (w : World) : Nat := u32 w.queuedPlayer.length

/-- Source `UpdateMaxSessionCounters()`. -/
def UpdateMaxSessionCounters (w : World) : World :=
  { w with
    maxActiveSessionCount :=
      max w.maxActiveSessionCount (u32sub w.sessions.length w.queuedPlayer.length)
    maxQueuedSessionCount := max w.maxQueuedSessionCount (u32 w.queuedPlayer.length) }

/-- Source `FindSession(id)`; `0` when there is no entry. -/
def FindSession (w : World) (id : Nat) : Nat :=
  match mapFind w.sessions id with
  | some p => p
  | none => 0

/-- Source `RemoveSession(id)`: kick the session registered for `id`, unless it is
loading; the result is `false` exactly in that case. -/
def RemoveSession (w : World) (id : Nat) : World × Bool :=
  match mapFind w.sessions id with
  | some p =>
    if p ≠ 0 then
      if (w.heap p).playerLoading then (w, false)
      else ({ w with trace := w.trace ++ [Event.KickPlayer p] }, true)
    else (w, true)
  | none => (w, true)

/-- Source `AddSession(s)`: hand the session over to the world thread. -/
def AddSession (w : World) (s : Nat) : World :=
  { w with addSessQueue := w.addSessQueue ++ [s] }

/-- The walk over `_disconnects` in `HasRecentlyDisconnected`: entries whose
`difftime(i->second, now)` is not below the tolerance are erased, and the walk stops
with `true` at an entry of the account that passes the test.  Returns the list left
behind and the result.  `difftime(a, b)` is `a - b`; the `double` it returns is taken
as the exact difference of the two `time_t` values. -/
def disconnectWalk (now : Int) (tolerance : Nat) (account : Nat) :
    List (Nat × Int) → List (Nat × Int) × Bool
  | [] => ([], false)
  | (k, t) :: rest =>
    if t - now < (tolerance : Int) then
      if k = account then ((k, t) :: rest, true)
      else ((k, t) :: (disconnectWalk now tolerance account rest).1,
            (disconnectWalk now tolerance account rest).2)
    else disconnectWalk now tolerance account rest

/-- Source `HasRecentlyDisconnected(session)`. -/
def HasRecentlyDisconnected (w : World) (session : Nat) : World × Bool :=
  if session = 0 then (w, false)
  else if w.disconnectTolerance ≠ 0 then
    ({ w with disconnects :=
        (disconnectWalk w.gameTime w.disconnectTolerance (w.heap session).accountId
          w.disconnects).1 },
     (disconnectWalk w.gameTime w.disconnectTolerance (w.heap session).accountId
          w.disconnects).2)
  else (w, false)

/-- The loop of `GetQueuePos`: `position` is the `uint32` counter, `0` means not found. -/
def queuePosFrom (sess : Nat) : List Nat → Nat → Nat
  | [], _ => 0
  | x :: rest, position =>
    if x = sess then position else queuePosFrom sess rest (u32 (position + 1))

/-- Source `GetQueuePos(sess)`, with its `int32` result. -/
def GetQueuePos (w : World) (sess : Nat) : Int :=
  toInt32 (queuePosFrom sess w.queuedPlayer 1)

/-- Source `AddQueuedPlayer(sess)`. -/
def AddQueuedPlayer (w : World) (sess : Nat) : World :=
  { w with
    heap := SetInQueue w.heap sess true
    queuedPlayer := w.queuedPlayer ++ [sess]
    trace := w.trace ++
      [Event.SendAuthResponse sess
        (toInt32 (queuePosFrom sess (w.queuedPlayer ++ [sess]) 1))] }

/-- The search loop of `RemoveQueuedPlayer`.  Walks the queue with the `uint32`
counter `position`; at the first entry equal to `sess` that entry is erased and the
loop is left.  Returns the queue after the loop, `found`, the entries from `iter` to
`end()`, and `position`. -/
def searchQueue (sess : Nat) : List Nat → Nat → List Nat × Bool × List Nat × Nat
  | [], position => ([], false, [], position)
  | x :: rest, position =>
    if x = sess then (rest, true, rest, position)
    else
      (x :: (searchQueue sess rest (u32 (position + 1))).1,
       (searchQueue sess rest (u32 (position + 1))).2.1,
       (searchQueue sess rest (u32 (position + 1))).2.2.1,
       (searchQueue sess rest (u32 (position + 1))).2.2.2)

/-- The closing loop of `RemoveQueuedPlayer`: `SendAuthWaitQueue(position)` on every
entry from `iter` to `end()`, counting up. -/
def notifyFrom : List Nat → Nat → List Event
  | [], _ => []
  | x :: rest, position =>
    Event.SendAuthWaitQueue x position :: notifyFrom rest (u32 (position + 1))

/-- The value of `sessions` in `RemoveQueuedPlayer` when the promotion test is made. -/
def sessionsForPromotion (w : World) (found : Bool) : Nat :=
  if found = false ∧ GetActiveSessionCount w ≠ 0 then GetActiveSessionCount w - 1
  else GetActiveSessionCount w

/-- The test `(!_playerLimit || sessions < _playerLimit) && !_queuedPlayer.empty()` of
`RemoveQueuedPlayer`, made after the search loop. -/
def promotionTest (w : World) (sess : Nat) : Prop :=
  (w.playerLimit = 0 ∨
    sessionsForPromotion w (searchQueue sess w.queuedPlayer 1).2.1 < w.playerLimit) ∧
  (searchQueue sess w.queuedPlayer 1).1 ≠ []

instance (w : World) (sess : Nat) : Decidable (promotionTest w sess) := by
  unfold promotionTest; infer_instance

/-- Source `RemoveQueuedPlayer(sess)`: the world afterwards and the result `found`.
`headD` reads `_queuedPlayer.front()`, and only under the test `!_queuedPlayer.empty()`. -/
def RemoveQueuedPlayer (w : World) (sess : Nat) : World × Bool :=
  let r := searchQueue sess w.queuedPlayer 1
  let found := r.2.1
  let heap1 := if found then SetInQueue w.heap sess false else w.heap
  let trace1 := if found then w.trace ++ [Event.ResetTimeOutTime sess] else w.trace
  if promotionTest w sess then
    ({ w with
       heap := heap1
       queuedPlayer := r.1.tail
       trace := trace1 ++ [Event.InitializeSession (r.1.headD 0)] ++ notifyFrom r.1.tail 1 },
     found)
  else
    ({ w with
       heap := heap1
       queuedPlayer := r.1
       trace := trace1 ++ notifyFrom r.2.2.1 r.2.2.2 }, found)

/-- The tail of `AddSession_` after the queue test failed: `InitializeSession` and
`UpdateMaxSessionCounters` (the population figure is only logged). -/
def initializeArrival (w : World) (s : Nat) : World :=
  UpdateMaxSessionCounters { w with trace := w.trace ++ [Event.InitializeSession s] }

/-- The block of `AddSession_` around `old`: when the registry has an entry for the
account, `RemoveQueuedPlayer(old->second)` and `delete old->second`.  Returns the world
after the block and the value of `decrease_session`. -/
def replaceOld (w : World) (account : Nat) : World × Bool :=
  match mapFind w.sessions account with
  | some old =>
    ({ (RemoveQueuedPlayer w old).1 with
        trace := (RemoveQueuedPlayer w old).1.trace ++ [Event.Delete old] },
     !(RemoveQueuedPlayer w old).2)
  | none => (w, true)

/-- The value of `Sessions` in `AddSession_` when the queue test is made; `w` is the
world after `_sessions[s->GetAccountId()] = s`. -/
def sessionsForAdmission (w : World) (decrease_session : Bool) : Nat :=
  if decrease_session then u32 (GetActiveAndQueuedSessionCount w + 4294967295)
  else GetActiveAndQueuedSessionCount w

/-- The queue test of `AddSession_`, `pLimit > 0 && Sessions >= pLimit &&
!s->HasPermission(rbac::RBAC_PERM_SKIP_QUEUE) && !HasRecentlyDisconnected(s)`; `w` is the
world after `_sessions[s->GetAccountId()] = s`. -/
def queueTest (w : World) (s : Nat) (decrease_session : Bool) : Prop :=
  GetPlayerAmountLimit w > 0 ∧
  sessionsForAdmission w decrease_session ≥ GetPlayerAmountLimit w ∧
  (w.heap s).skipQueue = false ∧
  (HasRecentlyDisconnected w s).2 = false

instance (w : World) (s : Nat) (decrease_session : Bool) :
    Decidable (queueTest w s decrease_session) := by
  unfold queueTest; infer_instance

/-- The world after the queue test has been evaluated.  The conjuncts are evaluated left
to right; `HasRecentlyDisconnected`, the only one that writes, runs when the three
before it hold. -/
def afterQueueTest (w : World) (s : Nat) (decrease_session : Bool) : World :=
  if GetPlayerAmountLimit w > 0 ∧
      sessionsForAdmission w decrease_session ≥ GetPlayerAmountLimit w ∧
      (w.heap s).skipQueue = false then
    (HasRecentlyDisconnected w s).1
  else w

/-- The part of `AddSession_` from `_sessions[s->GetAccountId()] = s` to the end: when
the queue test holds, `AddQueuedPlayer` and `UpdateMaxSessionCounters`; otherwise
`InitializeSession` and `UpdateMaxSessionCounters`. -/
def registerArrival (w : World) (s : Nat) (decrease_session : Bool) : World :=
  let w3 : World := { w with sessions := mapSet w.sessions (w.heap s).accountId s }
  if queueTest w3 s decrease_session then
    UpdateMaxSessionCounters (AddQueuedPlayer (afterQueueTest w3 s decrease_session) s)
  else initializeArrival (afterQueueTest w3 s decrease_session) s

/-- Source `AddSession_(s)`.  `none` is the failure of `ASSERT(s)`. -/
def AddSession_ (w : World) (s : Nat) : Option World :=
  if s = 0 then none
  else if (RemoveSession w (w.heap s).accountId).2 = false then
    some { (RemoveSession w (w.heap s).accountId).1 with
            trace := (RemoveSession w (w.heap s).accountId).1.trace ++
              [Event.KickPlayer s, Event.Delete s] }
  else
    some (registerArrival
      (replaceOld (RemoveSession w (w.heap s).accountId).1 (w.heap s).accountId).1 s
      (replaceOld (RemoveSession w (w.heap s).accountId).1 (w.heap s).accountId).2)

/-- Source `KickAll()`: the queue is cleared, every registered session is kicked. -/
def KickAll (w : World) : World :=
  { w with
    queuedPlayer := []
    trace := w.trace ++ w.sessions.map (fun e => Event.KickPlayer e.2) }

/-- The first statement of the removal branch of `UpdateSessions`:
`if (!RemoveQueuedPlayer(itr->second) && itr->second && getIntConfig(...))
_disconnects[itr->second->GetAccountId()] = GameTime::GetGameTime();`. -/
def noteDisconnect (w : World) (pSession : Nat) : World :=
  if (RemoveQueuedPlayer w pSession).2 = false ∧ pSession ≠ 0 ∧ w.disconnectTolerance ≠ 0 then
    { (RemoveQueuedPlayer w pSession).1 with
      disconnects :=
        mapSet (RemoveQueuedPlayer w pSession).1.disconnects (w.heap pSession).accountId
          (RemoveQueuedPlayer w pSession).1.gameTime }
  else (RemoveQueuedPlayer w pSession).1

/-- The body of the `if (!pSession->Update(diff, updater))` branch of `UpdateSessions`
for the registry entry `(id, pSession)`: the statement above, a second
`RemoveQueuedPlayer(pSession)`, `_sessions.erase(itr)` and `delete pSession`. -/
def removeFailedSession (w : World) (id pSession : Nat) : World :=
  { (RemoveQueuedPlayer (noteDisconnect w pSession) pSession).1 with
    sessions := mapErase (RemoveQueuedPlayer (noteDisconnect w pSession) pSession).1.sessions id
    trace := (RemoveQueuedPlayer (noteDisconnect w pSession) pSession).1.trace ++
      [Event.Delete pSession] }

/-- The first block of `UpdateSessions`: `AddSession_` on every session of the inbox,
oldest first. -/
def drainAddSessQueue : World → List Nat → Option World
  | w, [] => some w
  | w, s :: rest =>
    match AddSession_ w s with
    | some w1 => drainAddSessQueue w1 rest
    | none => none

/-- The second block of `UpdateSessions`, over the registry entries in iteration order.
`Update p` is the result of `pSession->Update(diff, updater)` for the session at `p`. -/
def sweepSessions (Update : Nat → Bool) : World → List (Nat × Nat) → World
  | w, [] => w
  | w, (id, pSession) :: rest =>
    if Update pSession then sweepSessions Update w rest
    else sweepSessions Update (removeFailedSession w id pSession) rest

/-- Source `UpdateSessions(diff)`. -/
def UpdateSessions (w : World) (Update : Nat → Bool) : Option World :=
  match drainAddSessQueue { w with addSessQueue := [] } w.addSessQueue with
  | some w1 => some (sweepSessions Update w1 w1.sessions)
  | none => none

/-! ## Reading the trace -/

/-- The calls recorded after the world `w` in a later world `w1`. -/
def eventsSince (w w1 : World) : List Event := w1.trace.drop w.trace.length

/-- The sessions on which `InitializeSession` was called, in order. -/
def initialized : List Event → List Nat
  | [] => []
  | Event.InitializeSession p :: rest => p :: initialized rest
  | _ :: rest => initialized rest

/-- The `SendAuthWaitQueue` calls: session and position sent, in order. -/
def waitQueueSent : List Event → List (Nat × Nat)
  | [] => []
  | Event.SendAuthWaitQueue x position :: rest => (x, position) :: waitQueueSent rest
  | _ :: rest => waitQueueSent rest

/-- The sessions that were kicked, in order. -/
def kicked : List Event → List Nat
  | [] => []
  | Event.KickPlayer p :: rest => p :: kicked rest
  | _ :: rest => kicked rest

/-! ## Worlds used as examples -/

/-- Session objects for the examples: the session at address `p` belongs to account
`p`, has no skip-queue permission, is not loading, and carries the queued-flag exactly
when `p` is in `queued`. -/
def demoHeap (queued : List Nat) : Nat → WorldSession :=
  fun p => { accountId := p, skipQueue := false, playerLoading := false,
             inQueue := decide (p ∈ queued) }

/-- A world for the examples: the given limit, the sessions `registered` (each under
the account of its own number), the queue `queued`, tolerance setting 0, nothing
traced yet. -/
def demoWorld (limit : Nat) (registered queued : List Nat) : World :=
  { heap := demoHeap queued, sessions := registered.map (fun p => (p, p)),
    queuedPlayer := queued, disconnects := [], playerLimit := limit,
    maxActiveSessionCount := 0, maxQueuedSessionCount := 0, addSessQueue := [],
    disconnectTolerance := 0, gameTime := 0, trace := [] }


/-- A world for the examples in which session 1, registered for account 1, is loading;
every session object belongs to account 1. -/
def demoLoading : World :=
  { demoWorld 2 [1] [] with
    heap := fun _ => { accountId := 1, skipQueue := false, playerLoading := true,
                       inQueue := false } }


/-- A world for the examples as `demoWorld`, except that the session at address `s`
belongs to account `account` (a connection arriving for that account). -/
def demoReconnect (limit : Nat) (registered queued : List Nat) (s account : Nat) : World :=
  { demoWorld limit registered queued with
    heap := fun p =>
      if p = s then { accountId := account, skipQueue := false, playerLoading := false,
                      inQueue := false }
      else demoHeap queued p }

/-- The empty world of the end-to-end scenario of the spec: capacity 2. -/
def scenarioStart : World := SetPlayerAmountLimit (World.empty (demoHeap []) 0 0) 2

/-- The scenario after `AddSession_` on session 1 (A). -/
def scenarioA : World := (AddSession_ scenarioStart 1).getD scenarioStart

/-- The scenario after `AddSession_` on session 2 (B). -/
def scenarioAB : World := (AddSession_ scenarioA 2).getD scenarioStart

/-- The end-to-end scenario of the spec: capacity 2, and the sessions 1, 2, 3 (A, B, C)
have gone through `AddSession_` in that order, starting from the empty world. -/
def scenarioABC : World := (AddSession_ scenarioAB 3).getD scenarioStart

/-! ## Histories -/

/-- A new connection: the session object at `s` is not null and is neither registered
nor queued yet. -/
def freshSession (w : World) (s : Nat) : Prop :=
  s ≠ 0 ∧ s ∉ w.sessions.map Prod.snd ∧ s ∉ w.queuedPlayer

instance (w : World) (s : Nat) : Decidable (freshSession w s) := by
  unfold freshSession; infer_instance

/-- Ownership of sessions by registry and queue: one registry entry per account, no
session registered twice, no session queued twice, every queued session registered. -/
def ownership (w : World) : Prop :=
  (w.sessions.map Prod.fst).Nodup ∧ (w.sessions.map Prod.snd).Nodup ∧
  w.queuedPlayer.Nodup ∧ ∀ x ∈ w.queuedPlayer, x ∈ w.sessions.map Prod.snd

/-- Worlds reached from a world without sessions through `AddSession_` on new
connections, the session sweep of `UpdateSessions`, `RemoveQueuedPlayer` and `KickAll`.
Between these steps anything but registry and queue may change (session objects,
clock, settings, limit, recent-disconnect list). -/
inductive Reachable : World → Prop
  | start (w : World) : w.sessions = [] → w.queuedPlayer = [] → Reachable w
  | outside (w w1 : World) :
      Reachable w → w1.sessions = w.sessions → w1.queuedPlayer = w.queuedPlayer →
      Reachable w1
  | addSession (w : World) (s : Nat) (w1 : World) :
      Reachable w → freshSession w s → AddSession_ w s = some w1 → Reachable w1
  | updateSessions (w : World) (Update : Nat → Bool) (w1 : World) :
      Reachable w → w.addSessQueue = [] → UpdateSessions w Update = some w1 → Reachable w1
  | removeQueuedPlayer (w : World) (sess : Nat) :
      Reachable w → Reachable (RemoveQueuedPlayer w sess).1
  | kickAll (w : World) : Reachable w → Reachable (KickAll w)

/-- Worlds reached under the constant limit `L` from a world without sessions through
admissions (`AddSession_` on a new connection that has no skip-queue permission and has
not recently disconnected, the registry being below `2^32` entries) and removals (the
session sweep of `UpdateSessions`).  Between the steps anything but registry, queue and
limit may change. -/
inductive AdmitRemove (L : Nat) : World → Prop
  | start (w : World) :
      w.sessions = [] → w.queuedPlayer = [] → w.playerLimit = L → AdmitRemove L w
  | outside (w w1 : World) :
      AdmitRemove L w → w1.sessions = w.sessions →
      w1.queuedPlayer = w.queuedPlayer → w1.playerLimit = w.playerLimit →
      AdmitRemove L w1
  | addSession (w : World) (s : Nat) (w1 : World) :
      AdmitRemove L w → freshSession w s → w.sessions.length + 1 < 4294967296 →
      (w.heap s).skipQueue = false → (HasRecentlyDisconnected w s).2 = false →
      AddSession_ w s = some w1 → AdmitRemove L w1
  | updateSessions (w : World) (Update : Nat → Bool) (w1 : World) :
      AdmitRemove L w → w.addSessQueue = [] → UpdateSessions w Update = some w1 →
      AdmitRemove L w1


/-- The invariant behind the capacity bound under the limit `L`: ownership, the limit
itself, a registry below `2^32` entries, and at most `L` registered sessions outside
the queue. -/
def capacityInvariant (L : Nat) (w : World) : Prop :=
  ownership w ∧ w.playerLimit = L ∧ w.sessions.length < 4294967296 ∧
  w.sessions.length ≤ L + w.queuedPlayer.length


/-! ## Shutdown countdown and guid watchdog -/

/-- Modelled from the spec: the time-unit constant `MINUTE` of `Common.h` (not among the
sources); the spec counts the countdown in seconds. -/
def MINUTE : Nat := 60

/-- Modelled from the spec: the time-unit constant `HOUR` of `Common.h`, in seconds. -/
def HOUR : Nat := 3600

/-- Modelled from the spec: the time-unit constant `DAY` of `Common.h`, in seconds. -/
def DAY : Nat := 86400

/-- Modelled from the spec: the constant `IN_MILLISECONDS` of `Common.h`. -/
def IN_MILLISECONDS : Nat := 1000

/-- Enumerator of `ServerMessageType`. -/
def SERVER_MSG_SHUTDOWN_TIME : Nat := 1

/-- Enumerator of `ServerMessageType`. -/
def SERVER_MSG_RESTART_TIME : Nat := 2

/-- Enumerator of `ServerMessageType`. -/
def SERVER_MSG_STRING : Nat := 3

/-- Enumerator of `ServerMessageType`. -/
def SERVER_MSG_SHUTDOWN_CANCELLED : Nat := 4

/-- Enumerator of `ServerMessageType`. -/
def SERVER_MSG_RESTART_CANCELLED : Nat := 5

/-- Enumerator of `ShutdownMask`. -/
def SHUTDOWN_MASK_RESTART : Nat := 1

/-- Enumerator of `ShutdownMask`. -/
def SHUTDOWN_MASK_IDLE : Nat := 2

/-- Enumerator of `ShutdownMask`. -/
def SHUTDOWN_MASK_FORCE : Nat := 4

/-- Enumerator of `ShutdownExitCode`. -/
def SHUTDOWN_EXIT_CODE : Nat := 0

/-- Enumerator of `ShutdownExitCode`. -/
def ERROR_EXIT_CODE : Nat := 1

/-- Enumerator of `ShutdownExitCode`. -/
def RESTART_EXIT_CODE : Nat := 2

/-- Source `IsStopped()`. -/
def IsStopped (w : World) : Bool := w.stopEvent

/-- Source `StopNow(exitcode)`. -/
def StopNow (w : World) (exitcode : Nat) : World :=
  { w with stopEvent := true, exitCode := exitcode }

/-- Source `IsShuttingDown()`. -/
def IsShuttingDown (w : World) : Bool := decide (w.shutdownTimer > 0)

/-- Source `GetShutDownTimeLeft()`. -/
def GetShutDownTimeLeft (w : World) : Nat := w.shutdownTimer

/-- Source `SendServerMessage(messageID, stringParam, player)`: the string parameter is
carried for message types up to `SERVER_MSG_STRING` only. -/
def SendServerMessage (w : World) (messageID : Nat) (stringParam : StringParam)
    (player : Nat) : World :=
  { w with
    messages := w.messages ++
      [{ messageID := messageID
         stringParam := if messageID ≤ SERVER_MSG_STRING then stringParam else StringParam.empty
         player := player }] }

/-- The test of `ShutdownMsg` that decides whether a message is shown. -/
def shutdownMsgDue (show_ : Bool) (timer : Nat) : Prop :=
  show_ = true ∨
  (timer < 5 * MINUTE ∧ timer % 15 = 0) ∨
  (timer < 15 * MINUTE ∧ timer % MINUTE = 0) ∨
  (timer < 30 * MINUTE ∧ timer % (5 * MINUTE) = 0) ∨
  (timer < 12 * HOUR ∧ timer % HOUR = 0) ∨
  (timer > 12 * HOUR ∧ timer % (12 * HOUR) = 0)

instance (show_ : Bool) (timer : Nat) : Decidable (shutdownMsgDue show_ timer) := by
  unfold shutdownMsgDue; infer_instance

/-- Source `ShutdownMsg(show, player, reason)`; `show_` is the parameter `show`. -/
def ShutdownMsg (w : World) (show_ : Bool) (player : Nat) (reason : String) : World :=
  if w.shutdownMask &&& SHUTDOWN_MASK_IDLE ≠ 0 then w
  else if shutdownMsgDue show_ w.shutdownTimer then
    SendServerMessage w
      (if w.shutdownMask &&& SHUTDOWN_MASK_RESTART ≠ 0 then SERVER_MSG_RESTART_TIME
        else SERVER_MSG_SHUTDOWN_TIME)
      (StringParam.countdown w.shutdownTimer reason) player
  else w

/-- Source `ShutdownServ(time, options, exitcode, reason)`.  The script hook
`OnShutdownInitiate` sends nothing and is left out. -/
def ShutdownServ (w : World) (time options exitcode : Nat) (reason : String) : World :=
  if IsStopped w then w
  else if time = 0 then
    { w with shutdownMask := options, exitCode := exitcode, shutdownTimer := 1 }
  else
    ShutdownMsg { w with shutdownMask := options, exitCode := exitcode, shutdownTimer := time }
      true 0 reason

/-- Source `ShutdownCancel()`: the world afterwards and the result.  The script hook
`OnShutdownCancel` sends nothing and is left out. -/
def ShutdownCancel (w : World) : World × Nat :=
  if w.shutdownTimer = 0 ∨ w.stopEvent = true then (w, 0)
  else
    (SendServerMessage
      { w with shutdownMask := 0, shutdownTimer := 0, exitCode := SHUTDOWN_EXIT_CODE }
      (if w.shutdownMask &&& SHUTDOWN_MASK_RESTART ≠ 0 then SERVER_MSG_RESTART_CANCELLED
        else SERVER_MSG_SHUTDOWN_CANCELLED)
      StringParam.empty 0,
     w.shutdownTimer)

/-- The value of `elapsed` in `_UpdateGameTime`, `uint32(GameTime::GetGameTime() -
lastGameTime)`, when `GameTime::UpdateGameTimers()` moves the game time to `newTime`. -/
def elapsedSeconds (w : World) (newTime : Int) : Nat :=
  ((newTime - w.gameTime) % 4294967296).toNat

/-- Source `_UpdateGameTime()`; `newTime` is the game time that
`GameTime::UpdateGameTimers()` sets. -/
def _UpdateGameTime (w : World) (newTime : Int) : World :=
  if IsStopped w = false ∧ w.shutdownTimer > 0 ∧ elapsedSeconds w newTime > 0 then
    if w.shutdownTimer ≤ elapsedSeconds w newTime then
      if w.shutdownMask &&& SHUTDOWN_MASK_IDLE = 0 ∨
          GetActiveAndQueuedSessionCount w = 0 then
        { w with gameTime := newTime, stopEvent := true }
      else { w with gameTime := newTime, shutdownTimer := 1 }
    else
      ShutdownMsg
        { w with gameTime := newTime
                 shutdownTimer := w.shutdownTimer - elapsedSeconds w newTime }
        false 0 ""
  else { w with gameTime := newTime }

/-- A run of ticks as far as `_UpdateGameTime` is concerned.  Each entry gives the
registry at the start of a tick (sessions come and go between ticks) and the game time
the tick moves to. -/
def runTicks : World → List (List (Nat × Nat) × Int) → World
  | w, [] => w
  | w, (registry, newTime) :: rest =>
    runTicks (_UpdateGameTime { w with sessions := registry } newTime) rest

/-- Source `SendGuidWarning()`. -/
def SendGuidWarning (w : World) : World :=
  { (if w.shutdownTimer = 0 ∧ w.guidWarn = true ∧ w.guidWarningFrequency > 0 then
      SendServerMessage w SERVER_MSG_STRING (StringParam.text w.guidWarningMsg) 0
     else w) with warnDiff := 0 }

/-- Source `DoGuidWarningRestart()`. -/
def DoGuidWarningRestart (w : World) : World :=
  if w.shutdownTimer ≠ 0 then w
  else
    { ShutdownServ w 1800 SHUTDOWN_MASK_RESTART RESTART_EXIT_CODE "" with
      warnShutdownTime :=
        (ShutdownServ w 1800 SHUTDOWN_MASK_RESTART RESTART_EXIT_CODE "").warnShutdownTime +
          (HOUR : Int) }

/-- Source `DoGuidAlertRestart()`. -/
def DoGuidAlertRestart (w : World) : World :=
  if w.shutdownTimer ≠ 0 then w
  else ShutdownServ w 300 SHUTDOWN_MASK_RESTART RESTART_EXIT_CODE w.alertRestartReason

/-- The `while` loop of `TriggerGuidWarning`: `today` after the loop, or `none` when
`fuel` evaluations of the loop condition do not end it.  `localHour` stands for
`GetLocalHourTimestamp` (from `Util.h`, not among the sources). -/
def quietDay (localHour : Int → Nat → Int) (gameTime : Int) (hour : Nat) :
    Nat → Int → Option Int
  | 0, _ => none
  | fuel + 1, today =>
    if gameTime ≥ localHour today hour - 1810 then
      quietDay localHour gameTime hour fuel (today + (DAY : Int))
    else some today

/-- Source `TriggerGuidWarning()`, with `GetLocalHourTimestamp` as `localHour` and the
loop run on `fuel`.  The division of `time_t` truncates. -/
def TriggerGuidWarning (localHour : Int → Nat → Int) (fuel : Nat) (w : World) :
    Option World :=
  match quietDay localHour w.gameTime w.restartQuietTime fuel
      (Int.tdiv w.gameTime (DAY : Int) * (DAY : Int)) with
  | some today =>
    some (SendGuidWarning
      { w with
        warnShutdownTime := localHour today w.restartQuietTime - 1800
        guidWarn := true })
  | none => none

/-- Source `TriggerGuidAlert()`. -/
def TriggerGuidAlert (w : World) : World :=
  { DoGuidAlertRestart w with guidAlert := true, guidWarn := false }

/-- The block "Check for shutdown warning" of `Update(diff)`. -/
def guidWarningCheck (w : World) (diff : Nat) : World :=
  if w.guidWarn = true ∧ w.guidAlert = false then
    if w.gameTime ≥ w.warnShutdownTime then
      DoGuidWarningRestart { w with warnDiff := u32 (w.warnDiff + diff) }
    else if u32 (w.warnDiff + diff) > u32 (w.guidWarningFrequency * IN_MILLISECONDS) then
      SendGuidWarning { w with warnDiff := u32 (w.warnDiff + diff) }
    else { w with warnDiff := u32 (w.warnDiff + diff) }
  else w


/-- A world for the examples with a recent-disconnect list: tolerance setting 60 s,
account 5 disconnected at time 1000, game time 2000 (the entry is 1000 s old). -/
def demoStale : World :=
  { demoWorld 0 [] [] with
    disconnectTolerance := 60, disconnects := [(5, 1000)], gameTime := 2000 }

/-- A world for the examples with a countdown: the sessions `registered`, no limit, game
time 0, `_shutdownTimer = timer` and `_shutdownMask = mask`. -/
def demoCountdown (timer mask : Nat) (registered : List Nat) : World :=
  { demoWorld 0 registered [] with shutdownTimer := timer, shutdownMask := mask }

/-- A stand-in for `GetLocalHourTimestamp` in the examples: the given hour of the day
of `time`, days being counted from time 0. -/
def demoLocalHour (time : Int) (hour : Nat) : Int :=
  Int.tdiv time (DAY : Int) * (DAY : Int) + (hour : Int) * (HOUR : Int)

/-- The two triggers of the guid watchdog. -/
inductive Trigger where
  | warning
  | alert
deriving DecidableEq, Repr

/-- A sequence of trigger calls, first to last; `none` when a `TriggerGuidWarning` runs
out of fuel. -/
def runTriggers (localHour : Int → Nat → Int) (fuel : Nat) : World → List Trigger → Option World
  | w, [] => some w
  | w, Trigger.alert :: rest => runTriggers localHour fuel (TriggerGuidAlert w) rest
  | w, Trigger.warning :: rest =>
    match TriggerGuidWarning localHour fuel w with
    | some w1 => runTriggers localHour fuel w1 rest
    | none => none

/-- Worlds reached from one with both watchdog flags clear through `TriggerGuidAlert`,
ticks (`_UpdateGameTime` followed by the warning check of `Update`), and
`TriggerGuidWarning` called while the alert flag is clear.  Between these steps anything
but the two flags may change. -/
inductive WatchdogReachable (localHour : Int → Nat → Int) : World → Prop
  | start (w : World) :
      w.guidWarn = false → w.guidAlert = false → WatchdogReachable localHour w
  | outside (w w1 : World) :
      WatchdogReachable localHour w → w1.guidWarn = w.guidWarn →
      w1.guidAlert = w.guidAlert → WatchdogReachable localHour w1
  | warning (w : World) (fuel : Nat) (w1 : World) :
      WatchdogReachable localHour w → w.guidAlert = false →
      TriggerGuidWarning localHour fuel w = some w1 → WatchdogReachable localHour w1
  | alert (w : World) :
      WatchdogReachable localHour w → WatchdogReachable localHour (TriggerGuidAlert w)
  | tick (w : World) (newTime : Int) (diff : Nat) :
      WatchdogReachable localHour w →
      WatchdogReachable localHour (guidWarningCheck (_UpdateGameTime w newTime) diff)


/-- A world for the watchdog examples: session 1 connected, game time 100000, quiet
hour 3, warning frequency 10 s, no countdown, both watchdog flags clear. -/
def demoWatch : World :=
  { demoCountdown 0 0 [1] with
    gameTime := 100000, restartQuietTime := 3, guidWarningFrequency := 10,
    guidWarningMsg := "guid warning", alertRestartReason := "guid alert" }

/-- The world `demoWatch` after `TriggerGuidWarning` under `demoLocalHour`: the restart is
planned for 181800, half an hour before hour 3 of the next day. -/
def demoWarned : World :=
  SendGuidWarning { demoWatch with warnShutdownTime := 181800, guidWarn := true }


/-- The invariant of admission under the limit `L`: the capacity invariant, and a full
house whenever somebody waits, i.e. with a non-empty queue exactly `L` registered
sessions are outside the queue. -/
def admissionInvariant (L : Nat) (w : World) : Prop :=
  capacityInvariant L w ∧
  (w.queuedPlayer ≠ [] → w.sessions.length = L + w.queuedPlayer.length)


/-- The scenario `scenarioABC` when a new connection, the session object 9, arrives for
account 1. -/
def scenarioArrival : World :=
  { scenarioABC with
    heap := fun p =>
      if p = 9 then { accountId := 1, skipQueue := false, playerLoading := false,
                      inQueue := false }
      else scenarioABC.heap p }

/-- The scenario after `AddSession_` on session 9, the reconnect of account 1. -/
def scenarioReconnect : World := (AddSession_ scenarioArrival 9).getD scenarioStart


/-- Worlds reached from a world without sessions through `AddSession_` on new
connections, `AddQueuedPlayer` on a registered session that is not queued,
`RemoveQueuedPlayer`, the session sweep of `UpdateSessions` and `KickAll`.  Between
these steps anything but registry, queue and the queued-flags may change. -/
inductive FlagHistory : World → Prop
  | start (w : World) : w.sessions = [] → w.queuedPlayer = [] → FlagHistory w
  | outside (w w1 : World) :
      FlagHistory w → w1.sessions = w.sessions → w1.queuedPlayer = w.queuedPlayer →
      (∀ p, (w1.heap p).inQueue = (w.heap p).inQueue) → FlagHistory w1
  | addSession (w : World) (s : Nat) (w1 : World) :
      FlagHistory w → freshSession w s → AddSession_ w s = some w1 → FlagHistory w1
  | addQueuedPlayer (w : World) (sess : Nat) :
      FlagHistory w → sess ∈ w.sessions.map Prod.snd → sess ∉ w.queuedPlayer →
      FlagHistory (AddQueuedPlayer w sess)
  | removeQueuedPlayer (w : World) (sess : Nat) :
      FlagHistory w → FlagHistory (RemoveQueuedPlayer w sess).1
  | updateSessions (w : World) (Update : Nat → Bool) (w1 : World) :
      FlagHistory w → w.addSessQueue = [] → UpdateSessions w Update = some w1 →
      FlagHistory w1
  | kickAll (w : World) : FlagHistory w → FlagHistory (KickAll w)

/-- The invariant of the queued-flags: ownership, and every session in the queue
carries the flag. -/
def queuedFlagged (w : World) : Prop :=
  ownership w ∧ ∀ x ∈ w.queuedPlayer, (w.heap x).inQueue = true


/-- The elapsed seconds observed by the ticks of a run, first to last: the value of
`elapsed` in each `_UpdateGameTime`. -/
def elapsedOfTicks : World → List (List (Nat × Nat) × Int) → List Nat
  | _, [] => []
  | w, (registry, newTime) :: rest =>
    elapsedSeconds { w with sessions := registry } newTime ::
      elapsedOfTicks (_UpdateGameTime { w with sessions := registry } newTime) rest


/-! ## The timer table -/

/-- Enumerator of `WorldTimers`. -/
def WUPDATE_AUCTIONS : Nat := 0

/-- Enumerator of `WorldTimers`. -/
def WUPDATE_AUCTIONS_PENDING : Nat := 1

/-- Enumerator of `WorldTimers`. -/
def WUPDATE_UPTIME : Nat := 2

/-- Enumerator of `WorldTimers`. -/
def WUPDATE_CORPSES : Nat := 3

/-- Enumerator of `WorldTimers`. -/
def WUPDATE_EVENTS : Nat := 4

/-- Enumerator of `WorldTimers`. -/
def WUPDATE_CLEANDB : Nat := 5

/-- Enumerator of `WorldTimers`. -/
def WUPDATE_AUTOBROADCAST : Nat := 6

/-- Enumerator of `WorldTimers`. -/
def WUPDATE_MAILBOXQUEUE : Nat := 7

/-- Enumerator of `WorldTimers`. -/
def WUPDATE_DELETECHARS : Nat := 8

/-- Enumerator of `WorldTimers`. -/
def WUPDATE_AHBOT : Nat := 9

/-- Enumerator of `WorldTimers`. -/
def WUPDATE_PINGDB : Nat := 10

/-- Enumerator of `WorldTimers`. -/
def WUPDATE_CHECK_FILECHANGES : Nat := 11

/-- Enumerator of `WorldTimers`. -/
def WUPDATE_WHO_LIST : Nat := 12

/-- Enumerator of `WorldTimers`. -/
def WUPDATE_CHANNEL_SAVE : Nat := 13

/-- Enumerator of `WorldTimers`: the number of timers. -/
def WUPDATE_COUNT : Nat := 14

/-- Assignment to the array element `_timers[i]`. -/
def setTimer (w : World) (i : Nat) (t : IntervalTimer) : World :=
  { w with timers := fun j => if j = i then t else w.timers j }

/-- The body of the timer loop of `Update(diff)` for the index `i`. -/
def advanceTimer (w : World) (diff i : Nat) : World :=
  if (w.timers i).GetCurrent ≥ 0 then setTimer w i ((w.timers i).Update diff)
  else setTimer w i ((w.timers i).SetCurrent 0)

/-- The timer loop of `Update(diff)`, `for (int i = 0; i < WUPDATE_COUNT; ++i)`. -/
def advanceTimers (w : World) (diff : Nat) : World :=
  (List.range WUPDATE_COUNT).foldl (fun v i => advanceTimer v diff i) w

/-- The statement `_timers[i].Reset()`. -/
def resetTimer (w : World) (i : Nat) : World := setTimer w i (w.timers i).Reset

/-- A callout made under a timer test, recorded. -/
def callDriver (w : World) (d : Driver) : World :=
  { w with driverCalls := w.driverCalls ++ [d] }

/-- The block of `Update` on `WUPDATE_WHO_LIST`. -/
def whoListBlock (w : World) : World :=
  if (w.timers WUPDATE_WHO_LIST).Passed = true then
    callDriver (resetTimer w WUPDATE_WHO_LIST) Driver.WhoListUpdate
  else w

/-- The block of `Update` on `WUPDATE_CHANNEL_SAVE`, entered when the server is stopped
or the timer has passed; the channels are saved under the configuration switch. -/
def channelSaveBlock (w : World) : World :=
  if IsStopped w = true ∨ (w.timers WUPDATE_CHANNEL_SAVE).Passed = true then
    if w.preserveCustomChannels = true then
      callDriver (resetTimer w WUPDATE_CHANNEL_SAVE) Driver.SaveChannels
    else resetTimer w WUPDATE_CHANNEL_SAVE
  else w

/-- The block of `Update` on `WUPDATE_AUCTIONS`, with the mail counter. -/
def auctionsBlock (w : World) : World :=
  if (w.timers WUPDATE_AUCTIONS).Passed = true then
    callDriver
      (if w.mailTimer + 1 > w.mailTimerExpires then
        callDriver { resetTimer w WUPDATE_AUCTIONS with mailTimer := 0 }
          Driver.ReturnOrDeleteOldMails
       else { resetTimer w WUPDATE_AUCTIONS with mailTimer := w.mailTimer + 1 })
      Driver.AuctionUpdate
  else w

/-- The block of `Update` on `WUPDATE_AUCTIONS_PENDING`. -/
def auctionsPendingBlock (w : World) : World :=
  if (w.timers WUPDATE_AUCTIONS_PENDING).Passed = true then
    callDriver (resetTimer w WUPDATE_AUCTIONS_PENDING) Driver.UpdatePendingAuctions
  else w

/-- The block of `Update` on `WUPDATE_AHBOT`: the callout, then the reset. -/
def ahbotBlock (w : World) : World :=
  if (w.timers WUPDATE_AHBOT).Passed = true then
    resetTimer (callDriver w Driver.AuctionBotUpdate) WUPDATE_AHBOT
  else w

/-- The block of `Update` on `WUPDATE_CHECK_FILECHANGES`: the callout, then the reset. -/
def fileChangesBlock (w : World) : World :=
  if (w.timers WUPDATE_CHECK_FILECHANGES).Passed = true then
    resetTimer (callDriver w Driver.ScriptReloadUpdate) WUPDATE_CHECK_FILECHANGES
  else w

/-- The block of `Update` on `WUPDATE_UPTIME`. -/
def uptimeBlock (w : World) : World :=
  if (w.timers WUPDATE_UPTIME).Passed = true then
    callDriver (resetTimer w WUPDATE_UPTIME) Driver.UptimeUpdate
  else w

/-- The block of `Update` on `WUPDATE_CLEANDB`, which stands under
`getIntConfig(CONFIG_LOGDB_CLEARTIME) > 0`. -/
def cleanDbBlock (w : World) : World :=
  if w.logdbClearTime > 0 then
    if (w.timers WUPDATE_CLEANDB).Passed = true then
      callDriver (resetTimer w WUPDATE_CLEANDB) Driver.CleanLogs
    else w
  else w

/-- The block of `Update` on `WUPDATE_AUTOBROADCAST`, which stands under
`getBoolConfig(CONFIG_AUTOBROADCAST)`. -/
def autobroadcastBlock (w : World) : World :=
  if w.autobroadcastOn = true then
    if (w.timers WUPDATE_AUTOBROADCAST).Passed = true then
      callDriver (resetTimer w WUPDATE_AUTOBROADCAST) Driver.SendAutoBroadcast
    else w
  else w

/-- The block of `Update` on `WUPDATE_DELETECHARS`. -/
def deleteCharsBlock (w : World) : World :=
  if (w.timers WUPDATE_DELETECHARS).Passed = true then
    callDriver (resetTimer w WUPDATE_DELETECHARS) Driver.DeleteOldCharacters
  else w

/-- The block of `Update` on `WUPDATE_CORPSES`. -/
def corpsesBlock (w : World) : World :=
  if (w.timers WUPDATE_CORPSES).Passed = true then
    callDriver (resetTimer w WUPDATE_CORPSES) Driver.RemoveOldCorpses
  else w

/-- The block of `Update` on `WUPDATE_EVENTS`: reset, callout, `SetInterval` with the
value `nextGameEvent` the callout returned, and a second reset. -/
def eventsBlock (w : World) (nextGameEvent : Nat) : World :=
  if (w.timers WUPDATE_EVENTS).Passed = true then
    resetTimer
      (setTimer (callDriver (resetTimer w WUPDATE_EVENTS) Driver.GameEventUpdate)
        WUPDATE_EVENTS
        (((callDriver (resetTimer w WUPDATE_EVENTS) Driver.GameEventUpdate).timers
          WUPDATE_EVENTS).SetInterval (nextGameEvent : Int)))
      WUPDATE_EVENTS
  else w

/-- The block of `Update` on `WUPDATE_PINGDB`. -/
def pingDbBlock (w : World) : World :=
  if (w.timers WUPDATE_PINGDB).Passed = true then
    callDriver (resetTimer w WUPDATE_PINGDB) Driver.PingDB
  else w

/-- The statements of `Update` after the timer loop that read or write `_timers`, in
the order of the source; `nextGameEvent` is the value returned by
`sGameEventMgr->Update()`.  The statements between them (quest resets, sessions, maps,
battlegrounds, groups, query callbacks) do not refer to the timer table. -/
def dispatchTimers (w : World) (nextGameEvent : Nat) : World :=
  pingDbBlock
    (eventsBlock
      (corpsesBlock
        (deleteCharsBlock
          (autobroadcastBlock
            (cleanDbBlock
              (uptimeBlock
                (fileChangesBlock
                  (ahbotBlock
                    (auctionsPendingBlock
                      (auctionsBlock (channelSaveBlock (whoListBlock w)))))))))))
      nextGameEvent)

/-- The timer loop of `Update(diff)` followed by the timer blocks. -/
def UpdateTimers (w : World) (diff nextGameEvent : Nat) : World :=
  dispatchTimers (advanceTimers w diff) nextGameEvent

/-- A world for the timer examples: the stop flag clear, every timer with period 1000
and current value 0, except `WUPDATE_UPTIME`, which is disabled with current value -5,
and `WUPDATE_AUCTIONS`, which stands at 990. -/
def demoTimers : World :=
  { demoWorld 0 [] [] with
    timers := fun i =>
      if i = WUPDATE_UPTIME then { interval := 1000, current := -5 }
      else if i = WUPDATE_AUCTIONS then { interval := 1000, current := 990 }
      else { interval := 1000, current := 0 }
    mailTimerExpires := 100 }


/-- The timers whose block in `Update` stands under the test `Passed()` alone, each with
the callout of its block. -/
def timerDrivers : List (Nat × Driver) :=
  [(WUPDATE_WHO_LIST, Driver.WhoListUpdate), (WUPDATE_AUCTIONS, Driver.AuctionUpdate),
   (WUPDATE_AUCTIONS_PENDING, Driver.UpdatePendingAuctions),
   (WUPDATE_AHBOT, Driver.AuctionBotUpdate),
   (WUPDATE_CHECK_FILECHANGES, Driver.ScriptReloadUpdate),
   (WUPDATE_UPTIME, Driver.UptimeUpdate),
   (WUPDATE_DELETECHARS, Driver.DeleteOldCharacters),
   (WUPDATE_CORPSES, Driver.RemoveOldCorpses),
   (WUPDATE_EVENTS, Driver.GameEventUpdate), (WUPDATE_PINGDB, Driver.PingDB)]


/-! ## The command inbox -/

/-- The loop of `BanAccount` over the rows of the account query: for each account whose
session `FindSession(account)` is not null and whose player name differs from the
author, `KickPlayer`.  `playerName p` is the result of `GetPlayerName()` on the session
at `p`.  The statements appended to the database transaction are left out. -/
def kickRows (playerName : Nat → String) (author : String) : World → List Nat → World
  | w, [] => w
  | w, account :: rest =>
    kickRows playerName author
      (if FindSession w account ≠ 0 ∧ playerName (FindSession w account) ≠ author then
        { w with trace := w.trace ++ [Event.KickPlayer (FindSession w account)] }
       else w)
      rest

/-- Source `BanAccount(mode, nameOrIP, duration_secs, reason, author)`, with the answers
of the database as inputs: `isBanned` is the result of
`AccountMgr::IsBannedAccount(nameOrIP)`, and `resultAccounts` holds the account ids of
the rows of the account query made for the mode (`[]` for a null result).  The writes to
the database are left out, and with them the arguments they alone use. -/
def BanAccount (w : World) (mode : BanMode) (isBanned : Bool) (resultAccounts : List Nat)
    (playerName : Nat → String) (author : String) : World × BanReturn :=
  if mode = BanMode.BAN_ACCOUNT ∧ isBanned = true then (w, BanReturn.BAN_EXISTS)
  else
    match mode with
    | BanMode.other _ => (w, BanReturn.BAN_SYNTAX_ERROR)
    | _ =>
      if resultAccounts = [] then
        if mode = BanMode.BAN_IP then (w, BanReturn.BAN_SUCCESS)
        else (w, BanReturn.BAN_NOTFOUND)
      else (kickRows playerName author w resultAccounts, BanReturn.BAN_SUCCESS)

/-- Player names for the ban examples: the session at address 3 plays "admin", every
other session "guest". -/
def demoNames (p : Nat) : String := if p = 3 then "admin" else "guest"


/-! ## The automatic broadcast -/

/-- Reduction to a `uint8`: the value modulo `2^8`. -/
def u8 (n : Nat) : Nat := n % 256

/-- Assignment `m[k] = v` on a `std::map`, kept in ascending key order: overwrite the
entry of `k`, or insert one at its place. -/
def omapSet {β : Type} : List (Nat × β) → Nat → β → List (Nat × β)
  | [], key, v => [(key, v)]
  | (k, x) :: rest, key, v =>
    if key = k then (k, v) :: rest
    else if key < k then (key, v) :: (k, x) :: rest
    else (k, x) :: omapSet rest key v

/-- Read access `m[k]` on a `std::map` of strings: the value of `k`; when `k` has no
entry, one with the empty string is inserted first.  Returns the map afterwards and the
value. -/
def omapIndex (m : List (Nat × String)) (key : Nat) : List (Nat × String) × String :=
  match mapFind m key with
  | some v => (m, v)
  | none => (omapSet m key "", "")

/-- Source `LoadAutobroadcasts()`, with the rows of the query as input: id, weight and
text of each row, the first two read as `uint8`.  Both maps are cleared first. -/
def LoadAutobroadcasts (w : World) (rows : List (Nat × Nat × String)) : World :=
  rows.foldl
    (fun v row =>
      { v with
        autobroadcasts := omapSet v.autobroadcasts (u8 row.1) row.2.2
        autobroadcastsWeights := omapSet v.autobroadcastsWeights (u8 row.1) (u8 row.2.1) })
    { w with autobroadcasts := [], autobroadcastsWeights := [] }

/-- The first loop of `SendAutoBroadcast`: the `uint32` sum `weight` of the non-zero
weights and the map `selectionWeights` of the entries that have one. -/
def accumulateWeights : List (Nat × Nat) → Nat × List (Nat × Nat) → Nat × List (Nat × Nat)
  | [], acc => acc
  | (id, wt) :: rest, (weight, selectionWeights) =>
    if wt ≠ 0 then accumulateWeights rest (u32 (weight + wt), omapSet selectionWeights id wt)
    else accumulateWeights rest (weight, selectionWeights)

/-- The second loop of `SendAutoBroadcast`: the id of the first entry of
`selectionWeights` at which the running `uint32` sum exceeds `selectedWeight`; `none`
when the loop ends without a `break`. -/
def pickWeighted (selectedWeight : Nat) : List (Nat × Nat) → Nat → Option Nat
  | [], _ => none
  | (id, wt) :: rest, weight =>
    if selectedWeight < u32 (weight + wt) then some id
    else pickWeighted selectedWeight rest (u32 (weight + wt))

/-- The sending part of `SendAutoBroadcast`, by `CONFIG_AUTOBROADCAST_CENTER`. -/
def sendBroadcastText (w : World) (msg : String) : World :=
  if w.autobroadcastCenter = 0 then
    { w with broadcasts := w.broadcasts ++ [BroadcastCall.SendWorldText msg] }
  else if w.autobroadcastCenter = 1 then
    { w with broadcasts := w.broadcasts ++ [BroadcastCall.SendGlobalMessage msg] }
  else if w.autobroadcastCenter = 2 then
    { w with broadcasts := w.broadcasts ++
        [BroadcastCall.SendWorldText msg, BroadcastCall.SendGlobalMessage msg] }
  else w

/-- Source `SendAutoBroadcast()`.  `urand min max` is the result of the call
`urand(min, max)`, a draw between `min` and `max`, both included.  The key of `m[k]` is
a `uint8`. -/
def SendAutoBroadcast (urand : Nat → Nat → Nat) (w : World) : World :=
  if w.autobroadcasts = [] then w
  else if (accumulateWeights w.autobroadcastsWeights (0, [])).1 ≠ 0 then
    match pickWeighted (u32 (urand 0 ((accumulateWeights w.autobroadcastsWeights (0, [])).1 - 1)))
        (accumulateWeights w.autobroadcastsWeights (0, [])).2 0 with
    | some id =>
      sendBroadcastText
        { w with autobroadcasts := (omapIndex w.autobroadcasts (u8 id)).1 }
        (omapIndex w.autobroadcasts (u8 id)).2
    | none => sendBroadcastText w ""
  else
    sendBroadcastText
      { w with
        autobroadcasts :=
          (omapIndex w.autobroadcasts (u8 (u32 (urand 0 w.autobroadcasts.length)))).1 }
      (omapIndex w.autobroadcasts (u8 (u32 (urand 0 w.autobroadcasts.length)))).2

/-- A world for the broadcast examples: `LoadAutobroadcasts` has read the single row
with id 5, weight 0 and the text "hello". -/
def demoBroadcast : World := LoadAutobroadcasts (demoWorld 0 [] []) [(5, 0, "hello")]

/-- A world for the broadcast examples: `LoadAutobroadcasts` has read the rows with the
ids 1, 2, 3, the weights 0, 2, 1 and the texts "one", "two", "three". -/
def demoWeighted : World :=
  LoadAutobroadcasts (demoWorld 0 [] []) [(1, 0, "one"), (2, 2, "two"), (3, 1, "three")]


/-- Worlds reached under the constant limit `L` as in `AdmitRemove`, where every
admission is of a new connection without skip-queue permission whose account has no
entry in the recent-disconnect list, or is made with the tolerance setting at 0: the
arrivals that have not recently disconnected whatever the age of the listed entries. -/
inductive AdmitUnlisted (L : Nat) : World → Prop
  | start (w : World) :
      w.sessions = [] → w.queuedPlayer = [] → w.playerLimit = L → AdmitUnlisted L w
  | outside (w w1 : World) :
      AdmitUnlisted L w → w1.sessions = w.sessions →
      w1.queuedPlayer = w.queuedPlayer → w1.playerLimit = w.playerLimit →
      AdmitUnlisted L w1
  | addSession (w : World) (s : Nat) (w1 : World) :
      AdmitUnlisted L w → freshSession w s → w.sessions.length + 1 < 4294967296 →
      (w.heap s).skipQueue = false →
      (w.disconnectTolerance = 0 ∨ (w.heap s).accountId ∉ w.disconnects.map Prod.fst) →
      AddSession_ w s = some w1 → AdmitUnlisted L w1
  | updateSessions (w : World) (Update : Nat → Bool) (w1 : World) :
      AdmitUnlisted L w → w.addSessQueue = [] → UpdateSessions w Update = some w1 →
      AdmitUnlisted L w1

/-- Session objects for the example of a late return: the session at address 9 belongs
to account 1, every other session at address `p` to account `p`; nobody has the
skip-queue permission. -/
def returnHeap : Nat → WorldSession :=
  fun p => { accountId := if p = 9 then 1 else p, skipQueue := false,
             playerLoading := false, inQueue := false }

/-- The late return, start: no session, limit 1, tolerance 60 s, game time 0. -/
def returnStart : World := SetPlayerAmountLimit (World.empty returnHeap 60 0) 1

/-- The late return after `AddSession_` on session 1 (account 1). -/
def returnAdmitted : World := (AddSession_ returnStart 1).getD returnStart

/-- The late return after `UpdateSessions` at game time 1000 in which the `Update` of
session 1 fails: the session is removed and its disconnect recorded. -/
def returnGone : World :=
  (UpdateSessions { returnAdmitted with gameTime := 1000 } (fun p => decide (p ≠ 1))).getD
    returnStart

/-- The late return after `AddSession_` on session 2 (account 2), at game time 5000. -/
def returnLater : World :=
  { (AddSession_ returnGone 2).getD returnStart with gameTime := 5000 }

/-- The late return after `AddSession_` on session 9, a new connection of account 1. -/
def returnBack : World := (AddSession_ returnLater 9).getD returnStart

end World

open World


/-! ## Arithmetic of the `uint32` helpers -/

theorem u32_of_lt {n : Nat} (h : n < 4294967296) : u32 n = n := Nat.mod_eq_of_lt h

theorem u32sub_of_le {a b : Nat} (hb : b ≤ a) (ha : a < 4294967296) : u32sub a b = a - b := by
  unfold u32sub; omega

theorem toInt32_of_lt {n : Nat} (h : n < 2147483648) : toInt32 n = (n : Int) := by
  unfold toInt32
  have h1 : n % 4294967296 = n := Nat.mod_eq_of_lt (by omega)
  rw [h1, if_pos h]

/-! ## The association list -/

theorem mapSet_of_find_none {β : Type} (m : List (Nat × β)) (k : Nat) (v : β)
    (h : mapFind m k = none) : mapSet m k v = m ++ [(k, v)] := by
  induction m with
  | nil => rfl
  | cons e m ih =>
    obtain ⟨k1, x⟩ := e
    simp only [mapFind] at h
    by_cases hk : k1 = k
    · simp [hk] at h
    · simp only [hk, if_false] at h
      simp [mapSet, hk, ih h]

theorem mapSet_length_of_find_some {β : Type} (m : List (Nat × β)) (k : Nat) (v x : β)
    (h : mapFind m k = some x) : (mapSet m k v).length = m.length := by
  induction m with
  | nil => simp [mapFind] at h
  | cons e m ih =>
    obtain ⟨k1, y⟩ := e
    by_cases hk : k1 = k
    · simp [mapSet, hk]
    · simp only [mapFind, hk, if_false] at h
      simp [mapSet, hk, ih h]

theorem mapFind_mapSet_self {β : Type} (m : List (Nat × β)) (k : Nat) (v : β) :
    mapFind (mapSet m k v) k = some v := by
  induction m with
  | nil => simp [mapSet, mapFind]
  | cons e m ih =>
    obtain ⟨k1, y⟩ := e
    by_cases hk : k1 = k
    · simp [mapSet, mapFind, hk]
    · simp [mapSet, mapFind, hk, ih]

/-! ## The search loop of `RemoveQueuedPlayer` -/

theorem searchQueue_queue (sess : Nat) (q : List Nat) (position : Nat) :
    (searchQueue sess q position).1 = q.erase sess := by
  induction q generalizing position with
  | nil => rfl
  | cons x q ih =>
    by_cases hx : x = sess
    · simp [searchQueue, hx]
    · simp [searchQueue, hx, ih, List.erase_cons_tail]

theorem searchQueue_found (sess : Nat) (q : List Nat) (position : Nat) :
    (searchQueue sess q position).2.1 = decide (sess ∈ q) := by
  induction q generalizing position with
  | nil => simp [searchQueue]
  | cons x q ih =>
    by_cases hx : x = sess
    · simp [searchQueue, hx]
    · have hx2 : ¬ sess = x := fun h => hx h.symm
      simp [searchQueue, hx, hx2, ih]

theorem searchQueue_iter_of_not_mem (sess : Nat) (q : List Nat) (position : Nat)
    (h : sess ∉ q) : (searchQueue sess q position).2.2.1 = [] := by
  induction q generalizing position with
  | nil => rfl
  | cons x q ih =>
    have hx : ¬ x = sess := fun e => h (by simp [e])
    have hq : sess ∉ q := fun e => h (List.mem_cons_of_mem _ e)
    simp [searchQueue, hx, ih _ hq]

/-- When the session is found behind `pre`, the iterator is left on the entries after
it and the counter has advanced once per skipped entry. -/
theorem searchQueue_split (sess : Nat) (pre post : List Nat) (position : Nat)
    (h : sess ∉ pre) (hpos : position + pre.length < 4294967296) :
    searchQueue sess (pre ++ sess :: post) position =
      (pre ++ post, true, post, position + pre.length) := by
  induction pre generalizing position with
  | nil => simp [searchQueue]
  | cons x pre ih =>
    have hx : ¬ x = sess := fun e => h (by simp [e])
    have hq : sess ∉ pre := fun e => h (List.mem_cons_of_mem _ e)
    have hp : u32 (position + 1) = position + 1 := u32_of_lt (by simp at hpos; omega)
    have := ih (position + 1) hq (by simp at hpos; omega)
    simp [searchQueue, hx, hp, this]
    omega

/-! ## What `RemoveQueuedPlayer` returns and writes -/

theorem promotionTest_iff (w : World) (sess : Nat) :
    promotionTest w sess ↔
      (w.playerLimit = 0 ∨
        sessionsForPromotion w (decide (sess ∈ w.queuedPlayer)) < w.playerLimit) ∧
      w.queuedPlayer.erase sess ≠ [] := by
  unfold promotionTest
  rw [searchQueue_found, searchQueue_queue]

theorem removeQueuedPlayer_found (w : World) (sess : Nat) :
    (RemoveQueuedPlayer w sess).2 = decide (sess ∈ w.queuedPlayer) := by
  unfold RemoveQueuedPlayer
  simp only []
  split <;> simp [searchQueue_found]

theorem removeQueuedPlayer_sessions (w : World) (sess : Nat) :
    (RemoveQueuedPlayer w sess).1.sessions = w.sessions := by
  unfold RemoveQueuedPlayer
  simp only []
  split <;> rfl

theorem removeQueuedPlayer_playerLimit (w : World) (sess : Nat) :
    (RemoveQueuedPlayer w sess).1.playerLimit = w.playerLimit := by
  unfold RemoveQueuedPlayer
  simp only []
  split <;> rfl

theorem removeQueuedPlayer_disconnects (w : World) (sess : Nat) :
    (RemoveQueuedPlayer w sess).1.disconnects = w.disconnects := by
  unfold RemoveQueuedPlayer
  simp only []
  split <;> rfl

theorem removeQueuedPlayer_config (w : World) (sess : Nat) :
    (RemoveQueuedPlayer w sess).1.disconnectTolerance = w.disconnectTolerance ∧
    (RemoveQueuedPlayer w sess).1.gameTime = w.gameTime ∧
    (RemoveQueuedPlayer w sess).1.addSessQueue = w.addSessQueue ∧
    (RemoveQueuedPlayer w sess).1.maxActiveSessionCount = w.maxActiveSessionCount ∧
    (RemoveQueuedPlayer w sess).1.maxQueuedSessionCount = w.maxQueuedSessionCount := by
  unfold RemoveQueuedPlayer
  simp only []
  split <;> exact ⟨rfl, rfl, rfl, rfl, rfl⟩

theorem removeQueuedPlayer_heap (w : World) (sess : Nat) :
    (RemoveQueuedPlayer w sess).1.heap =
      if sess ∈ w.queuedPlayer then SetInQueue w.heap sess false else w.heap := by
  unfold RemoveQueuedPlayer
  simp only []
  split <;> simp [searchQueue_found]

theorem removeQueuedPlayer_queue (w : World) (sess : Nat) :
    (RemoveQueuedPlayer w sess).1.queuedPlayer =
      if promotionTest w sess then (w.queuedPlayer.erase sess).tail
      else w.queuedPlayer.erase sess := by
  unfold RemoveQueuedPlayer
  simp only []
  split <;> simp [searchQueue_queue]

/-- The calls made by one `RemoveQueuedPlayer(sess)`. -/
theorem removeQueuedPlayer_trace (w : World) (sess : Nat) :
    (RemoveQueuedPlayer w sess).1.trace =
      w.trace ++
        ((if sess ∈ w.queuedPlayer then [Event.ResetTimeOutTime sess] else []) ++
          (if promotionTest w sess then
            Event.InitializeSession ((w.queuedPlayer.erase sess).headD 0) ::
              notifyFrom (w.queuedPlayer.erase sess).tail 1
           else notifyFrom (searchQueue sess w.queuedPlayer 1).2.2.1
                  (searchQueue sess w.queuedPlayer 1).2.2.2)) := by
  unfold RemoveQueuedPlayer
  simp only []
  by_cases hm : sess ∈ w.queuedPlayer <;> split <;>
    simp [searchQueue_found, searchQueue_queue, hm]

theorem eventsSince_append (w w1 : World) (evs : List Event)
    (h : w1.trace = w.trace ++ evs) : eventsSince w w1 = evs := by
  unfold eventsSince
  rw [h, List.drop_left]

theorem initialized_append (a b : List Event) :
    initialized (a ++ b) = initialized a ++ initialized b := by
  induction a with
  | nil => rfl
  | cons e a ih => cases e <;> simp [initialized, ih]

theorem waitQueueSent_append (a b : List Event) :
    waitQueueSent (a ++ b) = waitQueueSent a ++ waitQueueSent b := by
  induction a with
  | nil => rfl
  | cons e a ih => cases e <;> simp [waitQueueSent, ih]

theorem initialized_notifyFrom (l : List Nat) (position : Nat) :
    initialized (notifyFrom l position) = [] := by
  induction l generalizing position with
  | nil => rfl
  | cons x l ih => simp [notifyFrom, initialized, ih]

theorem waitQueueSent_notifyFrom (l : List Nat) (position : Nat)
    (h : position + l.length < 4294967296) :
    waitQueueSent (notifyFrom l position) = l.zip (List.range' position l.length) := by
  induction l generalizing position with
  | nil => rfl
  | cons x l ih =>
    have hp : u32 (position + 1) = position + 1 := u32_of_lt (by simp at h; omega)
    have := ih (position + 1) (by simp at h; omega)
    simp [notifyFrom, waitQueueSent, hp, this, List.range'_succ]


/-! ## `HasRecentlyDisconnected` only rewrites `_disconnects` -/

theorem hasRecentlyDisconnected_frame (w : World) (s : Nat) :
    (HasRecentlyDisconnected w s).1.heap = w.heap ∧
    (HasRecentlyDisconnected w s).1.sessions = w.sessions ∧
    (HasRecentlyDisconnected w s).1.queuedPlayer = w.queuedPlayer ∧
    (HasRecentlyDisconnected w s).1.playerLimit = w.playerLimit ∧
    (HasRecentlyDisconnected w s).1.trace = w.trace ∧
    (HasRecentlyDisconnected w s).1.maxActiveSessionCount = w.maxActiveSessionCount ∧
    (HasRecentlyDisconnected w s).1.maxQueuedSessionCount = w.maxQueuedSessionCount := by
  unfold HasRecentlyDisconnected
  by_cases hs : s = 0
  · simp [hs]
  · by_cases ht : w.disconnectTolerance = 0 <;> simp [hs, ht]

theorem hasRecentlyDisconnected_sessions (w : World) (m : List (Nat × Nat)) (s : Nat) :
    (HasRecentlyDisconnected { w with sessions := m } s).2 = (HasRecentlyDisconnected w s).2 := by
  unfold HasRecentlyDisconnected
  by_cases hs : s = 0
  · simp [hs]
  · by_cases ht : w.disconnectTolerance = 0 <;> simp [hs, ht]

theorem removeSession_of_find_none (w : World) (id : Nat) (h : mapFind w.sessions id = none) :
    RemoveSession w id = (w, true) := by
  unfold RemoveSession
  rw [h]

theorem replaceOld_of_find_none (w : World) (id : Nat) (h : mapFind w.sessions id = none) :
    replaceOld w id = (w, true) := by
  unfold replaceOld
  rw [h]

theorem afterQueueTest_frame (w : World) (s : Nat) (d : Bool) :
    (afterQueueTest w s d).heap = w.heap ∧
    (afterQueueTest w s d).sessions = w.sessions ∧
    (afterQueueTest w s d).queuedPlayer = w.queuedPlayer ∧
    (afterQueueTest w s d).playerLimit = w.playerLimit ∧
    (afterQueueTest w s d).trace = w.trace ∧
    (afterQueueTest w s d).maxActiveSessionCount = w.maxActiveSessionCount ∧
    (afterQueueTest w s d).maxQueuedSessionCount = w.maxQueuedSessionCount := by
  unfold afterQueueTest
  split
  · exact hasRecentlyDisconnected_frame w s
  · exact ⟨rfl, rfl, rfl, rfl, rfl, rfl, rfl⟩

/-- The outcome of the last part of `AddSession_` in terms of the queue test. -/
theorem registerArrival_fields (w : World) (s : Nat) (d : Bool) :
    (registerArrival w s d).sessions = mapSet w.sessions (w.heap s).accountId s ∧
    (registerArrival w s d).playerLimit = w.playerLimit ∧
    (registerArrival w s d).queuedPlayer =
      w.queuedPlayer ++
        (if queueTest { w with sessions := mapSet w.sessions (w.heap s).accountId s } s d
          then [s] else []) ∧
    (registerArrival w s d).heap =
      (if queueTest { w with sessions := mapSet w.sessions (w.heap s).accountId s } s d
        then SetInQueue w.heap s true else w.heap) ∧
    (registerArrival w s d).trace =
      w.trace ++
        (if queueTest { w with sessions := mapSet w.sessions (w.heap s).accountId s } s d
          then [Event.SendAuthResponse s
                  (toInt32 (queuePosFrom s (w.queuedPlayer ++ [s]) 1))]
          else [Event.InitializeSession s]) := by
  obtain ⟨h1, h2, h3, h4, h5, -, -⟩ := afterQueueTest_frame
    { w with sessions := mapSet w.sessions (w.heap s).accountId s } s d
  unfold registerArrival
  simp only []
  split
  · simp [UpdateMaxSessionCounters, AddQueuedPlayer, h1, h2, h3, h4, h5]
  · simp [UpdateMaxSessionCounters, initializeArrival, h1, h2, h3, h4, h5]

/-- C1. `AddSession_` for an account without a registered session: the session is
entered into the registry; it is appended to the queue, flagged as queued and not
initialized exactly when the limit is set, the registry already held at least that
many sessions, the session has no skip-queue permission and has not recently
disconnected; otherwise it is initialized and the queue stays as it was. -/
theorem addSession_fresh_identity (w : World) (s : Nat) (hs : s ≠ 0)
    (hfresh : mapFind w.sessions (w.heap s).accountId = none)
    (hsize : w.sessions.length < 4294967296) :
    ∃ w1, AddSession_ w s = some w1 ∧
      w1.sessions = w.sessions ++ [((w.heap s).accountId, s)] ∧
      (if 0 < w.playerLimit ∧ w.playerLimit ≤ w.sessions.length ∧
            (w.heap s).skipQueue = false ∧ (HasRecentlyDisconnected w s).2 = false then
          w1.queuedPlayer = w.queuedPlayer ++ [s] ∧ (w1.heap s).inQueue = true ∧
            initialized (eventsSince w w1) = []
        else
          w1.queuedPlayer = w.queuedPlayer ∧ w1.heap = w.heap ∧
            eventsSince w w1 = [Event.InitializeSession s]) := by
  have hlen : u32 (u32 (w.sessions.length + 1) + 4294967295) = w.sessions.length := by
    unfold u32; omega
  have hset := mapSet_of_find_none w.sessions _ s hfresh
  have hsa : sessionsForAdmission
      { w with sessions := mapSet w.sessions (w.heap s).accountId s } true =
        w.sessions.length := by
    simp [sessionsForAdmission, GetActiveAndQueuedSessionCount, hset, hlen]
  have hrd := hasRecentlyDisconnected_sessions w (mapSet w.sessions (w.heap s).accountId s) s
  have hqt : queueTest { w with sessions := mapSet w.sessions (w.heap s).accountId s } s true ↔
      (0 < w.playerLimit ∧ w.playerLimit ≤ w.sessions.length ∧
        (w.heap s).skipQueue = false ∧ (HasRecentlyDisconnected w s).2 = false) := by
    unfold queueTest
    rw [hsa, hrd]
    exact Iff.rfl
  obtain ⟨f1, -, f3, f4, f5⟩ := registerArrival_fields w s true
  unfold AddSession_
  rw [removeSession_of_find_none w _ hfresh, replaceOld_of_find_none w _ hfresh]
  simp only [hs, if_false]
  refine ⟨_, rfl, by rw [f1, hset], ?_⟩
  rw [f3, f4, eventsSince_append w _ _ f5]
  by_cases hq : queueTest { w with sessions := mapSet w.sessions (w.heap s).accountId s } s true
  · rw [if_pos (hqt.mp hq), if_pos hq, if_pos hq, if_pos hq]
    exact ⟨rfl, by simp [SetInQueue], rfl⟩
  · rw [if_neg (fun h => hq (hqt.mpr h)), if_neg hq, if_neg hq, if_neg hq]
    exact ⟨by simp, rfl, rfl⟩

theorem sessionsForPromotion_eq (w : World) (sess : Nat) :
    sessionsForPromotion w (decide (sess ∈ w.queuedPlayer)) =
      if sess ∈ w.queuedPlayer then GetActiveSessionCount w
      else GetActiveSessionCount w - 1 := by
  unfold sessionsForPromotion
  by_cases hm : sess ∈ w.queuedPlayer
  · simp [hm]
  · by_cases h0 : GetActiveSessionCount w = 0 <;> simp [hm, h0]

theorem removeQueuedPlayer_initialized (w : World) (sess : Nat) :
    initialized (eventsSince w (RemoveQueuedPlayer w sess).1) =
      if promotionTest w sess then [(w.queuedPlayer.erase sess).headD 0] else [] := by
  rw [eventsSince_append w _ _ (removeQueuedPlayer_trace w sess)]
  by_cases hm : sess ∈ w.queuedPlayer <;> by_cases hp : promotionTest w sess <;>
    simp [hm, hp, initialized_append, initialized, initialized_notifyFrom]

/-- C4. Promotion rule of `RemoveQueuedPlayer(sess)`: with `q1` the queue without
`sess` and `n` the active count (one less, not below zero, when `sess` was not
queued), the call initializes a session exactly when `q1` is not empty and the limit
is zero or above `n`; it is then the head of `q1`, nobody else is initialized, and
the queue left behind is the rest of `q1`; otherwise nobody is initialized and the
queue left behind is `q1`.  The queue left behind keeps the order of the old one. -/
theorem removeQueuedPlayer_promotion_rule (w : World) (sess : Nat) :
    (if w.queuedPlayer.erase sess ≠ [] ∧
          (w.playerLimit = 0 ∨
            (if sess ∈ w.queuedPlayer then GetActiveSessionCount w
              else GetActiveSessionCount w - 1) < w.playerLimit) then
        ∃ head rest, w.queuedPlayer.erase sess = head :: rest ∧
          initialized (eventsSince w (RemoveQueuedPlayer w sess).1) = [head] ∧
          (RemoveQueuedPlayer w sess).1.queuedPlayer = rest
      else
        initialized (eventsSince w (RemoveQueuedPlayer w sess).1) = [] ∧
          (RemoveQueuedPlayer w sess).1.queuedPlayer = w.queuedPlayer.erase sess) ∧
    (RemoveQueuedPlayer w sess).1.queuedPlayer.Sublist w.queuedPlayer := by
  have hiff := promotionTest_iff w sess
  rw [sessionsForPromotion_eq] at hiff
  refine ⟨?_, ?_⟩
  · by_cases hp : promotionTest w sess
    · have hc := hiff.mp hp
      rw [if_pos ⟨hc.2, hc.1⟩, removeQueuedPlayer_initialized, removeQueuedPlayer_queue,
        if_pos hp, if_pos hp]
      cases hq : w.queuedPlayer.erase sess with
      | nil => exact absurd hq hc.2
      | cons head rest => exact ⟨head, rest, rfl, rfl, rfl⟩
    · have hc : ¬ (w.queuedPlayer.erase sess ≠ [] ∧
          (w.playerLimit = 0 ∨
            (if sess ∈ w.queuedPlayer then GetActiveSessionCount w
              else GetActiveSessionCount w - 1) < w.playerLimit)) :=
        fun h => hp (hiff.mpr ⟨h.2, h.1⟩)
      rw [if_neg hc, removeQueuedPlayer_initialized, removeQueuedPlayer_queue,
        if_neg hp, if_neg hp]
      exact ⟨rfl, rfl⟩
  · rw [removeQueuedPlayer_queue]
    split
    · exact (List.tail_sublist _).trans (List.erase_sublist _ _)
    · exact List.erase_sublist _ _

/-- C5. `RemoveQueuedPlayer(sess)` returns `true` exactly when `sess` was in the queue;
for a session that was not, it returns `false`, writes no session object (so the
queued-flag of `sess` is as before), and the old queue is the new one with, in front,
the promoted session when there is one. -/
theorem removeQueuedPlayer_result (w : World) (sess : Nat) :
    ((RemoveQueuedPlayer w sess).2 = true ↔ sess ∈ w.queuedPlayer) ∧
    (sess ∉ w.queuedPlayer →
      (RemoveQueuedPlayer w sess).2 = false ∧
      (RemoveQueuedPlayer w sess).1.heap = w.heap ∧
      (initialized (eventsSince w (RemoveQueuedPlayer w sess).1)).length ≤ 1 ∧
      w.queuedPlayer =
        initialized (eventsSince w (RemoveQueuedPlayer w sess).1) ++
          (RemoveQueuedPlayer w sess).1.queuedPlayer) := by
  refine ⟨by simp [removeQueuedPlayer_found], fun hm => ?_⟩
  have he : w.queuedPlayer.erase sess = w.queuedPlayer := List.erase_of_not_mem hm
  rw [removeQueuedPlayer_found, removeQueuedPlayer_heap, removeQueuedPlayer_initialized,
    removeQueuedPlayer_queue, he]
  refine ⟨by simp [hm], by simp [hm], ?_, ?_⟩
  · split <;> simp
  · by_cases hp : promotionTest w sess
    · have hne : w.queuedPlayer ≠ [] := he ▸ ((promotionTest_iff w sess).mp hp).2
      rw [if_pos hp, if_pos hp]
      cases hq : w.queuedPlayer with
      | nil => exact absurd hq hne
      | cons head rest => simp
    · rw [if_neg hp, if_neg hp]; simp


/-- C4, at an instance: limit 2, session 1 active, sessions 2 and 3 queued; when
session 1 goes through `RemoveQueuedPlayer`, session 2 is promoted and 3 stays. -/
theorem removeQueuedPlayer_promotion_rule_witness :
    ∃ head rest, (demoWorld 2 [1, 2, 3] [2, 3]).queuedPlayer.erase 1 = head :: rest ∧
      initialized (eventsSince (demoWorld 2 [1, 2, 3] [2, 3])
        (RemoveQueuedPlayer (demoWorld 2 [1, 2, 3] [2, 3]) 1).1) = [head] ∧
      (RemoveQueuedPlayer (demoWorld 2 [1, 2, 3] [2, 3]) 1).1.queuedPlayer = rest := by
  have h := (removeQueuedPlayer_promotion_rule (demoWorld 2 [1, 2, 3] [2, 3]) 1).1
  rw [if_pos (by decide)] at h
  exact h

/-- C5, at an instance: limit 1, session 1 active, sessions 2 and 3 queued; session 1,
which is not queued, goes through `RemoveQueuedPlayer`. -/
theorem removeQueuedPlayer_result_witness :
    1 ∉ (demoWorld 1 [1, 2, 3] [2, 3]).queuedPlayer ∧
    (RemoveQueuedPlayer (demoWorld 1 [1, 2, 3] [2, 3]) 1).2 = false ∧
    (RemoveQueuedPlayer (demoWorld 1 [1, 2, 3] [2, 3]) 1).1.heap =
      (demoWorld 1 [1, 2, 3] [2, 3]).heap ∧
    (initialized (eventsSince (demoWorld 1 [1, 2, 3] [2, 3])
      (RemoveQueuedPlayer (demoWorld 1 [1, 2, 3] [2, 3]) 1).1)).length ≤ 1 ∧
    (demoWorld 1 [1, 2, 3] [2, 3]).queuedPlayer =
      initialized (eventsSince (demoWorld 1 [1, 2, 3] [2, 3])
        (RemoveQueuedPlayer (demoWorld 1 [1, 2, 3] [2, 3]) 1).1) ++
        (RemoveQueuedPlayer (demoWorld 1 [1, 2, 3] [2, 3]) 1).1.queuedPlayer :=
  ⟨by decide, (removeQueuedPlayer_result (demoWorld 1 [1, 2, 3] [2, 3]) 1).2 (by decide)⟩

/-! ## Positions: `GetQueuePos` against the positions that are sent -/

theorem queuePosFrom_append_of_not_mem (x : Nat) (pre post : List Nat) (position : Nat)
    (h : x ∉ pre) (hb : position + pre.length < 4294967296) :
    queuePosFrom x (pre ++ post) position = queuePosFrom x post (position + pre.length) := by
  induction pre generalizing position with
  | nil => simp
  | cons y pre ih =>
    have hy : ¬ y = x := fun e => h (by simp [e])
    have hq : x ∉ pre := fun e => h (List.mem_cons_of_mem _ e)
    have hp : u32 (position + 1) = position + 1 := u32_of_lt (by simp at hb; omega)
    have := ih (position + 1) hq (by simp at hb; omega)
    have he : position + 1 + pre.length = position + (y :: pre).length := by
      simp only [List.length_cons]; omega
    rw [List.cons_append, queuePosFrom, if_neg hy, hp, this, he]

theorem queuePosFrom_append_self (s : Nat) (q : List Nat) (position : Nat)
    (h : s ∉ q) (hb : position + q.length < 4294967296) :
    queuePosFrom s (q ++ [s]) position = position + q.length := by
  rw [queuePosFrom_append_of_not_mem s q [s] position h hb]
  simp [queuePosFrom]

/-- A pair of the list zipped with the positions counted from `position` names the
place of its session. -/
theorem zip_positions (l : List Nat) (position x p : Nat) (hnd : l.Nodup)
    (hb : position + l.length < 4294967296)
    (hm : (x, p) ∈ l.zip (List.range' position l.length)) :
    position ≤ p ∧ x ∈ l ∧ queuePosFrom x l position = p ∧ l[p - position]? = some x := by
  induction l generalizing position with
  | nil => simp at hm
  | cons y l ih =>
    simp only [List.length_cons, List.range'_succ, List.zip_cons_cons, List.mem_cons,
      Prod.mk.injEq] at hm
    rcases hm with ⟨rfl, rfl⟩ | hm
    · simp [queuePosFrom]
    · have hnd2 := (List.nodup_cons.mp hnd)
      have hp : u32 (position + 1) = position + 1 := u32_of_lt (by simp at hb; omega)
      obtain ⟨h1, h2, h3, h4⟩ := ih (position + 1) hnd2.2 (by simp at hb; omega) hm
      have hy : ¬ y = x := fun e => hnd2.1 (e ▸ h2)
      refine ⟨by omega, List.mem_cons_of_mem _ h2, ?_, ?_⟩
      · simp [queuePosFrom, hy, hp, h3]
      · have : p - position = (p - (position + 1)) + 1 := by omega
        rw [this, List.getElem?_cons_succ]
        exact h4

theorem zip_positions_append (pre post : List Nat) (position x p : Nat)
    (hnd : (pre ++ post).Nodup) (hb : position + (pre ++ post).length < 4294967296)
    (hm : (x, p) ∈ post.zip (List.range' (position + pre.length) post.length)) :
    position ≤ p ∧ queuePosFrom x (pre ++ post) position = p ∧
      (pre ++ post)[p - position]? = some x := by
  have hnd2 := List.nodup_append.mp hnd
  simp only [List.length_append] at hb
  obtain ⟨h1, h2, h3, h4⟩ := zip_positions post (position + pre.length) x p hnd2.2.1
    (by omega) hm
  have hx : x ∉ pre := fun e => hnd2.2.2 e h2
  refine ⟨by omega, ?_, ?_⟩
  · rw [queuePosFrom_append_of_not_mem x pre post position hx (by omega), h3]
  · rw [List.getElem?_append_right (by omega)]
    have : p - position - pre.length = p - (position + pre.length) := by omega
    rw [this, h4]

theorem searchQueue_bound (sess : Nat) (q : List Nat) (position : Nat)
    (hb : position + q.length < 4294967296) :
    (searchQueue sess q position).2.2.2 + (searchQueue sess q position).2.2.1.length ≤
      position + q.length := by
  induction q generalizing position with
  | nil => simp [searchQueue]
  | cons x q ih =>
    have hp : u32 (position + 1) = position + 1 := u32_of_lt (by simp at hb; omega)
    by_cases hx : x = sess
    · simp [searchQueue, hx]
    · have := ih (position + 1) (by simp at hb; omega)
      simp only [searchQueue, hx, if_false, hp, List.length_cons]
      omega

/-- The positions sent by one `RemoveQueuedPlayer(sess)`: after a promotion, the whole
queue left behind, counted from 1; otherwise the sessions behind the removed one, with
the counter where the search loop left it. -/
theorem removeQueuedPlayer_waitQueueSent (w : World) (sess : Nat)
    (hlen : w.queuedPlayer.length + 1 < 4294967296) :
    waitQueueSent (eventsSince w (RemoveQueuedPlayer w sess).1) =
      if promotionTest w sess then
        (w.queuedPlayer.erase sess).tail.zip
          (List.range' 1 (w.queuedPlayer.erase sess).tail.length)
      else
        (searchQueue sess w.queuedPlayer 1).2.2.1.zip
          (List.range' (searchQueue sess w.queuedPlayer 1).2.2.2
            (searchQueue sess w.queuedPlayer 1).2.2.1.length) := by
  rw [eventsSince_append w _ _ (removeQueuedPlayer_trace w sess)]
  have hle : (w.queuedPlayer.erase sess).tail.length ≤ w.queuedPlayer.length :=
    ((List.tail_sublist _).trans (List.erase_sublist _ _)).length_le
  have hR : waitQueueSent
      (if sess ∈ w.queuedPlayer then [Event.ResetTimeOutTime sess] else []) = [] := by
    split <;> rfl
  rw [waitQueueSent_append, hR, List.nil_append]
  by_cases hp : promotionTest w sess
  · rw [if_pos hp, if_pos hp]
    simp only [waitQueueSent]
    exact waitQueueSent_notifyFrom _ 1 (by omega)
  · rw [if_neg hp, if_neg hp]
    have hbound := searchQueue_bound sess w.queuedPlayer 1 (by omega)
    exact waitQueueSent_notifyFrom _ _ (by omega)

/-- With a queue that holds no session twice, the search loop stops at the only entry
of `sess`. -/
theorem searchQueue_of_mem (sess : Nat) (q : List Nat) (hnd : q.Nodup) (hm : sess ∈ q)
    (hb : q.length + 1 < 4294967296) :
    ∃ pre post, q = pre ++ sess :: post ∧ sess ∉ pre ∧
      searchQueue sess q 1 = (pre ++ post, true, post, 1 + pre.length) ∧
      q.drop (q.indexOf sess + 1) = post := by
  obtain ⟨pre, post, rfl⟩ := List.append_of_mem hm
  have hpre : sess ∉ pre := by
    intro h
    exact (List.nodup_append.mp hnd).2.2 h (List.mem_cons_self _ _)
  refine ⟨pre, post, rfl, hpre, ?_, ?_⟩
  · apply searchQueue_split sess pre post 1 hpre
    simp only [List.length_append, List.length_cons] at hb
    omega
  · rw [List.indexOf_append_of_not_mem hpre, List.indexOf_cons_self, Nat.add_zero,
      List.drop_append_eq_append_drop]
    simp

theorem promoted_iff (w : World) (sess : Nat) :
    initialized (eventsSince w (RemoveQueuedPlayer w sess).1) ≠ [] ↔ promotionTest w sess := by
  rw [removeQueuedPlayer_initialized]
  split <;> simp [*]

/-- C6. Reported queue positions are the real ones, for a queue that holds no session
twice: (a) `AddQueuedPlayer(s)` for `s` not yet queued reports one more than the old
queue length, and that is `GetQueuePos(s)` afterwards; (b) a position `p` sent to `x`
by `RemoveQueuedPlayer` is the place of `x` in the queue left behind, counted from 1,
and equals `GetQueuePos(x)` there; (c) after a promotion the positions sent are
`1, 2, ..., n`, one for each session of the queue left behind, in queue order. -/
theorem queue_positions_reported (w : World) (s sess x p : Nat)
    (hnd : w.queuedPlayer.Nodup) (hlen : w.queuedPlayer.length + 1 < 2147483648) :
    (s ∉ w.queuedPlayer →
      eventsSince w (AddQueuedPlayer w s) =
        [Event.SendAuthResponse s ((w.queuedPlayer.length + 1 : Nat) : Int)] ∧
      GetQueuePos (AddQueuedPlayer w s) s = ((w.queuedPlayer.length + 1 : Nat) : Int)) ∧
    ((x, p) ∈ waitQueueSent (eventsSince w (RemoveQueuedPlayer w sess).1) →
      1 ≤ p ∧ (RemoveQueuedPlayer w sess).1.queuedPlayer[p - 1]? = some x ∧
      GetQueuePos (RemoveQueuedPlayer w sess).1 x = (p : Int)) ∧
    (initialized (eventsSince w (RemoveQueuedPlayer w sess).1) ≠ [] →
      waitQueueSent (eventsSince w (RemoveQueuedPlayer w sess).1) =
        (RemoveQueuedPlayer w sess).1.queuedPlayer.zip
          (List.range' 1 (RemoveQueuedPlayer w sess).1.queuedPlayer.length)) := by
  have hsub : (w.queuedPlayer.erase sess).tail.Sublist w.queuedPlayer :=
    (List.tail_sublist _).trans (List.erase_sublist _ _)
  refine ⟨fun hs => ?_, fun hm => ?_, fun hp => ?_⟩
  · have hpos : queuePosFrom s (w.queuedPlayer ++ [s]) 1 = w.queuedPlayer.length + 1 := by
      rw [queuePosFrom_append_self s _ 1 hs (by omega)]; omega
    constructor
    · apply eventsSince_append
      simp only [AddQueuedPlayer, hpos]
      rw [toInt32_of_lt hlen]
    · simp only [GetQueuePos, AddQueuedPlayer, hpos]
      rw [toInt32_of_lt hlen]
  · rw [removeQueuedPlayer_waitQueueSent w sess (by omega)] at hm
    unfold GetQueuePos
    rw [removeQueuedPlayer_queue]
    by_cases hpt : promotionTest w sess
    · rw [if_pos hpt] at hm ⊢
      obtain ⟨h1, h2, h3, h4⟩ := zip_positions _ 1 x p (hnd.sublist hsub)
        (by have := hsub.length_le; omega) hm
      have hlt : p - 1 < (w.queuedPlayer.erase sess).tail.length := by
        by_contra hc
        rw [List.getElem?_eq_none (by omega)] at h4
        exact Option.noConfusion h4
      refine ⟨h1, h4, ?_⟩
      rw [h3, toInt32_of_lt (by have := hsub.length_le; omega)]
    · rw [if_neg hpt] at hm ⊢
      by_cases hmem : sess ∈ w.queuedPlayer
      · obtain ⟨pre, post, hq, hpre, hsq, -⟩ := searchQueue_of_mem sess _ hnd hmem (by omega)
        have he : w.queuedPlayer.erase sess = pre ++ post := by
          rw [← searchQueue_queue sess _ 1, hsq]
        rw [hsq] at hm
        rw [he]
        have hnd2 : (pre ++ post).Nodup := he ▸ hnd.sublist (List.erase_sublist _ _)
        have hl2 : (pre ++ post).length ≤ w.queuedPlayer.length :=
          he ▸ (List.erase_sublist _ _).length_le
        obtain ⟨h1, h3, h4⟩ := zip_positions_append pre post 1 x p hnd2 (by omega) hm
        have hlt : p - 1 < (pre ++ post).length := by
          by_contra hc
          rw [List.getElem?_eq_none (by omega)] at h4
          exact Option.noConfusion h4
        refine ⟨h1, h4, ?_⟩
        rw [h3, toInt32_of_lt (by omega)]
      · rw [searchQueue_iter_of_not_mem sess _ 1 hmem] at hm
        simp at hm
  · have hpt := (promoted_iff w sess).mp hp
    rw [removeQueuedPlayer_waitQueueSent w sess (by omega), removeQueuedPlayer_queue,
      if_pos hpt, if_pos hpt]


/-- C1, at an instance: limit 2, sessions 1 and 2 registered, session 3 arrives. -/
theorem addSession_fresh_identity_witness :
    (3 ≠ 0 ∧ mapFind (demoWorld 2 [1, 2] []).sessions
        ((demoWorld 2 [1, 2] []).heap 3).accountId = none ∧
      (demoWorld 2 [1, 2] []).sessions.length < 4294967296) ∧
    ∃ w1, AddSession_ (demoWorld 2 [1, 2] []) 3 = some w1 ∧
      w1.sessions = (demoWorld 2 [1, 2] []).sessions ++
        [(((demoWorld 2 [1, 2] []).heap 3).accountId, 3)] ∧
      (if 0 < (demoWorld 2 [1, 2] []).playerLimit ∧
            (demoWorld 2 [1, 2] []).playerLimit ≤ (demoWorld 2 [1, 2] []).sessions.length ∧
            ((demoWorld 2 [1, 2] []).heap 3).skipQueue = false ∧
            (HasRecentlyDisconnected (demoWorld 2 [1, 2] []) 3).2 = false then
          w1.queuedPlayer = (demoWorld 2 [1, 2] []).queuedPlayer ++ [3] ∧
            (w1.heap 3).inQueue = true ∧
            initialized (eventsSince (demoWorld 2 [1, 2] []) w1) = []
        else
          w1.queuedPlayer = (demoWorld 2 [1, 2] []).queuedPlayer ∧
            w1.heap = (demoWorld 2 [1, 2] []).heap ∧
            eventsSince (demoWorld 2 [1, 2] []) w1 = [Event.InitializeSession 3]) :=
  ⟨⟨by decide, by decide, by decide⟩,
    addSession_fresh_identity (demoWorld 2 [1, 2] []) 3 (by decide) (by decide) (by decide)⟩

/-- C6, at an instance: limit 1, session 1 active, sessions 2, 3, 4 queued; session 5
is queued, and session 2 leaves the queue. -/
theorem queue_positions_reported_witness :
    ((demoWorld 1 [1, 2, 3, 4] [2, 3, 4]).queuedPlayer.Nodup ∧
      (demoWorld 1 [1, 2, 3, 4] [2, 3, 4]).queuedPlayer.length + 1 < 2147483648 ∧
      5 ∉ (demoWorld 1 [1, 2, 3, 4] [2, 3, 4]).queuedPlayer ∧
      (4, 2) ∈ waitQueueSent (eventsSince (demoWorld 1 [1, 2, 3, 4] [2, 3, 4])
        (RemoveQueuedPlayer (demoWorld 1 [1, 2, 3, 4] [2, 3, 4]) 2).1)) ∧
    GetQueuePos (AddQueuedPlayer (demoWorld 1 [1, 2, 3, 4] [2, 3, 4]) 5) 5 = ((3 + 1 : Nat) : Int) ∧
    GetQueuePos (RemoveQueuedPlayer (demoWorld 1 [1, 2, 3, 4] [2, 3, 4]) 2).1 4 = ((2 : Nat) : Int) :=
  ⟨⟨by decide, by decide, by decide, by decide⟩,
    ((queue_positions_reported (demoWorld 1 [1, 2, 3, 4] [2, 3, 4]) 5 2 4 2
      (by decide) (by decide)).1 (by decide)).2,
    ((queue_positions_reported (demoWorld 1 [1, 2, 3, 4] [2, 3, 4]) 5 2 4 2
      (by decide) (by decide)).2.1 (by decide)).2.2⟩


/-! ## Who is notified by `RemoveQueuedPlayer` -/

theorem filter_zip_positions (l : List Nat) (position x : Nat) (hnd : l.Nodup)
    (hb : position + l.length < 4294967296) :
    (l.zip (List.range' position l.length)).filter (fun e => decide (e.1 = x)) =
      if x ∈ l then [(x, queuePosFrom x l position)] else [] := by
  induction l generalizing position with
  | nil => simp
  | cons y l ih =>
    have hnd2 := List.nodup_cons.mp hnd
    have hp : u32 (position + 1) = position + 1 := u32_of_lt (by simp at hb; omega)
    have := ih (position + 1) hnd2.2 (by simp at hb; omega)
    simp only [List.length_cons, List.range'_succ, List.zip_cons_cons]
    by_cases hy : y = x
    · subst hy
      have hx : y ∉ l := hnd2.1
      rw [if_neg hx] at this
      simp [List.filter_cons, this, queuePosFrom]
    · have hy2 : ¬ x = y := fun e => hy e.symm
      simp [List.filter_cons, hy, hy2, this, queuePosFrom, hp]

/-- C7, as the code has it.  For a queue that holds no session twice and a session `x`
still queued when `RemoveQueuedPlayer(sess)` returns: `x` is sent its new position,
once, when the call promoted a session or `x` stood behind `sess` in the old queue;
otherwise (`x` stood ahead of the removed session, or nothing was removed) `x` is sent
nothing. -/
theorem removeQueuedPlayer_notifies (w : World) (sess x : Nat)
    (hnd : w.queuedPlayer.Nodup) (hlen : w.queuedPlayer.length + 1 < 4294967296)
    (hx : x ∈ (RemoveQueuedPlayer w sess).1.queuedPlayer) :
    (waitQueueSent (eventsSince w (RemoveQueuedPlayer w sess).1)).filter
        (fun e => decide (e.1 = x)) =
      if initialized (eventsSince w (RemoveQueuedPlayer w sess).1) ≠ [] ∨
          x ∈ w.queuedPlayer.drop (w.queuedPlayer.indexOf sess + 1) then
        [(x, queuePosFrom x (RemoveQueuedPlayer w sess).1.queuedPlayer 1)]
      else [] := by
  have hsub : (w.queuedPlayer.erase sess).tail.Sublist w.queuedPlayer :=
    (List.tail_sublist _).trans (List.erase_sublist _ _)
  have hpi := promoted_iff w sess
  rw [removeQueuedPlayer_waitQueueSent w sess hlen]
  rw [removeQueuedPlayer_queue] at hx ⊢
  by_cases hpt : promotionTest w sess
  · rw [if_pos hpt] at hx ⊢
    rw [if_pos hpt, if_pos (Or.inl (hpi.mpr hpt)),
      filter_zip_positions _ 1 x (hnd.sublist hsub) (by have := hsub.length_le; omega),
      if_pos hx]
  · rw [if_neg hpt] at hx ⊢
    rw [if_neg hpt]
    by_cases hmem : sess ∈ w.queuedPlayer
    · obtain ⟨pre, post, hq, hpre, hsq, hdrop⟩ := searchQueue_of_mem sess _ hnd hmem hlen
      have he : w.queuedPlayer.erase sess = pre ++ post := by
        rw [← searchQueue_queue sess _ 1, hsq]
      have hnd2 : (pre ++ post).Nodup := he ▸ hnd.sublist (List.erase_sublist _ _)
      have hl2 : (pre ++ post).length ≤ w.queuedPlayer.length :=
        he ▸ (List.erase_sublist _ _).length_le
      have hnd3 := List.nodup_append.mp hnd2
      simp only [List.length_append] at hl2
      rw [hsq, hdrop, he]
      simp only []
      rw [filter_zip_positions post (1 + pre.length) x hnd3.2.1 (by omega)]
      by_cases hxp : x ∈ post
      · have hxpre : x ∉ pre := fun e => hnd3.2.2 e hxp
        rw [if_pos hxp, if_pos (Or.inr hxp),
          queuePosFrom_append_of_not_mem x pre post 1 hxpre (by omega)]
      · rw [if_neg hxp, if_neg (fun h => h.elim (fun h1 => hpt (hpi.mp h1)) hxp)]
    · have hd : w.queuedPlayer.drop (w.queuedPlayer.indexOf sess + 1) = [] := by
        rw [List.indexOf_eq_length.mpr hmem]
        exact List.drop_eq_nil_of_le (by omega)
      rw [searchQueue_iter_of_not_mem sess _ 1 hmem, hd,
        if_neg (fun h => h.elim (fun h1 => hpt (hpi.mp h1)) (List.not_mem_nil x))]
      rfl

/-- C7 as stated fails: limit 1, session 1 active, sessions 2 and 3 queued.  When the
queued session 3 is removed, session 2 is still queued and is sent nothing. -/
theorem removeQueuedPlayer_notifies_counterexample :
    2 ∈ (RemoveQueuedPlayer (demoWorld 1 [1, 2, 3] [2, 3]) 3).1.queuedPlayer ∧
    waitQueueSent (eventsSince (demoWorld 1 [1, 2, 3] [2, 3])
      (RemoveQueuedPlayer (demoWorld 1 [1, 2, 3] [2, 3]) 3).1) = [] := by
  decide

/-- C7 as the code has it, at two instances: limit 1, session 1 active, sessions 2, 3,
4 queued, and session 3 is removed; session 4, behind it, is sent position 2 and
session 2, ahead of it, is sent nothing. -/
theorem removeQueuedPlayer_notifies_witness :
    ((demoWorld 1 [1, 2, 3, 4] [2, 3, 4]).queuedPlayer.Nodup ∧
      (demoWorld 1 [1, 2, 3, 4] [2, 3, 4]).queuedPlayer.length + 1 < 4294967296 ∧
      4 ∈ (RemoveQueuedPlayer (demoWorld 1 [1, 2, 3, 4] [2, 3, 4]) 3).1.queuedPlayer ∧
      2 ∈ (RemoveQueuedPlayer (demoWorld 1 [1, 2, 3, 4] [2, 3, 4]) 3).1.queuedPlayer) ∧
    (waitQueueSent (eventsSince (demoWorld 1 [1, 2, 3, 4] [2, 3, 4])
        (RemoveQueuedPlayer (demoWorld 1 [1, 2, 3, 4] [2, 3, 4]) 3).1)).filter
        (fun e => decide (e.1 = 4)) = [(4, 2)] ∧
    (waitQueueSent (eventsSince (demoWorld 1 [1, 2, 3, 4] [2, 3, 4])
        (RemoveQueuedPlayer (demoWorld 1 [1, 2, 3, 4] [2, 3, 4]) 3).1)).filter
        (fun e => decide (e.1 = 2)) = [] :=
  ⟨⟨by decide, by decide, by decide, by decide⟩,
    (removeQueuedPlayer_notifies (demoWorld 1 [1, 2, 3, 4] [2, 3, 4]) 3 4
      (by decide) (by decide) (by decide)).trans (by decide),
    (removeQueuedPlayer_notifies (demoWorld 1 [1, 2, 3, 4] [2, 3, 4]) 3 2
      (by decide) (by decide) (by decide)).trans (by decide)⟩


/-! ## Rejection by `AddSession_` -/

/-- C8. When the registry holds a session `old` (not null) for the account of the
arriving session `s` and `old` is loading, `AddSession_(s)` leaves the world as it
was except for the two calls `s->KickPlayer` and `delete s`: registry, queue,
recent-disconnect list, counters and session objects are unchanged, `old` is not
kicked, and `s` is not initialized. -/
theorem addSession_rejects_while_loading (w : World) (s old : Nat) (hs : s ≠ 0)
    (hold : mapFind w.sessions (w.heap s).accountId = some old) (h0 : old ≠ 0)
    (hload : (w.heap old).playerLoading = true) :
    AddSession_ w s =
      some { w with trace := w.trace ++ [Event.KickPlayer s, Event.Delete s] } ∧
    ∀ w1, AddSession_ w s = some w1 →
      w1.sessions = w.sessions ∧ w1.queuedPlayer = w.queuedPlayer ∧
      w1.disconnects = w.disconnects ∧
      w1.maxActiveSessionCount = w.maxActiveSessionCount ∧
      w1.maxQueuedSessionCount = w.maxQueuedSessionCount ∧
      w1.heap = w.heap ∧
      kicked (eventsSince w w1) = [s] ∧ initialized (eventsSince w w1) = [] := by
  have hr : RemoveSession w (w.heap s).accountId = (w, false) := by
    unfold RemoveSession
    rw [hold]
    simp [h0, hload]
  have he : AddSession_ w s =
      some { w with trace := w.trace ++ [Event.KickPlayer s, Event.Delete s] } := by
    unfold AddSession_
    rw [hr]
    simp [hs]
  refine ⟨he, fun w1 h1 => ?_⟩
  rw [he] at h1
  cases h1
  refine ⟨rfl, rfl, rfl, rfl, rfl, rfl, ?_, ?_⟩
  · rw [eventsSince_append w _ [Event.KickPlayer s, Event.Delete s] rfl]
    rfl
  · rw [eventsSince_append w _ [Event.KickPlayer s, Event.Delete s] rfl]
    rfl

/-- C8, at an instance: session 1 is registered and loading; session 7 arrives for the
same account. -/
theorem addSession_rejects_while_loading_witness :
    (7 ≠ 0 ∧ mapFind demoLoading.sessions (demoLoading.heap 7).accountId = some 1 ∧
      1 ≠ 0 ∧ (demoLoading.heap 1).playerLoading = true) ∧
    AddSession_ demoLoading 7 =
      some { demoLoading with
              trace := demoLoading.trace ++ [Event.KickPlayer 7, Event.Delete 7] } :=
  ⟨⟨by decide, by decide, by decide, by decide⟩,
    (addSession_rejects_while_loading demoLoading 7 1
      (by decide) (by decide) (by decide) (by decide)).1⟩


/-! ## The stages of `AddSession_` -/

theorem setInQueue_accountId (heap : Nat → WorldSession) (sess : Nat) (b : Bool) (p : Nat) :
    (SetInQueue heap sess b p).accountId = (heap p).accountId ∧
    (SetInQueue heap sess b p).skipQueue = (heap p).skipQueue ∧
    (SetInQueue heap sess b p).playerLoading = (heap p).playerLoading := by
  unfold SetInQueue
  split <;> exact ⟨rfl, rfl, rfl⟩

theorem removeQueuedPlayer_heap_attrs (w : World) (sess p : Nat) :
    ((RemoveQueuedPlayer w sess).1.heap p).accountId = (w.heap p).accountId ∧
    ((RemoveQueuedPlayer w sess).1.heap p).skipQueue = (w.heap p).skipQueue ∧
    ((RemoveQueuedPlayer w sess).1.heap p).playerLoading = (w.heap p).playerLoading := by
  rw [removeQueuedPlayer_heap]
  split
  · exact setInQueue_accountId _ _ _ _
  · exact ⟨rfl, rfl, rfl⟩

/-- The result of `HasRecentlyDisconnected` depends on the list, the clock, the
tolerance setting and the account of the session only. -/
theorem hasRecentlyDisconnected_congr (w v : World) (s : Nat)
    (hd : v.disconnects = w.disconnects) (hg : v.gameTime = w.gameTime)
    (ht : v.disconnectTolerance = w.disconnectTolerance)
    (ha : (v.heap s).accountId = (w.heap s).accountId) :
    (HasRecentlyDisconnected v s).2 = (HasRecentlyDisconnected w s).2 := by
  unfold HasRecentlyDisconnected
  rw [hd, hg, ht, ha]
  by_cases hs : s = 0
  · simp [hs]
  · by_cases h0 : w.disconnectTolerance = 0 <;> simp [hs, h0]

theorem promotionTest_congr (w v : World) (sess : Nat)
    (hq : v.queuedPlayer = w.queuedPlayer) (hs : v.sessions.length = w.sessions.length)
    (hl : v.playerLimit = w.playerLimit) :
    promotionTest v sess ↔ promotionTest w sess := by
  unfold promotionTest sessionsForPromotion GetActiveSessionCount
  rw [hq, hs, hl]

/-- What `RemoveSession` does when it does not refuse: at most one `KickPlayer`. -/
theorem removeSession_accept (w : World) (id : Nat)
    (h : (RemoveSession w id).2 = true) :
    ∃ evs, RemoveSession w id = ({ w with trace := w.trace ++ evs }, true) ∧
      initialized evs = [] ∧ waitQueueSent evs = [] := by
  unfold RemoveSession at h ⊢
  cases hf : mapFind w.sessions id with
  | none => exact ⟨[], by simp, rfl, rfl⟩
  | some p =>
    rw [hf] at h
    simp only [] at h ⊢
    by_cases hp : p = 0
    · exact ⟨[], by simp [hp], rfl, rfl⟩
    · by_cases hl : (w.heap p).playerLoading = true
      · simp [hp, hl] at h
      · exact ⟨[Event.KickPlayer p], by simp [hp, hl], rfl, rfl⟩

theorem removeSession_refuse (w : World) (id : Nat)
    (h : (RemoveSession w id).2 = false) : (RemoveSession w id).1 = w := by
  unfold RemoveSession at h ⊢
  cases hf : mapFind w.sessions id with
  | none => rfl
  | some p =>
    rw [hf] at h
    simp only [] at h ⊢
    by_cases hp : p = 0
    · simp [hp] at h
    · by_cases hl : (w.heap p).playerLoading = true
      · simp [hp, hl]
      · simp [hp, hl] at h

/-- The trace plays no part in `RemoveQueuedPlayer`: on a world that differs in the
trace only, the same calls are made. -/
theorem removeQueuedPlayer_trace_irrelevant (w : World) (t : List Event) (sess : Nat) :
    RemoveQueuedPlayer { w with trace := t } sess =
      ({ (RemoveQueuedPlayer w sess).1 with
          trace := t ++ eventsSince w (RemoveQueuedPlayer w sess).1 },
       (RemoveQueuedPlayer w sess).2) := by
  rw [eventsSince_append w _ _ (removeQueuedPlayer_trace w sess)]
  unfold RemoveQueuedPlayer
  by_cases hp : promotionTest w sess
  · have hp2 : promotionTest { w with trace := t } sess := hp
    simp only [if_pos hp, if_pos hp2]
    by_cases hm : sess ∈ w.queuedPlayer <;>
      simp [searchQueue_found, searchQueue_queue, hm]
  · have hp2 : ¬ promotionTest { w with trace := t } sess := hp
    simp only [if_neg hp, if_neg hp2]
    by_cases hm : sess ∈ w.queuedPlayer <;>
      simp [searchQueue_found, searchQueue_queue, hm]


theorem queueTest_congr (w v : World) (s : Nat) (d : Bool)
    (hl : v.playerLimit = w.playerLimit) (hs : v.sessions.length = w.sessions.length)
    (hk : (v.heap s).skipQueue = (w.heap s).skipQueue)
    (hr : (HasRecentlyDisconnected v s).2 = (HasRecentlyDisconnected w s).2) :
    queueTest v s d ↔ queueTest w s d := by
  unfold queueTest sessionsForAdmission GetActiveAndQueuedSessionCount GetPlayerAmountLimit
  rw [hl, hs, hk, hr]

/-- `AddSession_` for an account whose registered session `old` is not refused by
`RemoveSession`: `old` goes through `RemoveQueuedPlayer`, the registry entry is
overwritten, and the queue test decides between queueing and initializing. -/
theorem addSession_replace (w : World) (s old : Nat) (hs : s ≠ 0)
    (hold : mapFind w.sessions (w.heap s).accountId = some old)
    (hacc : (RemoveSession w (w.heap s).accountId).2 = true) :
    ∃ w1, AddSession_ w s = some w1 ∧
      w1.sessions = mapSet w.sessions (w.heap s).accountId s ∧
      w1.playerLimit = w.playerLimit ∧
      w1.queuedPlayer = (RemoveQueuedPlayer w old).1.queuedPlayer ++
        (if queueTest { w with sessions := mapSet w.sessions (w.heap s).accountId s } s
              (!decide (old ∈ w.queuedPlayer))
          then [s] else []) ∧
      initialized (eventsSince w w1) =
        initialized (eventsSince w (RemoveQueuedPlayer w old).1) ++
          (if queueTest { w with sessions := mapSet w.sessions (w.heap s).accountId s } s
                (!decide (old ∈ w.queuedPlayer))
            then [] else [s]) := by
  obtain ⟨evs, hRS, hi, -⟩ := removeSession_accept w _ hacc
  -- the world after the block around `old`
  obtain ⟨v, hv⟩ : ∃ v : World, v = { (RemoveQueuedPlayer w old).1 with
      trace := (w.trace ++ evs ++ eventsSince w (RemoveQueuedPlayer w old).1) ++
        [Event.Delete old] } := ⟨_, rfl⟩
  have hRO : replaceOld { w with trace := w.trace ++ evs } (w.heap s).accountId =
      (v, !decide (old ∈ w.queuedPlayer)) := by
    unfold replaceOld
    simp only [hold]
    rw [removeQueuedPlayer_trace_irrelevant, removeQueuedPlayer_found, hv]
  have hattr := removeQueuedPlayer_heap_attrs w old s
  have hcfg := removeQueuedPlayer_config w old
  have v1 : v.sessions = w.sessions := by rw [hv]; exact removeQueuedPlayer_sessions w old
  have v2 : v.queuedPlayer = (RemoveQueuedPlayer w old).1.queuedPlayer := by rw [hv]
  have v3 : v.heap = (RemoveQueuedPlayer w old).1.heap := by rw [hv]
  have v4 : v.playerLimit = w.playerLimit := by
    rw [hv]; exact removeQueuedPlayer_playerLimit w old
  have v5 : v.trace = w.trace ++ (evs ++ eventsSince w (RemoveQueuedPlayer w old).1 ++
      [Event.Delete old]) := by rw [hv]; simp
  have v6 : v.disconnects = w.disconnects := by
    rw [hv]; exact removeQueuedPlayer_disconnects w old
  have v7 : v.gameTime = w.gameTime := by rw [hv]; exact hcfg.2.1
  have v8 : v.disconnectTolerance = w.disconnectTolerance := by rw [hv]; exact hcfg.1
  have va : (v.heap s).accountId = (w.heap s).accountId := by rw [v3]; exact hattr.1
  have vk : (v.heap s).skipQueue = (w.heap s).skipQueue := by rw [v3]; exact hattr.2.1
  have hAdd : AddSession_ w s = some (registerArrival v s (!decide (old ∈ w.queuedPlayer))) := by
    unfold AddSession_
    rw [hRS, hRO]
    simp [hs]
  obtain ⟨f1, f2, f3, -, f5⟩ := registerArrival_fields v s (!decide (old ∈ w.queuedPlayer))
  rw [va, v1] at f1 f3 f5
  have hqt : queueTest { v with sessions := mapSet w.sessions (w.heap s).accountId s } s
        (!decide (old ∈ w.queuedPlayer)) ↔
      queueTest { w with sessions := mapSet w.sessions (w.heap s).accountId s } s
        (!decide (old ∈ w.queuedPlayer)) :=
    queueTest_congr _ _ s _ v4 rfl vk
      (hasRecentlyDisconnected_congr _ _ s v6 v7 v8 va)
  rw [if_congr hqt rfl rfl] at f3 f5
  refine ⟨_, hAdd, f1, by rw [f2, v4], by rw [f3, v2], ?_⟩
  rw [v5, List.append_assoc] at f5
  rw [eventsSince_append w _ _ f5]
  simp only [initialized_append, hi, List.nil_append, List.append_assoc]
  split <;> simp [initialized]


theorem removeSession_accept_of_not_loading (w : World) (id old : Nat)
    (hold : mapFind w.sessions id = some old) (hload : (w.heap old).playerLoading = false) :
    (RemoveSession w id).2 = true := by
  unfold RemoveSession
  rw [hold]
  by_cases h0 : old = 0 <;> simp [h0, hload]

/-- C10. Reconnect of an account whose registered session `old` is queued and not
loading: `old` is erased from the queue, the registry keeps its size and now holds `s`
for the account, and the queued count after the call plus one (for `old`) plus one if
the eviction promoted the queue head equals the count before plus one if `s` was
queued.  For this arrival the queue test compares the limit with the full registry
size. -/
theorem reconnect_of_queued_identity (w : World) (s old : Nat) (hs : s ≠ 0)
    (hold : mapFind w.sessions (w.heap s).accountId = some old)
    (hq : old ∈ w.queuedPlayer) (hload : (w.heap old).playerLoading = false)
    (hsz : w.sessions.length < 4294967296) (hqz : w.queuedPlayer.length < 4294967296) :
    ∃ w1, AddSession_ w s = some w1 ∧
      w1.sessions.length = w.sessions.length ∧
      mapFind w1.sessions (w.heap s).accountId = some s ∧
      w1.queuedPlayer =
        (if (w.playerLimit = 0 ∨ GetActiveSessionCount w < w.playerLimit) ∧
              w.queuedPlayer.erase old ≠ []
          then (w.queuedPlayer.erase old).tail else w.queuedPlayer.erase old) ++
        (if 0 < w.playerLimit ∧ w.playerLimit ≤ w.sessions.length ∧
              (w.heap s).skipQueue = false ∧ (HasRecentlyDisconnected w s).2 = false
          then [s] else []) ∧
      initialized (eventsSince w w1) =
        (if (w.playerLimit = 0 ∨ GetActiveSessionCount w < w.playerLimit) ∧
              w.queuedPlayer.erase old ≠ []
          then [(w.queuedPlayer.erase old).headD 0] else []) ++
        (if 0 < w.playerLimit ∧ w.playerLimit ≤ w.sessions.length ∧
              (w.heap s).skipQueue = false ∧ (HasRecentlyDisconnected w s).2 = false
          then [] else [s]) ∧
      GetQueuedSessionCount w1 + 1 +
          (if (w.playerLimit = 0 ∨ GetActiveSessionCount w < w.playerLimit) ∧
              w.queuedPlayer.erase old ≠ [] then 1 else 0) =
        GetQueuedSessionCount w +
          (if 0 < w.playerLimit ∧ w.playerLimit ≤ w.sessions.length ∧
              (w.heap s).skipQueue = false ∧ (HasRecentlyDisconnected w s).2 = false
            then 1 else 0) ∧
      (w.queuedPlayer.Nodup → s ≠ old → old ∉ w1.queuedPlayer) := by
  obtain ⟨w1, hAdd, g1, -, g3, g4⟩ := addSession_replace w s old hs hold
    (removeSession_accept_of_not_loading w _ old hold hload)
  have hlen : (mapSet w.sessions (w.heap s).accountId s).length = w.sessions.length :=
    mapSet_length_of_find_some _ _ _ _ hold
  -- the promotion test of the eviction
  have hP : promotionTest w old ↔
      ((w.playerLimit = 0 ∨ GetActiveSessionCount w < w.playerLimit) ∧
        w.queuedPlayer.erase old ≠ []) := by
    rw [promotionTest_iff, sessionsForPromotion_eq, if_pos hq]
  -- the queue test of the arrival
  have hQ : queueTest { w with sessions := mapSet w.sessions (w.heap s).accountId s } s
        (!decide (old ∈ w.queuedPlayer)) ↔
      (0 < w.playerLimit ∧ w.playerLimit ≤ w.sessions.length ∧
        (w.heap s).skipQueue = false ∧ (HasRecentlyDisconnected w s).2 = false) := by
    unfold queueTest sessionsForAdmission GetActiveAndQueuedSessionCount GetPlayerAmountLimit
    rw [hasRecentlyDisconnected_sessions]
    simp only [hq, decide_True, Bool.not_true, hlen, u32_of_lt hsz]
    exact Iff.rfl
  rw [if_congr hQ rfl rfl] at g3 g4
  rw [removeQueuedPlayer_queue, if_congr hP rfl rfl] at g3
  rw [removeQueuedPlayer_initialized, if_congr hP rfl rfl] at g4
  have hel : (w.queuedPlayer.erase old).length + 1 = w.queuedPlayer.length := by
    rw [List.length_erase_of_mem hq]
    have := List.length_pos_of_mem hq
    omega
  refine ⟨w1, hAdd, by rw [g1, hlen], by rw [g1]; exact mapFind_mapSet_self _ _ _, g3, g4,
    ?_, ?_⟩
  · unfold GetQueuedSessionCount
    rw [g3, u32_of_lt hqz]
    by_cases hp : (w.playerLimit = 0 ∨ GetActiveSessionCount w < w.playerLimit) ∧
        w.queuedPlayer.erase old ≠ []
    · have hne : 0 < (w.queuedPlayer.erase old).length := List.length_pos.mpr hp.2
      simp only [if_pos hp, List.length_append, List.length_tail]
      split
      · rw [u32_of_lt (by simp; omega)]; simp; omega
      · rw [u32_of_lt (by simp; omega)]; simp; omega
    · simp only [if_neg hp, List.length_append]
      split
      · rw [u32_of_lt (by simp; omega)]; simp; omega
      · rw [u32_of_lt (by simp; omega)]; simp; omega
  · intro hnd hso hmem
    rw [g3] at hmem
    have hno : old ∉ w.queuedPlayer.erase old := fun h => (List.Nodup.mem_erase_iff hnd).mp h |>.1 rfl
    rcases List.mem_append.mp hmem with h | h
    · split at h
      · exact hno (List.mem_of_mem_tail h)
      · exact hno h
    · split at h
      · exact hso (List.mem_singleton.mp h).symm
      · exact absurd h (List.not_mem_nil _)


/-! ## Session removal in `UpdateSessions` -/

theorem noteDisconnect_fields (w : World) (p : Nat) :
    (noteDisconnect w p).queuedPlayer = (RemoveQueuedPlayer w p).1.queuedPlayer ∧
    (noteDisconnect w p).sessions = w.sessions ∧
    (noteDisconnect w p).playerLimit = w.playerLimit ∧
    (noteDisconnect w p).trace = (RemoveQueuedPlayer w p).1.trace ∧
    (noteDisconnect w p).heap = (RemoveQueuedPlayer w p).1.heap := by
  unfold noteDisconnect
  split
  · exact ⟨rfl, removeQueuedPlayer_sessions w p, removeQueuedPlayer_playerLimit w p, rfl, rfl⟩
  · exact ⟨rfl, removeQueuedPlayer_sessions w p, removeQueuedPlayer_playerLimit w p, rfl, rfl⟩

theorem removeFailedSession_fields (w : World) (id p : Nat) :
    (removeFailedSession w id p).sessions = mapErase w.sessions id ∧
    (removeFailedSession w id p).playerLimit = w.playerLimit ∧
    (removeFailedSession w id p).queuedPlayer =
      (RemoveQueuedPlayer (noteDisconnect w p) p).1.queuedPlayer ∧
    (removeFailedSession w id p).trace =
      (RemoveQueuedPlayer (noteDisconnect w p) p).1.trace ++ [Event.Delete p] := by
  unfold removeFailedSession
  refine ⟨?_, ?_, rfl, rfl⟩
  · show mapErase (RemoveQueuedPlayer (noteDisconnect w p) p).1.sessions id = _
    rw [removeQueuedPlayer_sessions, (noteDisconnect_fields w p).2.1]
  · show (RemoveQueuedPlayer (noteDisconnect w p) p).1.playerLimit = _
    rw [removeQueuedPlayer_playerLimit, (noteDisconnect_fields w p).2.2.1]

theorem sweepSessions_append (Update : Nat → Bool) (w : World) (l1 l2 : List (Nat × Nat)) :
    sweepSessions Update w (l1 ++ l2) =
      sweepSessions Update (sweepSessions Update w l1) l2 := by
  induction l1 generalizing w with
  | nil => rfl
  | cons e l1 ih =>
    obtain ⟨k, p⟩ := e
    by_cases hu : Update p = true
    · simp [sweepSessions, hu, ih]
    · simp [sweepSessions, hu, ih]

theorem sweepSessions_all_pass (Update : Nat → Bool) (w : World) (l : List (Nat × Nat))
    (h : ∀ e ∈ l, Update e.2 = true) : sweepSessions Update w l = w := by
  induction l with
  | nil => rfl
  | cons e l ih =>
    obtain ⟨k, p⟩ := e
    have hp : Update p = true := h (k, p) (List.mem_cons_self _ _)
    simp [sweepSessions, hp, ih (fun e he => h e (List.mem_cons_of_mem _ he))]

theorem mapErase_length {β : Type} (m : List (Nat × β)) (k : Nat) (v : β)
    (h : (k, v) ∈ m) : (mapErase m k).length + 1 = m.length := by
  induction m with
  | nil => simp at h
  | cons e m ih =>
    obtain ⟨k1, x⟩ := e
    by_cases hk : k1 = k
    · simp [mapErase, hk]
    · have hm : (k, v) ∈ m := by
        rcases List.mem_cons.mp h with h1 | h1
        · exact absurd (Prod.mk.inj h1).1.symm hk
        · exact h1
      simp [mapErase, hk, ih hm]

theorem mem_mapErase {β : Type} (m : List (Nat × β)) (k : Nat) (e : Nat × β)
    (h : e ∈ mapErase m k) : e ∈ m := by
  induction m with
  | nil => simp [mapErase] at h
  | cons a m ih =>
    obtain ⟨k1, x⟩ := a
    by_cases hk : k1 = k
    · simp only [mapErase, hk, if_true] at h
      exact List.mem_cons_of_mem _ h
    · simp only [mapErase, hk, if_false] at h
      rcases List.mem_cons.mp h with h1 | h1
      · exact h1 ▸ List.mem_cons_self _ _
      · exact List.mem_cons_of_mem _ (ih h1)

theorem key_not_mem_mapErase {β : Type} (m : List (Nat × β)) (k : Nat)
    (hk : (m.map Prod.fst).Nodup) : k ∉ (mapErase m k).map Prod.fst := by
  induction m with
  | nil => simp [mapErase]
  | cons a m ih =>
    obtain ⟨k1, x⟩ := a
    have hnd := List.nodup_cons.mp hk
    by_cases h1 : k1 = k
    · simp only [mapErase, h1, if_true]
      exact h1 ▸ hnd.1
    · simp only [mapErase, h1, if_false, List.map_cons, List.mem_cons, not_or]
      exact ⟨fun h => h1 h.symm, ih hnd.2⟩


theorem removeQueuedPlayer_trace_extends (w : World) (sess : Nat) :
    (RemoveQueuedPlayer w sess).1.trace =
      w.trace ++ eventsSince w (RemoveQueuedPlayer w sess).1 := by
  rw [eventsSince_append w _ _ (removeQueuedPlayer_trace w sess)]
  exact removeQueuedPlayer_trace w sess

/-- The calls of one removal branch that initialize a session: those of its two
`RemoveQueuedPlayer` calls. -/
theorem removeFailedSession_initialized (w : World) (id p : Nat) :
    initialized (eventsSince w (removeFailedSession w id p)) =
      initialized (eventsSince w (RemoveQueuedPlayer w p).1) ++
      initialized (eventsSince (noteDisconnect w p)
        (RemoveQueuedPlayer (noteDisconnect w p) p).1) := by
  have h1 := (removeFailedSession_fields w id p).2.2.2
  rw [removeQueuedPlayer_trace_extends (noteDisconnect w p) p,
    (noteDisconnect_fields w p).2.2.2.1, removeQueuedPlayer_trace_extends w p,
    List.append_assoc, List.append_assoc] at h1
  rw [eventsSince_append w _ _ h1]
  simp [initialized_append, initialized]

theorem updateSessions_empty_inbox (w : World) (Update : Nat → Bool)
    (h : w.addSessQueue = []) :
    UpdateSessions w Update = some (sweepSessions Update w w.sessions) := by
  have hw : ({ w with addSessQueue := [] } : World) = w := by
    cases w
    simp only [] at h
    subst h
    rfl
  unfold UpdateSessions
  rw [h, hw]
  rfl

/-- When exactly one registry entry fails its `Update`, the sweep is the removal
branch for that entry. -/
theorem sweepSessions_single (Update : Nat → Bool) (w : World) (l : List (Nat × Nat))
    (id d : Nat) (hd : (id, d) ∈ l) (hkeys : (l.map Prod.fst).Nodup)
    (hfail : Update d = false)
    (hothers : ∀ e ∈ l, e ≠ (id, d) → Update e.2 = true) :
    sweepSessions Update w l = removeFailedSession w id d := by
  obtain ⟨l1, l2, rfl⟩ := List.append_of_mem hd
  have hnd : (l1 ++ (id, d) :: l2).Nodup := List.Nodup.of_map _ hkeys
  have hnd2 := List.nodup_append.mp hnd
  have h1 : ∀ e ∈ l1, Update e.2 = true := fun e he =>
    hothers e (List.mem_append_left _ he)
      (fun heq => hnd2.2.2 he (heq ▸ List.mem_cons_self _ _))
  have h2 : ∀ e ∈ l2, Update e.2 = true := fun e he =>
    hothers e (List.mem_append_right _ (List.mem_cons_of_mem _ he))
      (fun heq => (List.nodup_cons.mp hnd2.2.1).1 (heq ▸ he))
  rw [sweepSessions_append, sweepSessions_all_pass Update w l1 h1]
  simp only [sweepSessions, hfail]
  exact sweepSessions_all_pass Update _ l2 h2


/-- C2. One departure promotes exactly one waiter.  With limit `L > 0`, exactly `L`
active sessions, a queue `head :: rest` and an empty inbox, when the active session
`d` is the only one whose `Update` fails, `UpdateSessions` removes the entry of `d`
from the registry, initializes `head` and nobody else, leaves `rest` as the queue, and
the active count is `L` again. -/
theorem one_departure_promotes_one (w : World) (Update : Nat → Bool)
    (id d head : Nat) (rest : List Nat)
    (hL : 0 < w.playerLimit) (hinbox : w.addSessQueue = [])
    (hkeys : (w.sessions.map Prod.fst).Nodup)
    (hact : w.sessions.length = w.playerLimit + w.queuedPlayer.length)
    (hsz : w.sessions.length < 4294967296)
    (hq : w.queuedPlayer = head :: rest)
    (hd : (id, d) ∈ w.sessions) (hdq : d ∉ w.queuedPlayer)
    (hfail : Update d = false)
    (hothers : ∀ e ∈ w.sessions, e ≠ (id, d) → Update e.2 = true) :
    ∃ w1, UpdateSessions w Update = some w1 ∧
      w1.sessions = mapErase w.sessions id ∧
      d ∉ w1.sessions.map Prod.snd ∧
      initialized (eventsSince w w1) = [head] ∧
      w1.queuedPlayer = rest ∧
      w1.playerLimit = w.playerLimit ∧
      GetActiveSessionCount w1 = w.playerLimit := by
  have hUS : UpdateSessions w Update = some (removeFailedSession w id d) := by
    rw [updateSessions_empty_inbox w Update hinbox,
      sweepSessions_single Update w w.sessions id d hd hkeys hfail hothers]
  obtain ⟨f1, f2, f3, -⟩ := removeFailedSession_fields w id d
  obtain ⟨n1, n2, n3, -, -⟩ := noteDisconnect_fields w d
  have he : w.queuedPlayer.erase d = head :: rest := by
    rw [List.erase_of_not_mem hdq, hq]
  have hlen : w.queuedPlayer.length = rest.length + 1 := by rw [hq]; rfl
  -- the first call promotes the head
  have hp1 : promotionTest w d := by
    rw [promotionTest_iff, sessionsForPromotion_eq, if_neg hdq, he]
    refine ⟨Or.inr ?_, List.cons_ne_nil _ _⟩
    unfold GetActiveSessionCount u32sub
    omega
  have hq1 : (RemoveQueuedPlayer w d).1.queuedPlayer = rest := by
    rw [removeQueuedPlayer_queue, if_pos hp1, he]; rfl
  have hi1 : initialized (eventsSince w (RemoveQueuedPlayer w d).1) = [head] := by
    rw [removeQueuedPlayer_initialized, if_pos hp1, he]; rfl
  -- the second call promotes nobody
  have hdr : d ∉ rest := fun h => hdq (hq ▸ List.mem_cons_of_mem _ h)
  have hp2 : ¬ promotionTest (noteDisconnect w d) d := by
    rw [promotionTest_iff, sessionsForPromotion_eq, n1, hq1, if_neg hdr, n3]
    unfold GetActiveSessionCount u32sub
    rw [n1, hq1, n2]
    intro h
    rcases h.1 with h0 | h0 <;> omega
  have hq2 : (RemoveQueuedPlayer (noteDisconnect w d) d).1.queuedPlayer = rest := by
    rw [removeQueuedPlayer_queue, if_neg hp2, n1, hq1, List.erase_of_not_mem hdr]
  have hi2 : initialized (eventsSince (noteDisconnect w d)
      (RemoveQueuedPlayer (noteDisconnect w d) d).1) = [] := by
    rw [removeQueuedPlayer_initialized, if_neg hp2]
  have hel := mapErase_length w.sessions id d hd
  refine ⟨_, hUS, f1, ?_, ?_, by rw [f3, hq2], f2, ?_⟩
  · rw [f1]
    intro hmem
    obtain ⟨e, he1, he2⟩ := List.mem_map.mp hmem
    have hew : e ∈ w.sessions := mem_mapErase _ _ _ he1
    have hne : e ≠ (id, d) := by
      intro heq
      apply key_not_mem_mapErase w.sessions id hkeys
      exact List.mem_map.mpr ⟨e, he1, by rw [heq]⟩
    have := hothers e hew hne
    rw [he2, hfail] at this
    exact Bool.noConfusion this
  · rw [removeFailedSession_initialized, hi1, hi2]; rfl
  · unfold GetActiveSessionCount u32sub
    rw [f1, f3, hq2]
    omega

/-- C2, on the scenario of the spec: capacity 2, sessions 1, 2, 3 (A, B, C) admitted in
that order; A and B are initialized and C is queued and told position 1; when the
`Update` of A fails, C is initialized and the queue is empty. -/
theorem one_departure_promotes_one_witness :
    (scenarioABC.sessions = [(1, 1), (2, 2), (3, 3)] ∧ scenarioABC.queuedPlayer = [3] ∧
      scenarioABC.playerLimit = 2 ∧ scenarioABC.addSessQueue = [] ∧
      scenarioABC.trace = [Event.InitializeSession 1, Event.InitializeSession 2,
        Event.SendAuthResponse 3 1]) ∧
    ∃ w1, UpdateSessions scenarioABC (fun p => decide (p ≠ 1)) = some w1 ∧
      w1.sessions = mapErase scenarioABC.sessions 1 ∧
      1 ∉ w1.sessions.map Prod.snd ∧
      initialized (eventsSince scenarioABC w1) = [3] ∧
      w1.queuedPlayer = [] ∧
      w1.playerLimit = scenarioABC.playerLimit ∧
      GetActiveSessionCount w1 = scenarioABC.playerLimit :=
  ⟨by decide,
    one_departure_promotes_one scenarioABC (fun p => decide (p ≠ 1)) 1 1 3 []
      (by decide) (by decide) (by decide) (by decide) (by decide) (by decide) (by decide)
      (by decide) (by decide) (by decide)⟩


/-- C10, at an instance: limit 1, session 1 active, session 2 queued; session 7 arrives
for the account of session 2.  Session 2 leaves the queue, session 7 is queued, and the
queued count is 1 before and after. -/
theorem reconnect_of_queued_identity_witness :
    (7 ≠ 0 ∧
      mapFind (demoReconnect 1 [1, 2] [2] 7 2).sessions
        ((demoReconnect 1 [1, 2] [2] 7 2).heap 7).accountId = some 2 ∧
      2 ∈ (demoReconnect 1 [1, 2] [2] 7 2).queuedPlayer ∧
      ((demoReconnect 1 [1, 2] [2] 7 2).heap 2).playerLoading = false ∧
      (demoReconnect 1 [1, 2] [2] 7 2).sessions.length < 4294967296 ∧
      (demoReconnect 1 [1, 2] [2] 7 2).queuedPlayer.length < 4294967296) ∧
    ∃ w1, AddSession_ (demoReconnect 1 [1, 2] [2] 7 2) 7 = some w1 ∧
      w1.sessions.length = 2 ∧ w1.queuedPlayer = [7] ∧
      GetQueuedSessionCount w1 + 1 + 0 =
        GetQueuedSessionCount (demoReconnect 1 [1, 2] [2] 7 2) + 1 := by
  refine ⟨by decide, ?_⟩
  obtain ⟨w1, h1, h2, -, h4, -, h6, -⟩ :=
    reconnect_of_queued_identity (demoReconnect 1 [1, 2] [2] 7 2) 7 2
      (by decide) (by decide) (by decide) (by decide) (by decide) (by decide)
  rw [if_neg (by decide), if_pos (by decide)] at h4 h6
  exact ⟨w1, h1, h2, h4, h6⟩


/-! ## More on the association list -/

theorem mapFind_eq_none_iff {β : Type} (m : List (Nat × β)) (k : Nat) :
    mapFind m k = none ↔ k ∉ m.map Prod.fst := by
  induction m with
  | nil => simp [mapFind]
  | cons e m ih =>
    obtain ⟨k1, x⟩ := e
    by_cases hk : k1 = k
    · simp [mapFind, hk]
    · have hk2 : ¬ k = k1 := fun h => hk h.symm
      simp [mapFind, hk, hk2, ih]

theorem mapFind_some_mem {β : Type} (m : List (Nat × β)) (k : Nat) (v : β)
    (h : mapFind m k = some v) : (k, v) ∈ m := by
  induction m with
  | nil => simp [mapFind] at h
  | cons e m ih =>
    obtain ⟨k1, x⟩ := e
    by_cases hk : k1 = k
    · simp only [mapFind, hk, if_true, Option.some.injEq] at h
      rw [hk, h]; exact List.mem_cons_self _ _
    · simp only [mapFind, hk, if_false] at h
      exact List.mem_cons_of_mem _ (ih h)

theorem mapSet_keys {β : Type} (m : List (Nat × β)) (k : Nat) (v old : β)
    (h : mapFind m k = some old) : (mapSet m k v).map Prod.fst = m.map Prod.fst := by
  induction m with
  | nil => simp [mapFind] at h
  | cons e m ih =>
    obtain ⟨k1, x⟩ := e
    by_cases hk : k1 = k
    · simp [mapSet, hk]
    · simp only [mapFind, hk, if_false] at h
      simp [mapSet, hk, ih h]

theorem self_mem_values_mapSet (m : List (Nat × Nat)) (k v : Nat) :
    v ∈ (mapSet m k v).map Prod.snd := by
  induction m with
  | nil => simp [mapSet]
  | cons e m ih =>
    obtain ⟨k1, x⟩ := e
    by_cases hk : k1 = k
    · simp [mapSet, hk]
    · simp only [mapSet, hk, if_false, List.map_cons, List.mem_cons]
      exact Or.inr ih

theorem mem_values_mapSet_imp (m : List (Nat × Nat)) (k v x : Nat)
    (h : x ∈ (mapSet m k v).map Prod.snd) : x = v ∨ x ∈ m.map Prod.snd := by
  induction m with
  | nil => simp [mapSet] at h; exact Or.inl h
  | cons e m ih =>
    obtain ⟨k1, y⟩ := e
    by_cases hk : k1 = k
    · simp only [mapSet, hk, if_true, List.map_cons, List.mem_cons] at h
      rcases h with h | h
      · exact Or.inl h
      · exact Or.inr (List.mem_cons_of_mem _ h)
    · simp only [mapSet, hk, if_false, List.map_cons, List.mem_cons] at h
      rcases h with h | h
      · exact Or.inr (h ▸ List.mem_cons_self _ _)
      · rcases ih h with h1 | h1
        · exact Or.inl h1
        · exact Or.inr (List.mem_cons_of_mem _ h1)

theorem mapSet_values_nodup (m : List (Nat × Nat)) (k v : Nat)
    (hnd : (m.map Prod.snd).Nodup) (hv : v ∉ m.map Prod.snd) :
    ((mapSet m k v).map Prod.snd).Nodup := by
  induction m with
  | nil => simp [mapSet]
  | cons e m ih =>
    obtain ⟨k1, y⟩ := e
    simp only [List.map_cons, List.nodup_cons, List.mem_cons, not_or] at hnd hv
    by_cases hk : k1 = k
    · simp only [mapSet, hk, if_true, List.map_cons, List.nodup_cons]
      exact ⟨hv.2, hnd.2⟩
    · simp only [mapSet, hk, if_false, List.map_cons, List.nodup_cons]
      refine ⟨fun h => ?_, ih hnd.2 hv.2⟩
      rcases mem_values_mapSet_imp m k v y h with h1 | h1
      · exact hv.1 h1.symm
      · exact hnd.1 h1

theorem mem_values_mapSet (m : List (Nat × Nat)) (k v old x : Nat)
    (h : mapFind m k = some old) (hx : x ∈ m.map Prod.snd) (hne : x ≠ old) :
    x ∈ (mapSet m k v).map Prod.snd := by
  induction m with
  | nil => simp [mapFind] at h
  | cons e m ih =>
    obtain ⟨k1, y⟩ := e
    simp only [List.map_cons, List.mem_cons] at hx
    by_cases hk : k1 = k
    · simp only [mapFind, hk, if_true, Option.some.injEq] at h
      simp only [mapSet, hk, if_true, List.map_cons, List.mem_cons]
      rcases hx with hx | hx
      · exact absurd (hx.trans h) hne
      · exact Or.inr hx
    · simp only [mapFind, hk, if_false] at h
      simp only [mapSet, hk, if_false, List.map_cons, List.mem_cons]
      rcases hx with hx | hx
      · exact Or.inl hx
      · exact Or.inr (ih h hx)

theorem old_not_mem_values_mapSet (m : List (Nat × Nat)) (k v old : Nat)
    (h : mapFind m k = some old) (hnd : (m.map Prod.snd).Nodup) (hne : v ≠ old) :
    old ∉ (mapSet m k v).map Prod.snd := by
  induction m with
  | nil => simp [mapFind] at h
  | cons e m ih =>
    obtain ⟨k1, y⟩ := e
    simp only [List.map_cons, List.nodup_cons] at hnd
    by_cases hk : k1 = k
    · simp only [mapFind, hk, if_true, Option.some.injEq] at h
      simp only [mapSet, hk, if_true, List.map_cons, List.mem_cons, not_or]
      exact ⟨fun e => hne e.symm, h ▸ hnd.1⟩
    · simp only [mapFind, hk, if_false] at h
      simp only [mapSet, hk, if_false, List.map_cons, List.mem_cons, not_or]
      refine ⟨fun e => hnd.1 ?_, ih h hnd.2⟩
      have := mapFind_some_mem m k old h
      exact e ▸ List.mem_map.mpr ⟨(k, old), this, rfl⟩

theorem mapErase_sublist {β : Type} (m : List (Nat × β)) (k : Nat) :
    (mapErase m k).Sublist m := by
  induction m with
  | nil => exact List.Sublist.refl _
  | cons e m ih =>
    obtain ⟨k1, y⟩ := e
    by_cases hk : k1 = k
    · simp only [mapErase, hk, if_true]
      exact List.sublist_cons_self _ _
    · simp only [mapErase, hk, if_false]
      exact ih.cons₂ _

theorem mem_mapErase_of_ne {β : Type} (m : List (Nat × β)) (k : Nat) (e : Nat × β)
    (he : e ∈ m) (hk : e.1 ≠ k) : e ∈ mapErase m k := by
  induction m with
  | nil => simp at he
  | cons a m ih =>
    obtain ⟨k1, y⟩ := a
    by_cases h1 : k1 = k
    · simp only [mapErase, h1, if_true]
      rcases List.mem_cons.mp he with h | h
      · exact absurd (by rw [h, h1]) hk
      · exact h
    · simp only [mapErase, h1, if_false]
      rcases List.mem_cons.mp he with h | h
      · exact h ▸ List.mem_cons_self _ _
      · exact List.mem_cons_of_mem _ (ih h)

theorem removeQueuedPlayer_queue_sublist (w : World) (sess : Nat) :
    (RemoveQueuedPlayer w sess).1.queuedPlayer.Sublist (w.queuedPlayer.erase sess) := by
  rw [removeQueuedPlayer_queue]
  split
  · exact List.tail_sublist _
  · exact List.Sublist.refl _


/-! ## Ownership is kept by every operation -/

theorem addSession_refused (w : World) (s : Nat) (hs : s ≠ 0)
    (h : (RemoveSession w (w.heap s).accountId).2 = false) :
    AddSession_ w s =
      some { w with trace := w.trace ++ [Event.KickPlayer s, Event.Delete s] } := by
  unfold AddSession_
  rw [if_neg hs, if_pos h, removeSession_refuse w _ h]

/-- `AddSession_` for an account without a registered session. -/
theorem addSession_new (w : World) (s : Nat) (hs : s ≠ 0)
    (hfresh : mapFind w.sessions (w.heap s).accountId = none) :
    ∃ w1, AddSession_ w s = some w1 ∧
      w1.sessions = w.sessions ++ [((w.heap s).accountId, s)] ∧
      w1.playerLimit = w.playerLimit ∧
      w1.queuedPlayer = w.queuedPlayer ++
        (if queueTest { w with sessions := mapSet w.sessions (w.heap s).accountId s } s true
          then [s] else []) := by
  obtain ⟨f1, f2, f3, -, -⟩ := registerArrival_fields w s true
  refine ⟨registerArrival w s true, ?_, ?_, f2, f3⟩
  · unfold AddSession_
    rw [removeSession_of_find_none w _ hfresh, replaceOld_of_find_none w _ hfresh]
    simp [hs]
  · rw [f1, mapSet_of_find_none _ _ _ hfresh]

theorem ownership_of_same (w w1 : World) (hs : w1.sessions = w.sessions)
    (hq : w1.queuedPlayer = w.queuedPlayer) (h : ownership w) : ownership w1 := by
  unfold ownership at h ⊢
  rw [hs, hq]
  exact h

theorem ownership_removeQueuedPlayer (w : World) (sess : Nat) (h : ownership w) :
    ownership (RemoveQueuedPlayer w sess).1 := by
  have hsub := (removeQueuedPlayer_queue_sublist w sess).trans (List.erase_sublist _ _)
  unfold ownership at h ⊢
  rw [removeQueuedPlayer_sessions]
  exact ⟨h.1, h.2.1, h.2.2.1.sublist hsub, fun x hx => h.2.2.2 x (hsub.subset hx)⟩

theorem ownership_kickAll (w : World) (h : ownership w) : ownership (KickAll w) := by
  unfold ownership at h ⊢
  exact ⟨h.1, h.2.1, List.nodup_nil, fun x hx => absurd hx (List.not_mem_nil _)⟩

/-- After `RemoveQueuedPlayer(sess)` on a queue that holds no session twice, `sess` is
not queued. -/
theorem not_mem_queue_after_remove (w : World) (sess : Nat) (hnd : w.queuedPlayer.Nodup) :
    sess ∉ (RemoveQueuedPlayer w sess).1.queuedPlayer := fun h =>
  ((List.Nodup.mem_erase_iff hnd).mp ((removeQueuedPlayer_queue_sublist w sess).subset h)).1 rfl

theorem ownership_addSession (w : World) (s : Nat) (w1 : World) (h : ownership w)
    (hf : freshSession w s) (hadd : AddSession_ w s = some w1) : ownership w1 := by
  obtain ⟨hs0, hsv, hsq⟩ := hf
  by_cases hacc : (RemoveSession w (w.heap s).accountId).2 = true
  · cases hfind : mapFind w.sessions (w.heap s).accountId with
    | none =>
      obtain ⟨w2, h2, g1, -, g3⟩ := addSession_new w s hs0 hfind
      rw [hadd] at h2
      cases h2
      unfold ownership at h ⊢
      rw [g1, g3]
      have hk := (mapFind_eq_none_iff _ _).mp hfind
      refine ⟨?_, ?_, ?_, ?_⟩
      · rw [List.map_append]
        refine List.Nodup.append h.1 (List.nodup_singleton _) (fun a ha hb => ?_)
        simp only [List.map_cons, List.map_nil, List.mem_singleton] at hb
        exact hk (hb ▸ ha)
      · rw [List.map_append]
        refine List.Nodup.append h.2.1 (List.nodup_singleton _) (fun a ha hb => ?_)
        simp only [List.map_cons, List.map_nil, List.mem_singleton] at hb
        exact hsv (hb ▸ ha)
      · split
        · exact List.Nodup.append h.2.2.1 (List.nodup_singleton _)
            (fun a ha hb => hsq ((List.mem_singleton.mp hb) ▸ ha))
        · simpa using h.2.2.1
      · intro x hx
        rw [List.map_append]
        rcases List.mem_append.mp hx with hx | hx
        · exact List.mem_append_left _ (h.2.2.2 x hx)
        · split at hx
          · exact List.mem_append_right _ (by simpa using hx)
          · exact absurd hx (List.not_mem_nil _)
    | some old =>
      obtain ⟨w2, h2, g1, -, g3, -⟩ := addSession_replace w s old hs0 hfind hacc
      rw [hadd] at h2
      cases h2
      have hsub := (removeQueuedPlayer_queue_sublist w old).trans (List.erase_sublist _ _)
      have hold := not_mem_queue_after_remove w old h.2.2.1
      unfold ownership at h ⊢
      rw [g1, g3]
      refine ⟨?_, ?_, ?_, ?_⟩
      · rw [mapSet_keys _ _ _ _ hfind]; exact h.1
      · exact mapSet_values_nodup _ _ _ h.2.1 hsv
      · split
        · exact List.Nodup.append (h.2.2.1.sublist hsub) (List.nodup_singleton _)
            (fun a ha hb => hsq ((List.mem_singleton.mp hb) ▸ hsub.subset ha))
        · simpa using h.2.2.1.sublist hsub
      · intro x hx
        rcases List.mem_append.mp hx with hx | hx
        · exact mem_values_mapSet _ _ _ old x hfind (h.2.2.2 x (hsub.subset hx))
            (fun e => hold (e ▸ hx))
        · split at hx
          · rw [List.mem_singleton.mp hx]; exact self_mem_values_mapSet _ _ _
          · exact absurd hx (List.not_mem_nil _)
  · have hacc2 : (RemoveSession w (w.heap s).accountId).2 = false := by
      cases hb : (RemoveSession w (w.heap s).accountId).2
      · rfl
      · exact absurd hb hacc
    rw [addSession_refused w s hs0 hacc2] at hadd
    cases hadd
    exact ownership_of_same w _ rfl rfl h

theorem ownership_removeFailedSession (w : World) (id p : Nat) (h : ownership w)
    (hp : (id, p) ∈ w.sessions) :
    ownership (removeFailedSession w id p) ∧ p ∉ (removeFailedSession w id p).queuedPlayer := by
  obtain ⟨f1, -, f3, -⟩ := removeFailedSession_fields w id p
  obtain ⟨n1, -, -, -, -⟩ := noteDisconnect_fields w p
  have hs1 := (removeQueuedPlayer_queue_sublist w p).trans (List.erase_sublist _ _)
  have hs2 := (removeQueuedPlayer_queue_sublist (noteDisconnect w p) p).trans
    (List.erase_sublist _ _)
  rw [n1] at hs2
  have hnot : p ∉ (removeFailedSession w id p).queuedPlayer := by
    rw [f3]
    exact fun hx => not_mem_queue_after_remove w p h.2.2.1 (hs2.subset hx)
  refine ⟨?_, hnot⟩
  have hsub := hs2.trans hs1
  unfold ownership at h ⊢
  rw [f1]
  refine ⟨h.1.sublist ((mapErase_sublist _ _).map _), h.2.1.sublist ((mapErase_sublist _ _).map _),
    ?_, ?_⟩
  · rw [f3]; exact h.2.2.1.sublist hsub
  · intro x hx
    have hxp : x ≠ p := fun e => hnot (e ▸ hx)
    rw [f3] at hx
    obtain ⟨e, he1, he2⟩ := List.mem_map.mp (h.2.2.2 x (hsub.subset hx))
    have hk : e.1 ≠ id := by
      intro hk
      -- two entries with the key `id`
      have : e = (id, p) := by
        have hinj := List.inj_on_of_nodup_map h.1 he1 hp hk
        exact hinj
      exact hxp (by rw [← he2, this])
    exact List.mem_map.mpr ⟨e, mem_mapErase_of_ne _ _ _ he1 hk, he2⟩


/-! ## The sweep of `UpdateSessions` -/

/-- A property kept by the removal branch, for entries of the registry, is kept by the
sweep. -/
theorem sweepSessions_preserves (P : World → Prop) (Update : Nat → Bool)
    (hstep : ∀ v id p, P v → (id, p) ∈ v.sessions → P (removeFailedSession v id p)) :
    ∀ (l : List (Nat × Nat)) (v : World), P v → (l.map Prod.fst).Nodup →
      (∀ e ∈ l, e ∈ v.sessions) → P (sweepSessions Update v l) := by
  intro l
  induction l with
  | nil => intro v hv _ _; exact hv
  | cons e l ih =>
    obtain ⟨k, p⟩ := e
    intro v hv hnd hmem
    have hnd2 := List.nodup_cons.mp hnd
    by_cases hu : Update p = true
    · simp only [sweepSessions, hu, if_true]
      exact ih v hv hnd2.2 (fun e he => hmem e (List.mem_cons_of_mem _ he))
    · simp only [sweepSessions, hu]
      refine ih _ (hstep v k p hv (hmem _ (List.mem_cons_self _ _))) hnd2.2 (fun e he => ?_)
      rw [(removeFailedSession_fields v k p).1]
      refine mem_mapErase_of_ne _ _ _ (hmem e (List.mem_cons_of_mem _ he)) (fun hk => ?_)
      exact hnd2.1 (hk ▸ List.mem_map.mpr ⟨e, he, rfl⟩)

/-- The registry after the sweep holds old entries only, and none of the swept entries
whose `Update` failed. -/
theorem sweepSessions_sessions (Update : Nat → Bool) :
    ∀ (l : List (Nat × Nat)) (v : World), (v.sessions.map Prod.fst).Nodup →
      ∀ e ∈ (sweepSessions Update v l).sessions,
        e ∈ v.sessions ∧ (e ∈ l → Update e.2 = true) := by
  intro l
  induction l with
  | nil => intro v _ e he; exact ⟨he, fun h => absurd h (List.not_mem_nil _)⟩
  | cons a l ih =>
    obtain ⟨k, p⟩ := a
    intro v hv e he
    by_cases hu : Update p = true
    · simp only [sweepSessions, hu, if_true] at he
      obtain ⟨h1, h2⟩ := ih v hv e he
      refine ⟨h1, fun hm => ?_⟩
      rcases List.mem_cons.mp hm with h | h
      · rw [h]; exact hu
      · exact h2 h
    · simp only [sweepSessions, hu] at he
      have hf := (removeFailedSession_fields v k p).1
      obtain ⟨h1, h2⟩ := ih (removeFailedSession v k p)
        (by rw [hf]; exact hv.sublist ((mapErase_sublist _ _).map _)) e he
      rw [hf] at h1
      refine ⟨mem_mapErase _ _ _ h1, fun hm => ?_⟩
      rcases List.mem_cons.mp hm with h | h
      · exact absurd (List.mem_map.mpr ⟨e, h1, by rw [h]⟩) (key_not_mem_mapErase _ k hv)
      · exact h2 h


theorem ownership_updateSessions (w : World) (Update : Nat → Bool) (w1 : World)
    (h : ownership w) (hin : w.addSessQueue = [])
    (hup : UpdateSessions w Update = some w1) : ownership w1 := by
  rw [updateSessions_empty_inbox w Update hin] at hup
  cases hup
  exact sweepSessions_preserves ownership Update
    (fun v id p hv hp => (ownership_removeFailedSession v id p hv hp).1)
    w.sessions w h h.1 (fun e he => he)

theorem ownership_of_reachable (w : World) (h : Reachable w) : ownership w := by
  induction h with
  | start w hs hq =>
    unfold ownership
    rw [hs, hq]
    exact ⟨List.nodup_nil, List.nodup_nil, List.nodup_nil,
      fun x hx => absurd hx (List.not_mem_nil _)⟩
  | outside w w1 _ hs hq ih => exact ownership_of_same w w1 hs hq ih
  | addSession w s w1 _ hf hadd ih => exact ownership_addSession w s w1 ih hf hadd
  | updateSessions w Update w1 _ hin hup ih =>
    exact ownership_updateSessions w Update w1 ih hin hup
  | removeQueuedPlayer w sess _ ih => exact ownership_removeQueuedPlayer w sess ih
  | kickAll w _ ih => exact ownership_kickAll w ih

/-- C9. Registry/queue ownership.  In every world reached from the empty one through
`AddSession_` on new connections, the sweep of `UpdateSessions`, `RemoveQueuedPlayer`
and `KickAll`: the registry has one entry per account, the queue holds no session
twice, and every queued session is registered.  After an `AddSession_(s)` that is not
refused the account maps to `s`, and the session it replaced is neither registered nor
queued; after the sweep a session whose `Update` failed is neither registered nor
queued. -/
theorem registry_queue_ownership (w : World) (h : Reachable w) :
    ((w.sessions.map Prod.fst).Nodup ∧ w.queuedPlayer.Nodup ∧
      ∀ x ∈ w.queuedPlayer, x ∈ w.sessions.map Prod.snd) ∧
    (∀ s w1, freshSession w s → AddSession_ w s = some w1 →
      (RemoveSession w (w.heap s).accountId).2 = true →
      mapFind w1.sessions (w.heap s).accountId = some s ∧
      ∀ old, mapFind w.sessions (w.heap s).accountId = some old →
        old ∉ w1.sessions.map Prod.snd ∧ old ∉ w1.queuedPlayer) ∧
    (∀ Update w1, w.addSessQueue = [] → UpdateSessions w Update = some w1 →
      ∀ e ∈ w.sessions, Update e.2 = false →
        e.2 ∉ w1.sessions.map Prod.snd ∧ e.2 ∉ w1.queuedPlayer) := by
  have ho := ownership_of_reachable w h
  refine ⟨⟨ho.1, ho.2.2.1, ho.2.2.2⟩, ?_, ?_⟩
  · intro s w1 hf hadd hacc
    have ho1 := ownership_addSession w s w1 ho hf hadd
    cases hfind : mapFind w.sessions (w.heap s).accountId with
    | none =>
      obtain ⟨w2, h2, g1, -, -⟩ := addSession_new w s hf.1 hfind
      rw [hadd] at h2
      cases h2
      refine ⟨?_, fun old ho => absurd ho (by simp)⟩
      rw [g1, ← mapSet_of_find_none _ _ _ hfind]
      exact mapFind_mapSet_self _ _ _
    | some old =>
      obtain ⟨w2, h2, g1, -, -, -⟩ := addSession_replace w s old hf.1 hfind hacc
      rw [hadd] at h2
      cases h2
      refine ⟨by rw [g1]; exact mapFind_mapSet_self _ _ _, fun old2 ho2 => ?_⟩
      cases ho2
      have hne : s ≠ old := fun e =>
        hf.2.1 (e ▸ List.mem_map.mpr ⟨_, mapFind_some_mem _ _ _ hfind, rfl⟩)
      have hnv : old ∉ w1.sessions.map Prod.snd := by
        rw [g1]; exact old_not_mem_values_mapSet _ _ _ _ hfind ho.2.1 hne
      exact ⟨hnv, fun hq => hnv (ho1.2.2.2 old hq)⟩
  · intro Update w1 hin hup e he hfail
    have ho1 := ownership_updateSessions w Update w1 ho hin hup
    rw [updateSessions_empty_inbox w Update hin] at hup
    cases hup
    have hnv : e.2 ∉ (sweepSessions Update w w.sessions).sessions.map Prod.snd := by
      intro hm
      obtain ⟨e1, h1, h2⟩ := List.mem_map.mp hm
      have := (sweepSessions_sessions Update w.sessions w ho.1 e1 h1)
      have ht := this.2 this.1
      rw [h2, hfail] at ht
      exact Bool.noConfusion ht
    exact ⟨hnv, fun hq => hnv (ho1.2.2.2 _ hq)⟩

theorem reachable_scenarioABC : Reachable scenarioABC :=
  Reachable.addSession scenarioAB 3 scenarioABC
    (Reachable.addSession scenarioA 2 scenarioAB
      (Reachable.addSession scenarioStart 1 scenarioA
        (Reachable.start scenarioStart rfl rfl) (by decide) rfl)
      (by decide) rfl)
    (by decide) rfl

/-- C9, on the scenario of the spec (capacity 2, sessions 1, 2, 3 admitted in that
order): the world is reached, and session 3, the queued one, is registered. -/
theorem registry_queue_ownership_witness :
    Reachable scenarioABC ∧
    (scenarioABC.sessions.map Prod.fst).Nodup ∧ scenarioABC.queuedPlayer.Nodup ∧
    3 ∈ scenarioABC.sessions.map Prod.snd :=
  ⟨reachable_scenarioABC,
    (registry_queue_ownership scenarioABC reachable_scenarioABC).1.1,
    (registry_queue_ownership scenarioABC reachable_scenarioABC).1.2.1,
    (registry_queue_ownership scenarioABC reachable_scenarioABC).1.2.2 3 (by decide)⟩


/-! ## Counting sessions -/

theorem queue_length_le (w : World) (h : ownership w) :
    w.queuedPlayer.length ≤ w.sessions.length := by
  have := (List.subperm_of_subset h.2.2.1 h.2.2.2).length_le
  simpa using this

theorem queue_length_lt (w : World) (h : ownership w) (p : Nat)
    (hp : p ∈ w.sessions.map Prod.snd) (hq : p ∉ w.queuedPlayer) :
    w.queuedPlayer.length + 1 ≤ w.sessions.length := by
  have hnd : (p :: w.queuedPlayer).Nodup := List.nodup_cons.mpr ⟨hq, h.2.2.1⟩
  have hsub : (p :: w.queuedPlayer) ⊆ w.sessions.map Prod.snd := by
    intro x hx
    rcases List.mem_cons.mp hx with hx | hx
    · exact hx ▸ hp
    · exact h.2.2.2 x hx
  have := (List.subperm_of_subset hnd hsub).length_le
  simpa using this

/-- How many sessions one `RemoveQueuedPlayer(sess)` takes out of the queue: `sess`
itself when queued, and one more (`promoted = 1`) when the head is promoted, which
happens only below the limit. -/
theorem removeQueuedPlayer_count (w : World) (sess : Nat)
    (hsz : w.sessions.length < 4294967296)
    (hle : w.queuedPlayer.length ≤ w.sessions.length) (hL : 0 < w.playerLimit) :
    ∃ promoted : Nat, promoted ≤ 1 ∧
      (RemoveQueuedPlayer w sess).1.queuedPlayer.length + promoted +
          (if sess ∈ w.queuedPlayer then 1 else 0) = w.queuedPlayer.length ∧
      (promoted = 1 →
        (if sess ∈ w.queuedPlayer then w.sessions.length - w.queuedPlayer.length
          else w.sessions.length - w.queuedPlayer.length - 1) < w.playerLimit) := by
  have hA : GetActiveSessionCount w = w.sessions.length - w.queuedPlayer.length :=
    u32sub_of_le hle hsz
  have hel : (w.queuedPlayer.erase sess).length + (if sess ∈ w.queuedPlayer then 1 else 0) =
      w.queuedPlayer.length := by
    by_cases hm : sess ∈ w.queuedPlayer
    · rw [if_pos hm, List.length_erase_of_mem hm]
      have := List.length_pos_of_mem hm
      omega
    · rw [if_neg hm, List.erase_of_not_mem hm]; rfl
  rw [removeQueuedPlayer_queue]
  by_cases hp : promotionTest w sess
  · have hc := (promotionTest_iff w sess).mp hp
    rw [sessionsForPromotion_eq, hA] at hc
    have hpos : 0 < (w.queuedPlayer.erase sess).length := List.length_pos.mpr hc.2
    refine ⟨1, le_refl _, ?_, fun _ => ?_⟩
    · rw [if_pos hp, List.length_tail]; omega
    · rcases hc.1 with h0 | h0
      · omega
      · exact h0
  · refine ⟨0, by omega, ?_, fun h => absurd h (by omega)⟩
    rw [if_neg hp]; omega


theorem capacity_removeFailedSession (L : Nat) (hL : 0 < L) (w : World) (id p : Nat)
    (h : capacityInvariant L w) (hp : (id, p) ∈ w.sessions) :
    capacityInvariant L (removeFailedSession w id p) := by
  obtain ⟨ho, hlim, hsz, hcap⟩ := h
  obtain ⟨f1, f2, f3, -⟩ := removeFailedSession_fields w id p
  obtain ⟨n1, n2, n3, -, -⟩ := noteDisconnect_fields w p
  have hle := queue_length_le w ho
  have hpv : p ∈ w.sessions.map Prod.snd := List.mem_map.mpr ⟨_, hp, rfl⟩
  -- first call
  obtain ⟨p1, hp1, hc1, hl1⟩ := removeQueuedPlayer_count w p hsz hle (by rw [hlim]; exact hL)
  -- second call, on the world after the first
  have hnot : p ∉ (noteDisconnect w p).queuedPlayer := by
    rw [n1]; exact not_mem_queue_after_remove w p ho.2.2.1
  have hle2 : (noteDisconnect w p).queuedPlayer.length ≤ (noteDisconnect w p).sessions.length := by
    rw [n1, n2]; omega
  obtain ⟨p2, hp2, hc2, hl2⟩ := removeQueuedPlayer_count (noteDisconnect w p) p
    (by rw [n2]; exact hsz) hle2 (by rw [n3, hlim]; exact hL)
  rw [if_neg hnot, n1] at hc2
  rw [if_neg hnot, n1, n2, n3] at hl2
  have hel := mapErase_length w.sessions id p hp
  refine ⟨(ownership_removeFailedSession w id p ho hp).1, by rw [f2, hlim], ?_, ?_⟩
  · rw [f1]; omega
  · rw [f1, f3]
    by_cases hm : p ∈ w.queuedPlayer
    · rw [if_pos hm] at hc1 hl1
      rcases Nat.eq_zero_or_pos p2 with h2 | h2
      · rcases Nat.eq_zero_or_pos p1 with h1 | h1
        · omega
        · have := hl1 (by omega); omega
      · have := hl2 (by omega); omega
    · rw [if_neg hm] at hc1
      have hlt := queue_length_lt w ho p hpv hm
      rcases Nat.eq_zero_or_pos p2 with h2 | h2
      · omega
      · have := hl2 (by omega); omega

theorem queueTest_iff (w : World) (m : List (Nat × Nat)) (s : Nat) (d : Bool) :
    queueTest { w with sessions := m } s d ↔
      (0 < w.playerLimit ∧
        w.playerLimit ≤ (if d then u32 (u32 m.length + 4294967295) else u32 m.length) ∧
        (w.heap s).skipQueue = false ∧ (HasRecentlyDisconnected w s).2 = false) := by
  unfold queueTest sessionsForAdmission GetActiveAndQueuedSessionCount GetPlayerAmountLimit
  rw [hasRecentlyDisconnected_sessions]

theorem capacity_addSession (L : Nat) (hL : 0 < L) (w : World) (s : Nat) (w1 : World)
    (h : capacityInvariant L w) (hf : freshSession w s)
    (hroom : w.sessions.length + 1 < 4294967296)
    (hskip : (w.heap s).skipQueue = false)
    (hrecent : (HasRecentlyDisconnected w s).2 = false)
    (hadd : AddSession_ w s = some w1) : capacityInvariant L w1 := by
  obtain ⟨ho, hlim, hsz, hcap⟩ := h
  have ho1 := ownership_addSession w s w1 ho hf hadd
  have hle := queue_length_le w ho
  by_cases hacc : (RemoveSession w (w.heap s).accountId).2 = true
  · cases hfind : mapFind w.sessions (w.heap s).accountId with
    | none =>
      obtain ⟨w2, h2, g1, g2, g3⟩ := addSession_new w s hf.1 hfind
      rw [hadd] at h2
      cases h2
      have hlen : (mapSet w.sessions (w.heap s).accountId s).length =
          w.sessions.length + 1 := by
        rw [mapSet_of_find_none _ _ _ hfind]; simp
      have hu : u32 (u32 (w.sessions.length + 1) + 4294967295) = w.sessions.length := by
        unfold u32; omega
      have hq : queueTest
            { w with sessions := mapSet w.sessions (w.heap s).accountId s } s true ↔
          (0 < L ∧ L ≤ w.sessions.length ∧ (w.heap s).skipQueue = false ∧
            (HasRecentlyDisconnected w s).2 = false) := by
        rw [queueTest_iff, hlen, if_pos rfl, hu, hlim]
      refine ⟨ho1, by rw [g2, hlim], by rw [g1]; simpa using hroom, ?_⟩
      rw [g1, g3]
      simp only [List.length_append, List.length_singleton]
      by_cases hQ : queueTest
          { w with sessions := mapSet w.sessions (w.heap s).accountId s } s true
      · rw [if_pos hQ]; simp only [List.length_singleton]; omega
      · have : ¬ L ≤ w.sessions.length := fun hle => hQ (hq.mpr ⟨hL, hle, hskip, hrecent⟩)
        rw [if_neg hQ]; simp only [List.length_nil]; omega
    | some old =>
      obtain ⟨w2, h2, g1, g2, g3, -⟩ := addSession_replace w s old hf.1 hfind hacc
      rw [hadd] at h2
      cases h2
      have hlen : (mapSet w.sessions (w.heap s).accountId s).length = w.sessions.length :=
        mapSet_length_of_find_some _ _ _ _ hfind
      have hpos : 0 < w.sessions.length :=
        List.length_pos_of_mem (mapFind_some_mem _ _ _ hfind)
      have hq : queueTest
            { w with sessions := mapSet w.sessions (w.heap s).accountId s } s
              (!decide (old ∈ w.queuedPlayer)) ↔
          (0 < L ∧
            L ≤ (if old ∈ w.queuedPlayer then w.sessions.length
                  else w.sessions.length - 1) ∧
            (w.heap s).skipQueue = false ∧ (HasRecentlyDisconnected w s).2 = false) := by
        have hu : u32 (u32 w.sessions.length + 4294967295) = w.sessions.length - 1 := by
          unfold u32; omega
        rw [queueTest_iff, hlen, hlim]
        by_cases hm : old ∈ w.queuedPlayer
        · simp [hm, u32_of_lt hsz]
        · simp [hm, hu]
      obtain ⟨p1, hp1, hc1, hl1⟩ := removeQueuedPlayer_count w old hsz hle
        (by rw [hlim]; exact hL)
      rw [hlim] at hl1
      refine ⟨ho1, by rw [g2, hlim], by rw [g1, hlen]; exact hsz, ?_⟩
      rw [g1, g3, hlen]
      simp only [List.length_append]
      by_cases hm : old ∈ w.queuedPlayer
      · rw [if_pos hm] at hc1 hl1
        rw [if_pos hm] at hq
        by_cases hQ : queueTest
            { w with sessions := mapSet w.sessions (w.heap s).accountId s } s
              (!decide (old ∈ w.queuedPlayer))
        · rw [if_pos hQ]; simp only [List.length_singleton]
          rcases Nat.eq_zero_or_pos p1 with h1 | h1
          · omega
          · have := hl1 (by omega); omega
        · have : ¬ L ≤ w.sessions.length := fun hle =>
            hQ (hq.mpr ⟨hL, hle, hskip, hrecent⟩)
          rw [if_neg hQ]; simp only [List.length_nil]; omega
      · rw [if_neg hm] at hc1
        rw [if_neg hm] at hq
        by_cases hQ : queueTest
            { w with sessions := mapSet w.sessions (w.heap s).accountId s } s
              (!decide (old ∈ w.queuedPlayer))
        · rw [if_pos hQ]; simp only [List.length_singleton]; omega
        · have : ¬ L ≤ w.sessions.length - 1 := fun hle =>
            hQ (hq.mpr ⟨hL, hle, hskip, hrecent⟩)
          rw [if_neg hQ]; simp only [List.length_nil]; omega
  · have hacc2 : (RemoveSession w (w.heap s).accountId).2 = false := by
      cases hb : (RemoveSession w (w.heap s).accountId).2
      · rfl
      · exact absurd hb hacc
    rw [addSession_refused w s hf.1 hacc2] at hadd
    cases hadd
    exact ⟨ho1, hlim, hsz, hcap⟩

theorem capacity_of_admitRemove (L : Nat) (hL : 0 < L) (w : World) (h : AdmitRemove L w) :
    capacityInvariant L w := by
  induction h with
  | start w hs hq hl =>
    refine ⟨?_, hl, by rw [hs]; decide, by rw [hs]; simp⟩
    unfold ownership
    rw [hs, hq]
    exact ⟨List.nodup_nil, List.nodup_nil, List.nodup_nil,
      fun x hx => absurd hx (List.not_mem_nil _)⟩
  | outside w w1 _ hs hq hl ih =>
    obtain ⟨ho, hlim, hsz, hcap⟩ := ih
    exact ⟨ownership_of_same w w1 hs hq ho, by rw [hl, hlim], by rw [hs]; exact hsz,
      by rw [hs, hq]; exact hcap⟩
  | addSession w s w1 _ hf hroom hskip hrecent hadd ih =>
    exact capacity_addSession L hL w s w1 ih hf hroom hskip hrecent hadd
  | updateSessions w Update w1 _ hin hup ih =>
    rw [updateSessions_empty_inbox w Update hin] at hup
    cases hup
    exact sweepSessions_preserves (capacityInvariant L) Update
      (fun v id p hv hp => capacity_removeFailedSession L hL v id p hv hp)
      w.sessions w ih ih.1.1 (fun e he => he)


/-- The walk over the recent-disconnect list answers `false` for an account that has no
entry. -/
theorem disconnectWalk_unlisted (now : Int) (tolerance account : Nat)
    (l : List (Nat × Int)) (h : account ∉ l.map Prod.fst) :
    (disconnectWalk now tolerance account l).2 = false := by
  induction l with
  | nil => rfl
  | cons e l ih =>
    obtain ⟨k, t⟩ := e
    have hk : ¬ k = account := fun e => h (by simp [e])
    have hl : account ∉ l.map Prod.fst := fun hm => h (by simp [hm])
    unfold disconnectWalk
    by_cases ht : t - now < (tolerance : Int)
    · rw [if_pos ht, if_neg hk]
      exact ih hl
    · rw [if_neg ht]
      exact ih hl

/-- `HasRecentlyDisconnected` answers `false` when the tolerance setting is 0 or the
account of the session has no entry in the list. -/
theorem hasRecentlyDisconnected_unlisted (w : World) (s : Nat)
    (h : w.disconnectTolerance = 0 ∨ (w.heap s).accountId ∉ w.disconnects.map Prod.fst) :
    (HasRecentlyDisconnected w s).2 = false := by
  unfold HasRecentlyDisconnected
  by_cases hs : s = 0
  · rw [if_pos hs]
  · rw [if_neg hs]
    by_cases ht : w.disconnectTolerance = 0
    · rw [if_neg (fun hne => hne ht)]
    · rw [if_pos ht]
      exact disconnectWalk_unlisted _ _ _ _ (h.resolve_left ht)

/-- Every history of `AdmitUnlisted` is one of `AdmitRemove`. -/
theorem admitRemove_of_unlisted (L : Nat) (w : World) (h : AdmitUnlisted L w) :
    AdmitRemove L w := by
  induction h with
  | start w hs hq hl => exact AdmitRemove.start w hs hq hl
  | outside w w1 _ hs hq hl ih => exact AdmitRemove.outside w w1 ih hs hq hl
  | addSession w s w1 _ hf hroom hskip hun hadd ih =>
    exact AdmitRemove.addSession w s w1 ih hf hroom hskip
      (hasRecentlyDisconnected_unlisted w s hun) hadd
  | updateSessions w Update w1 _ hin hup ih =>
    exact AdmitRemove.updateSessions w Update w1 ih hin hup

/-- C3, as the code has it.  Under a constant limit `L > 0`, after any sequence of
admissions (of new sessions that have no skip-queue permission and whose account has no
entry in the recent-disconnect list, or with the tolerance setting at 0) and of
removals, starting from an empty registry: the active count `GetActiveSessionCount()`
is at most `L`.  Active and queued count together are the registry size; the sessions
above the limit wait in the queue. -/
theorem active_count_bounded (L : Nat) (hL : 0 < L) (w : World) (h : AdmitUnlisted L w) :
    GetActiveSessionCount w ≤ L ∧
    GetActiveSessionCount w + GetQueuedSessionCount w = GetActiveAndQueuedSessionCount w ∧
    GetActiveAndQueuedSessionCount w = w.sessions.length := by
  obtain ⟨ho, -, hsz, hcap⟩ :=
    capacity_of_admitRemove L hL w (admitRemove_of_unlisted L w h)
  have hle := queue_length_le w ho
  unfold GetActiveSessionCount GetQueuedSessionCount GetActiveAndQueuedSessionCount
  rw [u32sub_of_le hle hsz, u32_of_lt hsz, u32_of_lt (by omega)]
  omega

theorem admitUnlisted_scenarioABC : AdmitUnlisted 2 scenarioABC :=
  AdmitUnlisted.addSession scenarioAB 3 scenarioABC
    (AdmitUnlisted.addSession scenarioA 2 scenarioAB
      (AdmitUnlisted.addSession scenarioStart 1 scenarioA
        (AdmitUnlisted.start scenarioStart rfl rfl rfl)
        (by decide) (by decide) (by decide) (Or.inl (by decide)) rfl)
      (by decide) (by decide) (by decide) (Or.inl (by decide)) rfl)
    (by decide) (by decide) (by decide) (Or.inl (by decide)) rfl

theorem admitRemove_scenarioABC : AdmitRemove 2 scenarioABC :=
  AdmitRemove.addSession scenarioAB 3 scenarioABC
    (AdmitRemove.addSession scenarioA 2 scenarioAB
      (AdmitRemove.addSession scenarioStart 1 scenarioA
        (AdmitRemove.start scenarioStart rfl rfl rfl)
        (by decide) (by decide) (by decide) (by decide) rfl)
      (by decide) (by decide) (by decide) (by decide) rfl)
    (by decide) (by decide) (by decide) (by decide) rfl

/-- C3 as stated fails: with capacity 2, after the admissions of sessions 1, 2 and 3
the active and the queued count add up to 3. -/
theorem active_plus_queued_counterexample :
    AdmitRemove 2 scenarioABC ∧
    GetActiveSessionCount scenarioABC = 2 ∧ GetQueuedSessionCount scenarioABC = 1 ∧
    ¬ (GetActiveSessionCount scenarioABC + GetQueuedSessionCount scenarioABC ≤ 2) :=
  ⟨admitRemove_scenarioABC, by decide, by decide, by decide⟩

/-- C3 as the code has it, on the scenario of the spec. -/
theorem active_count_bounded_witness :
    (0 < 2 ∧ AdmitUnlisted 2 scenarioABC) ∧
    GetActiveSessionCount scenarioABC ≤ 2 ∧
    GetActiveSessionCount scenarioABC + GetQueuedSessionCount scenarioABC =
      GetActiveAndQueuedSessionCount scenarioABC ∧
    GetActiveAndQueuedSessionCount scenarioABC = scenarioABC.sessions.length :=
  ⟨⟨by decide, admitUnlisted_scenarioABC⟩,
    active_count_bounded 2 (by decide) scenarioABC admitUnlisted_scenarioABC⟩

/-! ## The recent-disconnect list -/

/-- The walk evicts nothing and answers by membership when no entry lies `tolerance`
seconds or more in the future: the test compares disconnect time minus game time with
the tolerance. -/
theorem disconnectWalk_of_past (now : Int) (tolerance account : Nat)
    (l : List (Nat × Int)) (h : ∀ e ∈ l, e.2 - now < (tolerance : Int)) :
    (disconnectWalk now tolerance account l).1 = l ∧
    ((disconnectWalk now tolerance account l).2 = true ↔ account ∈ l.map Prod.fst) := by
  induction l with
  | nil => simp [disconnectWalk]
  | cons e l ih =>
    obtain ⟨k, t⟩ := e
    have ht : t - now < (tolerance : Int) := h (k, t) (List.mem_cons_self _ _)
    obtain ⟨h2, h3⟩ := ih (fun e he => h e (List.mem_cons_of_mem _ he))
    by_cases hk : k = account
    · simp [disconnectWalk, ht, hk]
    · have hk2 : ¬ account = k := fun e => hk e.symm
      simp [disconnectWalk, ht, hk, hk2, h2, h3]

/-- C11, the code at the failing input: tolerance 60 s, account 5 disconnected 1000 s
ago.  `HasRecentlyDisconnected` answers `true` and keeps the entry. -/
theorem hasRecentlyDisconnected_stale_entry :
    demoStale.disconnectTolerance = 60 ∧ demoStale.disconnects = [(5, 1000)] ∧
    demoStale.gameTime - 1000 ≥ 60 ∧ (demoStale.heap 5).accountId = 5 ∧
    (HasRecentlyDisconnected demoStale 5).2 = true ∧
    (HasRecentlyDisconnected demoStale 5).1.disconnects = [(5, 1000)] := by
  decide

/-! ## The shutdown countdown -/

/-- The message of `ShutdownMsg` for the countdown of `w`. -/
theorem shutdownMsg_messages (w : World) (show_ : Bool) (player : Nat) (reason : String) :
    (ShutdownMsg w show_ player reason).messages =
      w.messages ++
        (if w.shutdownMask &&& SHUTDOWN_MASK_IDLE = 0 ∧ shutdownMsgDue show_ w.shutdownTimer then
          [{ messageID :=
               if w.shutdownMask &&& SHUTDOWN_MASK_RESTART ≠ 0 then SERVER_MSG_RESTART_TIME
               else SERVER_MSG_SHUTDOWN_TIME
             stringParam := StringParam.countdown w.shutdownTimer reason
             player := player }]
         else []) := by
  unfold ShutdownMsg SendServerMessage
  by_cases hi : w.shutdownMask &&& SHUTDOWN_MASK_IDLE = 0
  · by_cases hd : shutdownMsgDue show_ w.shutdownTimer
    · by_cases hr : w.shutdownMask &&& SHUTDOWN_MASK_RESTART = 0 <;>
        simp [hi, hd, hr, SERVER_MSG_RESTART_TIME, SERVER_MSG_SHUTDOWN_TIME, SERVER_MSG_STRING]
    · simp [hi, hd]
  · simp [hi]

/-- `ShutdownMsg` writes nothing but the message list. -/
theorem shutdownMsg_frame (w : World) (show_ : Bool) (player : Nat) (reason : String) :
    (ShutdownMsg w show_ player reason).stopEvent = w.stopEvent ∧
    (ShutdownMsg w show_ player reason).shutdownTimer = w.shutdownTimer ∧
    (ShutdownMsg w show_ player reason).shutdownMask = w.shutdownMask ∧
    (ShutdownMsg w show_ player reason).exitCode = w.exitCode ∧
    (ShutdownMsg w show_ player reason).gameTime = w.gameTime ∧
    (ShutdownMsg w show_ player reason).sessions = w.sessions ∧
    (ShutdownMsg w show_ player reason).guidWarn = w.guidWarn ∧
    (ShutdownMsg w show_ player reason).guidAlert = w.guidAlert := by
  unfold ShutdownMsg SendServerMessage
  split
  · exact ⟨rfl, rfl, rfl, rfl, rfl, rfl, rfl, rfl⟩
  · split <;> exact ⟨rfl, rfl, rfl, rfl, rfl, rfl, rfl, rfl⟩

/-- C13. `ShutdownServ(time, options, exitcode, reason)`: with the stop flag set it
leaves the world as it is; otherwise the mask becomes `options`, the exit code
`exitcode`, the countdown 1 for `time = 0` and `time` otherwise, the stop flag stays
clear, and one announcement is sent exactly when `time > 0` and the idle bit of
`options` is clear. -/
theorem shutdownServ_postcondition (w : World) (time options exitcode : Nat)
    (reason : String) :
    (w.stopEvent = true → ShutdownServ w time options exitcode reason = w) ∧
    (w.stopEvent = false →
      (ShutdownServ w time options exitcode reason).shutdownMask = options ∧
      (ShutdownServ w time options exitcode reason).exitCode = exitcode ∧
      (ShutdownServ w time options exitcode reason).shutdownTimer =
        (if time = 0 then 1 else time) ∧
      (ShutdownServ w time options exitcode reason).stopEvent = false ∧
      (ShutdownServ w time options exitcode reason).messages =
        w.messages ++
          (if 0 < time ∧ options &&& SHUTDOWN_MASK_IDLE = 0 then
            [{ messageID :=
                 if options &&& SHUTDOWN_MASK_RESTART ≠ 0 then SERVER_MSG_RESTART_TIME
                 else SERVER_MSG_SHUTDOWN_TIME
               stringParam := StringParam.countdown time reason
               player := 0 }]
           else [])) := by
  refine ⟨fun hs => ?_, fun hs => ?_⟩
  · unfold ShutdownServ IsStopped
    rw [if_pos hs]
  · unfold ShutdownServ IsStopped
    rw [if_neg (by rw [hs]; decide)]
    by_cases ht : time = 0
    · rw [if_pos ht]
      simp [ht, hs]
    · rw [if_neg ht]
      obtain ⟨f1, f2, f3, f4, -, -, -, -⟩ := shutdownMsg_frame
        { w with shutdownMask := options, exitCode := exitcode, shutdownTimer := time }
        true 0 reason
      refine ⟨f3, f4, by rw [f2, if_neg ht], by rw [f1]; exact hs, ?_⟩
      rw [shutdownMsg_messages]
      have hdue : shutdownMsgDue true time := Or.inl rfl
      by_cases hi : options &&& SHUTDOWN_MASK_IDLE = 0
      · simp [hi, hdue, Nat.pos_of_ne_zero ht]
      · simp [hi]

/-- C13, at two instances: a restart in 600 s is announced, an immediate shutdown is
not. -/
theorem shutdownServ_postcondition_witness :
    (demoCountdown 0 0 []).stopEvent = false ∧
    (ShutdownServ (demoCountdown 0 0 []) 600 SHUTDOWN_MASK_RESTART RESTART_EXIT_CODE
        "maintenance").shutdownTimer = (if 600 = 0 then 1 else 600) ∧
    (ShutdownServ (demoCountdown 0 0 []) 600 SHUTDOWN_MASK_RESTART RESTART_EXIT_CODE
        "maintenance").messages =
      [{ messageID := SERVER_MSG_RESTART_TIME
         stringParam := StringParam.countdown 600 "maintenance", player := 0 }] ∧
    (ShutdownServ (demoCountdown 0 0 []) 0 0 SHUTDOWN_EXIT_CODE "").shutdownTimer =
      (if 0 = 0 then 1 else 0) ∧
    (ShutdownServ (demoCountdown 0 0 []) 0 0 SHUTDOWN_EXIT_CODE "").messages = [] :=
  ⟨by decide,
    ((shutdownServ_postcondition (demoCountdown 0 0 []) 600 SHUTDOWN_MASK_RESTART
      RESTART_EXIT_CODE "maintenance").2 (by decide)).2.2.1,
    ((shutdownServ_postcondition (demoCountdown 0 0 []) 600 SHUTDOWN_MASK_RESTART
      RESTART_EXIT_CODE "maintenance").2 (by decide)).2.2.2.2.trans (by decide),
    ((shutdownServ_postcondition (demoCountdown 0 0 []) 0 0 SHUTDOWN_EXIT_CODE "").2
      (by decide)).2.2.1,
    ((shutdownServ_postcondition (demoCountdown 0 0 []) 0 0 SHUTDOWN_EXIT_CODE "").2
      (by decide)).2.2.2.2.trans (by decide)⟩

/-- C16. `ShutdownCancel()`: with a countdown running and the stop flag clear it
returns the countdown, sets countdown and mask to 0 and the exit code to
`SHUTDOWN_EXIT_CODE`, and sends one message, `SERVER_MSG_RESTART_CANCELLED` when the
restart bit was set and `SERVER_MSG_SHUTDOWN_CANCELLED` otherwise; with no countdown or
the stop flag set it returns 0 and leaves the world as it is. -/
theorem shutdownCancel_postcondition (w : World) :
    (0 < w.shutdownTimer ∧ w.stopEvent = false →
      (ShutdownCancel w).2 = w.shutdownTimer ∧
      (ShutdownCancel w).1.shutdownTimer = 0 ∧
      (ShutdownCancel w).1.shutdownMask = 0 ∧
      (ShutdownCancel w).1.exitCode = SHUTDOWN_EXIT_CODE ∧
      (ShutdownCancel w).1.stopEvent = false ∧
      (ShutdownCancel w).1.messages =
        w.messages ++
          [{ messageID :=
               if w.shutdownMask &&& SHUTDOWN_MASK_RESTART ≠ 0 then
                 SERVER_MSG_RESTART_CANCELLED
               else SERVER_MSG_SHUTDOWN_CANCELLED
             stringParam := StringParam.empty
             player := 0 }]) ∧
    (¬ (0 < w.shutdownTimer ∧ w.stopEvent = false) → ShutdownCancel w = (w, 0)) := by
  refine ⟨fun h => ?_, fun h => ?_⟩
  · have hc : ¬ (w.shutdownTimer = 0 ∨ w.stopEvent = true) := by
      intro hc
      rcases hc with hc | hc
      · omega
      · rw [h.2] at hc; exact Bool.noConfusion hc
    unfold ShutdownCancel SendServerMessage
    rw [if_neg hc]
    refine ⟨rfl, rfl, rfl, rfl, h.2, ?_⟩
    by_cases hr : w.shutdownMask &&& SHUTDOWN_MASK_RESTART = 0 <;>
      simp [hr, SERVER_MSG_RESTART_CANCELLED, SERVER_MSG_SHUTDOWN_CANCELLED, SERVER_MSG_STRING]
  · have hc : w.shutdownTimer = 0 ∨ w.stopEvent = true := by
      by_cases h0 : w.shutdownTimer = 0
      · exact Or.inl h0
      · refine Or.inr ?_
        cases hs : w.stopEvent
        · exact absurd ⟨Nat.pos_of_ne_zero h0, hs⟩ h
        · rfl
    unfold ShutdownCancel
    rw [if_pos hc]

/-- C16, at two instances: a restart countdown of 90 s is cancelled with one
`SERVER_MSG_RESTART_CANCELLED`; without a countdown nothing happens. -/
theorem shutdownCancel_postcondition_witness :
    (0 < (demoCountdown 90 SHUTDOWN_MASK_RESTART []).shutdownTimer ∧
      (demoCountdown 90 SHUTDOWN_MASK_RESTART []).stopEvent = false) ∧
    (ShutdownCancel (demoCountdown 90 SHUTDOWN_MASK_RESTART [])).2 = 90 ∧
    (ShutdownCancel (demoCountdown 90 SHUTDOWN_MASK_RESTART [])).1.messages =
      [{ messageID := SERVER_MSG_RESTART_CANCELLED, stringParam := StringParam.empty,
         player := 0 }] ∧
    ShutdownCancel (demoCountdown 0 0 []) = (demoCountdown 0 0 [], 0) :=
  ⟨by decide,
    ((shutdownCancel_postcondition (demoCountdown 90 SHUTDOWN_MASK_RESTART [])).1
      (by decide)).1,
    ((shutdownCancel_postcondition (demoCountdown 90 SHUTDOWN_MASK_RESTART [])).1
      (by decide)).2.2.2.2.2.trans (by decide),
    (shutdownCancel_postcondition (demoCountdown 0 0 [])).2 (by decide)⟩

/-! ## Ticks of the countdown -/

/-- When a tick raises the stop flag. -/
theorem updateGameTime_stopEvent (w : World) (newTime : Int) :
    (_UpdateGameTime w newTime).stopEvent = true ↔
      w.stopEvent = true ∨
      (0 < w.shutdownTimer ∧ 0 < elapsedSeconds w newTime ∧
        w.shutdownTimer ≤ elapsedSeconds w newTime ∧
        (w.shutdownMask &&& SHUTDOWN_MASK_IDLE = 0 ∨ GetActiveAndQueuedSessionCount w = 0)) := by
  unfold _UpdateGameTime IsStopped
  by_cases hs : w.stopEvent = true
  · simp [hs]
  · have hs2 : w.stopEvent = false := by
      cases h : w.stopEvent
      · rfl
      · exact absurd h hs
    by_cases h1 : w.shutdownTimer > 0 ∧ elapsedSeconds w newTime > 0
    · rw [if_pos ⟨hs2, h1.1, h1.2⟩]
      by_cases h2 : w.shutdownTimer ≤ elapsedSeconds w newTime
      · rw [if_pos h2]
        by_cases h3 : w.shutdownMask &&& SHUTDOWN_MASK_IDLE = 0 ∨
            GetActiveAndQueuedSessionCount w = 0
        · rw [if_pos h3]
          simp only [true_iff]
          exact Or.inr ⟨h1.1, h1.2, h2, h3⟩
        · rw [if_neg h3]
          exact ⟨fun h => absurd (h : w.stopEvent = true) hs,
            fun h => h.elim (fun h => absurd h hs) (fun h => absurd h.2.2.2 h3)⟩
      · rw [if_neg h2, (shutdownMsg_frame _ false 0 "").1]
        exact ⟨fun h => absurd (h : w.stopEvent = true) hs,
          fun h => h.elim (fun h => absurd h hs) (fun h => absurd h.2.2.1 h2)⟩
    · rw [if_neg (fun h => h1 ⟨h.2.1, h.2.2⟩)]
      exact ⟨fun h => absurd (h : w.stopEvent = true) hs,
        fun h => h.elim (fun h => absurd h hs) (fun h => absurd ⟨h.1, h.2.1⟩ h1)⟩

/-- A tick never writes the mask. -/
theorem updateGameTime_mask (w : World) (newTime : Int) :
    (_UpdateGameTime w newTime).shutdownMask = w.shutdownMask := by
  unfold _UpdateGameTime
  split
  · split
    · split <;> rfl
    · exact (shutdownMsg_frame _ false 0 "").2.2.1
  · rfl

/-- With the idle bit set a tick sends nothing. -/
theorem updateGameTime_idle_messages (w : World) (newTime : Int)
    (hidle : w.shutdownMask &&& SHUTDOWN_MASK_IDLE ≠ 0) :
    (_UpdateGameTime w newTime).messages = w.messages := by
  unfold _UpdateGameTime
  split
  · split
    · split <;> rfl
    · rw [shutdownMsg_messages, if_neg (fun h => hidle h.1)]
      exact List.append_nil _
  · rfl

/-- The countdown after a tick that finds it expired under the idle bit with sessions
registered. -/
theorem updateGameTime_idle_floor (w : World) (newTime : Int)
    (hidle : w.shutdownMask &&& SHUTDOWN_MASK_IDLE ≠ 0) (hs : w.stopEvent = false)
    (ht : 0 < w.shutdownTimer) (he : 0 < elapsedSeconds w newTime)
    (hle : w.shutdownTimer ≤ elapsedSeconds w newTime)
    (hn : GetActiveAndQueuedSessionCount w ≠ 0) :
    (_UpdateGameTime w newTime).shutdownTimer = 1 := by
  unfold _UpdateGameTime IsStopped
  rw [if_pos ⟨hs, ht, he⟩, if_pos hle, if_neg (fun h => h.elim hidle hn)]

theorem runTicks_idle (ticks : List (List (Nat × Nat) × Int)) :
    ∀ w : World, w.shutdownMask &&& SHUTDOWN_MASK_IDLE ≠ 0 →
      (runTicks w ticks).messages = w.messages ∧
      (w.stopEvent = false → (∀ x ∈ ticks, u32 x.1.length ≠ 0) →
        (runTicks w ticks).stopEvent = false) := by
  induction ticks with
  | nil => intro w _; exact ⟨rfl, fun h _ => h⟩
  | cons x ticks ih =>
    obtain ⟨registry, newTime⟩ := x
    intro w hidle
    have hm : (_UpdateGameTime { w with sessions := registry } newTime).shutdownMask &&&
        SHUTDOWN_MASK_IDLE ≠ 0 := by
      rw [updateGameTime_mask]; exact hidle
    obtain ⟨i1, i2⟩ := ih _ hm
    refine ⟨?_, fun hs hx => ?_⟩
    · exact i1.trans (updateGameTime_idle_messages { w with sessions := registry } newTime hidle)
    · show (runTicks (_UpdateGameTime { w with sessions := registry } newTime) ticks).stopEvent = _
      refine i2 ?_ (fun y hy => hx y (List.mem_cons_of_mem _ hy))
      cases hst : (_UpdateGameTime { w with sessions := registry } newTime).stopEvent
      · rfl
      · exfalso
        rcases (updateGameTime_stopEvent _ newTime).mp hst with h | h
        · rw [show ({ w with sessions := registry } : World).stopEvent = w.stopEvent from rfl,
            hs] at h
          exact Bool.noConfusion h
        · rcases h.2.2.2 with h3 | h3
          · exact hidle h3
          · exact hx (registry, newTime) (List.mem_cons_self _ _) h3

/-- C14. Idle-only shutdown.  With the idle bit set and the stop flag clear, a tick
raises the stop flag exactly when the countdown is positive, the elapsed seconds `e`
are positive, the countdown is at most `e`, and `GetActiveAndQueuedSessionCount()` is 0
(for a registry below `2^32` entries: the registry is empty); when the countdown expires
with a session registered the stop flag stays clear and the countdown becomes 1.  Over
any run of ticks in which the registry is never empty the stop flag stays clear. -/
theorem idle_shutdown_waits_for_empty_registry (w : World) (newTime : Int)
    (ticks : List (List (Nat × Nat) × Int))
    (hidle : w.shutdownMask &&& SHUTDOWN_MASK_IDLE ≠ 0) (hs : w.stopEvent = false) :
    ((_UpdateGameTime w newTime).stopEvent = true ↔
      (0 < w.shutdownTimer ∧ 0 < elapsedSeconds w newTime ∧
        w.shutdownTimer ≤ elapsedSeconds w newTime ∧
        GetActiveAndQueuedSessionCount w = 0)) ∧
    (w.sessions.length < 4294967296 →
      (GetActiveAndQueuedSessionCount w = 0 ↔ w.sessions = [])) ∧
    (0 < w.shutdownTimer → 0 < elapsedSeconds w newTime →
      w.shutdownTimer ≤ elapsedSeconds w newTime →
      GetActiveAndQueuedSessionCount w ≠ 0 →
      (_UpdateGameTime w newTime).stopEvent = false ∧
      (_UpdateGameTime w newTime).shutdownTimer = 1) ∧
    ((∀ x ∈ ticks, 1 ≤ x.1.length ∧ x.1.length < 4294967296) →
      (runTicks w ticks).stopEvent = false) := by
  refine ⟨?_, fun hsz => ?_, fun ht he hle hn => ⟨?_, ?_⟩, fun hx => ?_⟩
  · rw [updateGameTime_stopEvent]
    constructor
    · rintro (h | h)
      · rw [hs] at h; exact Bool.noConfusion h
      · rcases h.2.2.2 with h3 | h3
        · exact absurd h3 hidle
        · exact ⟨h.1, h.2.1, h.2.2.1, h3⟩
    · exact fun h => Or.inr ⟨h.1, h.2.1, h.2.2.1, Or.inr h.2.2.2⟩
  · unfold GetActiveAndQueuedSessionCount
    rw [u32_of_lt hsz]
    exact List.length_eq_zero
  · cases hst : (_UpdateGameTime w newTime).stopEvent
    · rfl
    · exfalso
      rcases (updateGameTime_stopEvent w newTime).mp hst with h | h
      · rw [hs] at h; exact Bool.noConfusion h
      · exact h.2.2.2.elim hidle hn
  · exact updateGameTime_idle_floor w newTime hidle hs ht he hle hn
  · refine (runTicks_idle ticks w hidle).2 hs (fun x hxm => ?_)
    obtain ⟨h1, h2⟩ := hx x hxm
    rw [u32_of_lt h2]
    omega

/-- C14, on the scenario of the spec: delay 3600 s under the idle bit with session 1
connected.  A tick 4000 s later leaves the stop flag clear and the countdown at 1, and
so does a run of such ticks; with the registry empty the same tick raises the flag. -/
theorem idle_shutdown_waits_for_empty_registry_witness :
    ((demoCountdown 3600 SHUTDOWN_MASK_IDLE [1]).shutdownMask &&& SHUTDOWN_MASK_IDLE ≠ 0 ∧
      (demoCountdown 3600 SHUTDOWN_MASK_IDLE [1]).stopEvent = false ∧
      (demoCountdown 3600 SHUTDOWN_MASK_IDLE []).shutdownMask &&& SHUTDOWN_MASK_IDLE ≠ 0 ∧
      (demoCountdown 3600 SHUTDOWN_MASK_IDLE []).stopEvent = false) ∧
    ((_UpdateGameTime (demoCountdown 3600 SHUTDOWN_MASK_IDLE [1]) 4000).stopEvent = false ∧
      (_UpdateGameTime (demoCountdown 3600 SHUTDOWN_MASK_IDLE [1]) 4000).shutdownTimer = 1) ∧
    (runTicks (demoCountdown 3600 SHUTDOWN_MASK_IDLE [1])
      [([(1, 1)], 4000), ([(1, 1), (2, 2)], 4001), ([(2, 2)], 9000)]).stopEvent = false ∧
    (_UpdateGameTime (demoCountdown 3600 SHUTDOWN_MASK_IDLE []) 4000).stopEvent = true :=
  ⟨by decide,
    (idle_shutdown_waits_for_empty_registry (demoCountdown 3600 SHUTDOWN_MASK_IDLE [1]) 4000
      [] (by decide) (by decide)).2.2.1 (by decide) (by decide) (by decide) (by decide),
    (idle_shutdown_waits_for_empty_registry (demoCountdown 3600 SHUTDOWN_MASK_IDLE [1]) 4000
      [([(1, 1)], 4000), ([(1, 1), (2, 2)], 4001), ([(2, 2)], 9000)]
      (by decide) (by decide)).2.2.2 (by decide),
    (idle_shutdown_waits_for_empty_registry (demoCountdown 3600 SHUTDOWN_MASK_IDLE []) 4000
      [] (by decide) (by decide)).1.mpr (by decide)⟩

/-- C12, as the code has it.  After `ShutdownServ(0, options, exitcode)` with the idle
bit clear and the stop flag clear, the stop flag is still clear and the countdown is 1.
From such a state a tick that observes no elapsed second changes neither of them, and a
tick that observes an elapsed time of at least one second raises the stop flag. -/
theorem immediate_shutdown_next_second (w : World) (options exitcode : Nat)
    (reason : String) (hidle : options &&& SHUTDOWN_MASK_IDLE = 0)
    (hs : w.stopEvent = false) :
    (ShutdownServ w 0 options exitcode reason).stopEvent = false ∧
    (ShutdownServ w 0 options exitcode reason).shutdownTimer = 1 ∧
    (ShutdownServ w 0 options exitcode reason).shutdownMask = options ∧
    ∀ (v : World) (newTime : Int),
      v.stopEvent = false → v.shutdownTimer = 1 → v.shutdownMask = options →
      (elapsedSeconds v newTime = 0 →
        (_UpdateGameTime v newTime).stopEvent = false ∧
        (_UpdateGameTime v newTime).shutdownTimer = 1 ∧
        (_UpdateGameTime v newTime).shutdownMask = options) ∧
      (0 < elapsedSeconds v newTime → (_UpdateGameTime v newTime).stopEvent = true) := by
  have hss : ShutdownServ w 0 options exitcode reason =
      { w with shutdownMask := options, exitCode := exitcode, shutdownTimer := 1 } := by
    unfold ShutdownServ IsStopped
    rw [if_neg (by rw [hs]; decide), if_pos rfl]
  refine ⟨by rw [hss]; exact hs, by rw [hss], by rw [hss], fun v newTime h1 h2 h3 => ⟨?_, ?_⟩⟩
  · intro he
    have hv : _UpdateGameTime v newTime = { v with gameTime := newTime } := by
      unfold _UpdateGameTime
      rw [if_neg (fun h => by omega)]
    rw [hv]
    exact ⟨h1, h2, h3⟩
  · intro he
    rw [updateGameTime_stopEvent]
    exact Or.inr ⟨by omega, he, by omega, Or.inl (by rw [h3]; exact hidle)⟩

/-- C12 as stated fails: after `ShutdownServ(0, 0, 0)` a tick within the same second of
game time (elapsed 0) leaves the stop flag clear. -/
theorem immediate_shutdown_counterexample :
    (demoCountdown 0 0 []).stopEvent = false ∧ 0 &&& SHUTDOWN_MASK_IDLE = 0 ∧
    (ShutdownServ (demoCountdown 0 0 []) 0 0 SHUTDOWN_EXIT_CODE "").stopEvent = false ∧
    elapsedSeconds (ShutdownServ (demoCountdown 0 0 []) 0 0 SHUTDOWN_EXIT_CODE "") 0 = 0 ∧
    (_UpdateGameTime (ShutdownServ (demoCountdown 0 0 []) 0 0 SHUTDOWN_EXIT_CODE "")
      0).stopEvent = false := by
  decide

/-- C12 as the code has it, at an instance: immediate shutdown requested at game time
0; the tick at game time 0 changes nothing, the tick at game time 1 raises the flag. -/
theorem immediate_shutdown_next_second_witness :
    (0 &&& SHUTDOWN_MASK_IDLE = 0 ∧ (demoCountdown 0 0 []).stopEvent = false) ∧
    (ShutdownServ (demoCountdown 0 0 []) 0 0 SHUTDOWN_EXIT_CODE "").shutdownTimer = 1 ∧
    (_UpdateGameTime (ShutdownServ (demoCountdown 0 0 []) 0 0 SHUTDOWN_EXIT_CODE "")
      1).stopEvent = true :=
  ⟨by decide,
    (immediate_shutdown_next_second (demoCountdown 0 0 []) 0 SHUTDOWN_EXIT_CODE ""
      (by decide) (by decide)).2.1,
    ((immediate_shutdown_next_second (demoCountdown 0 0 []) 0 SHUTDOWN_EXIT_CODE ""
      (by decide) (by decide)).2.2.2
        (ShutdownServ (demoCountdown 0 0 []) 0 0 SHUTDOWN_EXIT_CODE "") 1
        (by decide) (by decide) (by decide)).2 (by decide)⟩

/-- C15, as the code has it.  For a shutdown requested by `ShutdownServ` with the idle
bit set in `options`, neither `ShutdownServ` (for any delay) nor any later tick of the
countdown sends a server message. -/
theorem idle_shutdown_is_silent (w : World) (time options exitcode : Nat)
    (reason : String) (ticks : List (List (Nat × Nat) × Int))
    (hidle : options &&& SHUTDOWN_MASK_IDLE ≠ 0) (hs : w.stopEvent = false) :
    (ShutdownServ w time options exitcode reason).messages = w.messages ∧
    (runTicks (ShutdownServ w time options exitcode reason) ticks).messages = w.messages := by
  have hmask : (ShutdownServ w time options exitcode reason).shutdownMask = options := by
    unfold ShutdownServ IsStopped
    rw [if_neg (by rw [hs]; decide)]
    split
    · rfl
    · exact (shutdownMsg_frame _ true 0 reason).2.2.1
  have hmsg : (ShutdownServ w time options exitcode reason).messages = w.messages := by
    unfold ShutdownServ IsStopped
    rw [if_neg (by rw [hs]; decide)]
    split
    · rfl
    · rw [shutdownMsg_messages, if_neg (fun h => hidle h.1)]
      exact List.append_nil _
  exact ⟨hmsg, ((runTicks_idle ticks _ (by rw [hmask]; exact hidle)).1).trans hmsg⟩

/-- C15 as stated fails: an idle-only shutdown of 3600 s is requested with session 1
connected and nothing is sent; `ShutdownCancel` then sends
`SERVER_MSG_SHUTDOWN_CANCELLED`. -/
theorem idle_shutdown_cancel_counterexample :
    SHUTDOWN_MASK_IDLE &&& SHUTDOWN_MASK_IDLE ≠ 0 ∧
    (ShutdownServ (demoCountdown 0 0 [1]) 3600 SHUTDOWN_MASK_IDLE SHUTDOWN_EXIT_CODE
      "").messages = [] ∧
    (ShutdownCancel
      (ShutdownServ (demoCountdown 0 0 [1]) 3600 SHUTDOWN_MASK_IDLE SHUTDOWN_EXIT_CODE
        "")).1.messages =
      [{ messageID := SERVER_MSG_SHUTDOWN_CANCELLED, stringParam := StringParam.empty,
         player := 0 }] := by
  decide

/-- C15 as the code has it, at an instance: idle-only shutdown of 3600 s, then ticks at
game times 1800, 3599 and 5000 with session 1 connected. -/
theorem idle_shutdown_is_silent_witness :
    (SHUTDOWN_MASK_IDLE &&& SHUTDOWN_MASK_IDLE ≠ 0 ∧
      (demoCountdown 0 0 [1]).stopEvent = false) ∧
    (ShutdownServ (demoCountdown 0 0 [1]) 3600 SHUTDOWN_MASK_IDLE SHUTDOWN_EXIT_CODE
      "").messages = (demoCountdown 0 0 [1]).messages ∧
    (runTicks
      (ShutdownServ (demoCountdown 0 0 [1]) 3600 SHUTDOWN_MASK_IDLE SHUTDOWN_EXIT_CODE "")
      [([(1, 1)], 1800), ([(1, 1)], 3599), ([(1, 1)], 5000)]).messages =
      (demoCountdown 0 0 [1]).messages :=
  ⟨by decide,
    idle_shutdown_is_silent (demoCountdown 0 0 [1]) 3600 SHUTDOWN_MASK_IDLE
      SHUTDOWN_EXIT_CODE "" [([(1, 1)], 1800), ([(1, 1)], 3599), ([(1, 1)], 5000)]
      (by decide) (by decide)⟩

/-- The test of `ShutdownMsg` for a periodic call, by bands. -/
theorem shutdownMsgDue_bands (t : Nat) :
    shutdownMsgDue false t ↔
      ((12 * HOUR < t ∧ t % (12 * HOUR) = 0) ∨
       (30 * MINUTE ≤ t ∧ t < 12 * HOUR ∧ t % HOUR = 0) ∨
       (15 * MINUTE ≤ t ∧ t < 30 * MINUTE ∧ t % (5 * MINUTE) = 0) ∨
       (5 * MINUTE ≤ t ∧ t < 15 * MINUTE ∧ t % MINUTE = 0) ∨
       (t < 5 * MINUTE ∧ t % 15 = 0)) := by
  unfold shutdownMsgDue MINUTE HOUR
  simp only [Bool.false_eq_true, false_or]
  omega

/-- With exactly 12 hours left a periodic `ShutdownMsg` sends nothing: the value lies in
neither of the bands `< 12 * HOUR` and `> 12 * HOUR`. -/
theorem shutdownMsg_at_twelve_hours (w : World) (player : Nat) (reason : String)
    (ht : w.shutdownTimer = 12 * HOUR) :
    (ShutdownMsg w false player reason).messages = w.messages := by
  rw [shutdownMsg_messages, if_neg, List.append_nil]
  rintro ⟨-, hd⟩
  rw [shutdownMsgDue_bands, ht] at hd
  unfold MINUTE HOUR at hd
  omega

/-- C17, as the code has it.  For a shutdown without the idle bit and `t` seconds left,
`t` other than 12 h, the periodic call `ShutdownMsg(false)` sends a warning exactly
when: `t > 12 h` and `t` is a multiple of 12 h; or `30 min <= t < 12 h` and a multiple
of 1 h; or `15 min <= t < 30 min` and a multiple of 5 min; or `5 min <= t < 15 min` and
a multiple of 1 min; or `t < 5 min` and a multiple of 15 s.  The message is
`SERVER_MSG_RESTART_TIME` with the restart bit and `SERVER_MSG_SHUTDOWN_TIME` without;
`ShutdownMsg(true)` always sends it. -/
theorem shutdown_warning_cadence (w : World) (player : Nat) (reason : String)
    (hidle : w.shutdownMask &&& SHUTDOWN_MASK_IDLE = 0)
    (h12 : w.shutdownTimer ≠ 12 * HOUR) :
    (ShutdownMsg w false player reason).messages =
      w.messages ++
        (if (12 * HOUR ≤ w.shutdownTimer ∧ w.shutdownTimer % (12 * HOUR) = 0) ∨
            (30 * MINUTE ≤ w.shutdownTimer ∧ w.shutdownTimer < 12 * HOUR ∧
              w.shutdownTimer % HOUR = 0) ∨
            (15 * MINUTE ≤ w.shutdownTimer ∧ w.shutdownTimer < 30 * MINUTE ∧
              w.shutdownTimer % (5 * MINUTE) = 0) ∨
            (5 * MINUTE ≤ w.shutdownTimer ∧ w.shutdownTimer < 15 * MINUTE ∧
              w.shutdownTimer % MINUTE = 0) ∨
            (w.shutdownTimer < 5 * MINUTE ∧ w.shutdownTimer % 15 = 0) then
          [{ messageID :=
               if w.shutdownMask &&& SHUTDOWN_MASK_RESTART ≠ 0 then SERVER_MSG_RESTART_TIME
               else SERVER_MSG_SHUTDOWN_TIME
             stringParam := StringParam.countdown w.shutdownTimer reason
             player := player }]
         else []) ∧
    (ShutdownMsg w true player reason).messages =
      w.messages ++
        [{ messageID :=
             if w.shutdownMask &&& SHUTDOWN_MASK_RESTART ≠ 0 then SERVER_MSG_RESTART_TIME
             else SERVER_MSG_SHUTDOWN_TIME
           stringParam := StringParam.countdown w.shutdownTimer reason
           player := player }] := by
  have hb : shutdownMsgDue false w.shutdownTimer ↔
      ((12 * HOUR ≤ w.shutdownTimer ∧ w.shutdownTimer % (12 * HOUR) = 0) ∨
       (30 * MINUTE ≤ w.shutdownTimer ∧ w.shutdownTimer < 12 * HOUR ∧
         w.shutdownTimer % HOUR = 0) ∨
       (15 * MINUTE ≤ w.shutdownTimer ∧ w.shutdownTimer < 30 * MINUTE ∧
         w.shutdownTimer % (5 * MINUTE) = 0) ∨
       (5 * MINUTE ≤ w.shutdownTimer ∧ w.shutdownTimer < 15 * MINUTE ∧
         w.shutdownTimer % MINUTE = 0) ∨
       (w.shutdownTimer < 5 * MINUTE ∧ w.shutdownTimer % 15 = 0)) := by
    rw [shutdownMsgDue_bands]
    unfold HOUR at h12
    unfold MINUTE HOUR
    omega
  refine ⟨?_, ?_⟩
  · rw [shutdownMsg_messages]
    by_cases hd : shutdownMsgDue false w.shutdownTimer
    · rw [if_pos ⟨hidle, hd⟩, if_pos (hb.mp hd)]
    · rw [if_neg (fun h => hd h.2), if_neg (fun h => hd (hb.mpr h))]
  · rw [shutdownMsg_messages, if_pos ⟨hidle, Or.inl rfl⟩]

/-- C17 as stated fails: with 30 minutes left (a multiple of 5 min in the claimed band
`15 min < t <= 30 min`) the periodic call sends nothing. -/
theorem shutdown_warning_cadence_counterexample :
    (demoCountdown 1800 0 []).shutdownMask &&& SHUTDOWN_MASK_IDLE = 0 ∧
    (15 * MINUTE < 1800 ∧ 1800 ≤ 30 * MINUTE ∧ 1800 % (5 * MINUTE) = 0) ∧
    (ShutdownMsg (demoCountdown 1800 0 []) false 0 "").messages =
      (demoCountdown 1800 0 []).messages := by
  decide

/-- C17 as the code has it, at two instances: with 25 minutes left a warning is sent,
with 29 minutes left none. -/
theorem shutdown_warning_cadence_witness :
    ((demoCountdown 1500 0 []).shutdownMask &&& SHUTDOWN_MASK_IDLE = 0 ∧
      (demoCountdown 1500 0 []).shutdownTimer ≠ 12 * HOUR ∧
      (demoCountdown 1740 0 []).shutdownMask &&& SHUTDOWN_MASK_IDLE = 0 ∧
      (demoCountdown 1740 0 []).shutdownTimer ≠ 12 * HOUR) ∧
    (ShutdownMsg (demoCountdown 1500 0 []) false 0 "").messages =
      [{ messageID := SERVER_MSG_SHUTDOWN_TIME
         stringParam := StringParam.countdown 1500 "", player := 0 }] ∧
    (ShutdownMsg (demoCountdown 1740 0 []) false 0 "").messages = [] :=
  ⟨by decide,
    (shutdown_warning_cadence (demoCountdown 1500 0 []) 0 "" (by decide) (by decide)).1.trans
      (by decide),
    (shutdown_warning_cadence (demoCountdown 1740 0 []) 0 "" (by decide) (by decide)).1.trans
      (by decide)⟩

/-! ## The guid watchdog -/

theorem demoLocalHour_gt (t : Int) (h : Nat) : t - (DAY : Int) < demoLocalHour t h := by
  unfold demoLocalHour
  have h1 := Int.tmod_add_tdiv t (DAY : Int)
  have h2 := Int.tmod_lt_of_pos t (show (0 : Int) < (DAY : Int) by decide)
  have h3 : (0 : Int) ≤ (h : Int) * (HOUR : Int) :=
    Int.mul_nonneg (Int.ofNat_nonneg _) (by decide)
  have h4 : (DAY : Int) * Int.tdiv t (DAY : Int) = Int.tdiv t (DAY : Int) * (DAY : Int) :=
    Int.mul_comm _ _
  omega

theorem tdiv_day_gt (t : Int) : t - (DAY : Int) < Int.tdiv t (DAY : Int) * (DAY : Int) := by
  have h1 := Int.tmod_add_tdiv t (DAY : Int)
  have h2 := Int.tmod_lt_of_pos t (show (0 : Int) < (DAY : Int) by decide)
  have h4 : (DAY : Int) * Int.tdiv t (DAY : Int) = Int.tdiv t (DAY : Int) * (DAY : Int) :=
    Int.mul_comm _ _
  omega

/-- The loop of `TriggerGuidWarning` ends within `fuel` tests when one of the first
`fuel` days passes the test. -/
theorem quietDay_some (localHour : Int → Nat → Int) (gameTime : Int) (hour : Nat) :
    ∀ (fuel : Nat) (today : Int),
      (∃ k, k < fuel ∧ gameTime < localHour (today + (k : Int) * (DAY : Int)) hour - 1810) →
      ∃ d, quietDay localHour gameTime hour fuel today = some d := by
  intro fuel
  induction fuel with
  | zero => rintro today ⟨k, hk, -⟩; omega
  | succ n ih =>
    rintro today ⟨k, hk, hlt⟩
    unfold quietDay
    by_cases hc : gameTime ≥ localHour today hour - 1810
    · rw [if_pos hc]
      cases k with
      | zero =>
        simp only [Nat.cast_zero, zero_mul, add_zero] at hlt
        omega
      | succ j =>
        apply ih
        refine ⟨j, by omega, ?_⟩
        have e : today + (DAY : Int) + (j : Int) * (DAY : Int) =
            today + ((j + 1 : Nat) : Int) * (DAY : Int) := by
          push_cast; ring
        rw [e]; exact hlt
    · rw [if_neg hc]; exact ⟨today, rfl⟩

/-- `SendGuidWarning` leaves the watchdog flags alone. -/
theorem sendGuidWarning_flags (w : World) :
    (SendGuidWarning w).guidWarn = w.guidWarn ∧
    (SendGuidWarning w).guidAlert = w.guidAlert := by
  unfold SendGuidWarning SendServerMessage
  split <;> exact ⟨rfl, rfl⟩

/-- With a local-hour timestamp that lies less than a day before its argument, four
tests are enough for the loop of `TriggerGuidWarning`. -/
theorem triggerGuidWarning_some (localHour : Int → Nat → Int) (fuel : Nat) (w : World)
    (hloc : ∀ (t : Int) (h : Nat), t - (DAY : Int) < localHour t h) (hfuel : 4 ≤ fuel) :
    ∃ w1, TriggerGuidWarning localHour fuel w = some w1 ∧
      w1.guidAlert = w.guidAlert ∧ w1.guidWarn = true := by
  have hq := quietDay_some localHour w.gameTime w.restartQuietTime fuel
    (Int.tdiv w.gameTime (DAY : Int) * (DAY : Int))
    ⟨3, by omega, by
      have h1 := hloc (Int.tdiv w.gameTime (DAY : Int) * (DAY : Int) + ((3 : Nat) : Int) * (DAY : Int))
        w.restartQuietTime
      have h2 := tdiv_day_gt w.gameTime
      have h3 : ((DAY : Nat) : Int) = 86400 := rfl
      rw [h3] at h1 h2 ⊢
      push_cast at h1 ⊢
      omega⟩
  obtain ⟨d, hd⟩ := hq
  unfold TriggerGuidWarning
  rw [hd]
  exact ⟨_, rfl, (sendGuidWarning_flags _).2, (sendGuidWarning_flags _).1⟩

/-- A result of `TriggerGuidWarning` has the warning flag set and the alert flag of the
world before. -/
theorem triggerGuidWarning_flags (localHour : Int → Nat → Int) (fuel : Nat) (w w1 : World)
    (h : TriggerGuidWarning localHour fuel w = some w1) :
    w1.guidAlert = w.guidAlert ∧ w1.guidWarn = true := by
  unfold TriggerGuidWarning at h
  split at h
  · injection h with h; subst h
    exact ⟨(sendGuidWarning_flags _).2, (sendGuidWarning_flags _).1⟩
  · exact absurd h (by simp)

/-- `ShutdownServ` leaves the watchdog flags alone. -/
theorem shutdownServ_flags (w : World) (time options exitcode : Nat) (reason : String) :
    (ShutdownServ w time options exitcode reason).guidWarn = w.guidWarn ∧
    (ShutdownServ w time options exitcode reason).guidAlert = w.guidAlert := by
  unfold ShutdownServ
  split
  · exact ⟨rfl, rfl⟩
  · split
    · exact ⟨rfl, rfl⟩
    · exact ⟨(shutdownMsg_frame _ true 0 reason).2.2.2.2.2.2.1,
        (shutdownMsg_frame _ true 0 reason).2.2.2.2.2.2.2⟩

/-- `_UpdateGameTime` leaves the watchdog flags alone. -/
theorem updateGameTime_flags (w : World) (newTime : Int) :
    (_UpdateGameTime w newTime).guidWarn = w.guidWarn ∧
    (_UpdateGameTime w newTime).guidAlert = w.guidAlert := by
  unfold _UpdateGameTime
  split
  · split
    · split <;> exact ⟨rfl, rfl⟩
    · exact ⟨(shutdownMsg_frame _ false 0 "").2.2.2.2.2.2.1,
        (shutdownMsg_frame _ false 0 "").2.2.2.2.2.2.2⟩
  · exact ⟨rfl, rfl⟩

/-- The warning check of `Update` leaves the watchdog flags alone. -/
theorem guidWarningCheck_flags (w : World) (diff : Nat) :
    (guidWarningCheck w diff).guidWarn = w.guidWarn ∧
    (guidWarningCheck w diff).guidAlert = w.guidAlert := by
  unfold guidWarningCheck
  split
  · split
    · unfold DoGuidWarningRestart
      split
      · exact ⟨rfl, rfl⟩
      · exact ⟨(shutdownServ_flags _ 1800 SHUTDOWN_MASK_RESTART RESTART_EXIT_CODE "").1,
          (shutdownServ_flags _ 1800 SHUTDOWN_MASK_RESTART RESTART_EXIT_CODE "").2⟩
    · split
      · exact ⟨(sendGuidWarning_flags _).1, (sendGuidWarning_flags _).2⟩
      · exact ⟨rfl, rfl⟩
  · exact ⟨rfl, rfl⟩

/-- Once the alert flag is set, every sequence of triggers ends with it set. -/
theorem runTriggers_alert (localHour : Int → Nat → Int) (fuel : Nat)
    (hloc : ∀ (t : Int) (h : Nat), t - (DAY : Int) < localHour t h) (hfuel : 4 ≤ fuel) :
    ∀ (ts : List Trigger) (w : World), w.guidAlert = true →
      ∃ w2, runTriggers localHour fuel w ts = some w2 ∧ w2.guidAlert = true := by
  intro ts
  induction ts with
  | nil => intro w hw; exact ⟨w, rfl, hw⟩
  | cons t rest ih =>
    intro w hw
    cases t with
    | alert => exact ih (TriggerGuidAlert w) rfl
    | warning =>
      obtain ⟨w1, h1, ha, -⟩ := triggerGuidWarning_some localHour fuel w hloc hfuel
      obtain ⟨w2, h2, h3⟩ := ih w1 (ha.trans hw)
      refine ⟨w2, ?_, h3⟩
      unfold runTriggers
      rw [h1]
      exact h2

/-- C18. `TriggerGuidAlert` leaves alert = true and warning = false from every state;
`TriggerGuidWarning` returns (with a local-hour timestamp less than a day before its
argument, four tests of its loop are enough) and leaves the alert flag as it was, so
after `TriggerGuidAlert` then `TriggerGuidWarning` the alert flag is still set; and once
the alert flag is set every sequence of the two triggers ends with it set. -/
theorem escalation_ordering (localHour : Int → Nat → Int) (fuel : Nat) (w : World)
    (hloc : ∀ (t : Int) (h : Nat), t - (DAY : Int) < localHour t h) (hfuel : 4 ≤ fuel) :
    ((TriggerGuidAlert w).guidAlert = true ∧ (TriggerGuidAlert w).guidWarn = false) ∧
    (∃ w1, TriggerGuidWarning localHour fuel w = some w1 ∧ w1.guidAlert = w.guidAlert ∧
      (TriggerGuidAlert w1).guidAlert = true ∧ (TriggerGuidAlert w1).guidWarn = false) ∧
    (∃ w1, TriggerGuidWarning localHour fuel (TriggerGuidAlert w) = some w1 ∧
      w1.guidAlert = true) ∧
    (∀ ts : List Trigger, w.guidAlert = true →
      ∃ w2, runTriggers localHour fuel w ts = some w2 ∧ w2.guidAlert = true) := by
  refine ⟨⟨rfl, rfl⟩, ?_, ?_, fun ts hw => runTriggers_alert localHour fuel hloc hfuel ts w hw⟩
  · obtain ⟨w1, h1, ha, -⟩ := triggerGuidWarning_some localHour fuel w hloc hfuel
    exact ⟨w1, h1, ha, rfl, rfl⟩
  · obtain ⟨w1, h1, ha, -⟩ :=
      triggerGuidWarning_some localHour fuel (TriggerGuidAlert w) hloc hfuel
    exact ⟨w1, h1, ha⟩

/-- C18 at an instance: the world `demoWatch` under `demoLocalHour` with 4 tests of the
loop; the alert is raised first, then the alert flag survives warning, alert,
warning. -/
theorem escalation_ordering_witness :
    ((∀ (t : Int) (h : Nat), t - (DAY : Int) < demoLocalHour t h) ∧ 4 ≤ 4 ∧
      (TriggerGuidAlert demoWatch).guidAlert = true) ∧
    ((TriggerGuidAlert demoWatch).guidAlert = true ∧
      (TriggerGuidAlert demoWatch).guidWarn = false) ∧
    (∃ w1, TriggerGuidWarning demoLocalHour 4 demoWatch = some w1 ∧
      w1.guidAlert = demoWatch.guidAlert ∧
      (TriggerGuidAlert w1).guidAlert = true ∧ (TriggerGuidAlert w1).guidWarn = false) ∧
    (∃ w2, runTriggers demoLocalHour 4 (TriggerGuidAlert demoWatch)
        [Trigger.warning, Trigger.alert, Trigger.warning] = some w2 ∧
      w2.guidAlert = true) :=
  ⟨⟨demoLocalHour_gt, by decide, rfl⟩,
    (escalation_ordering demoLocalHour 4 demoWatch demoLocalHour_gt (by decide)).1,
    (escalation_ordering demoLocalHour 4 demoWatch demoLocalHour_gt (by decide)).2.1,
    (escalation_ordering demoLocalHour 4 (TriggerGuidAlert demoWatch) demoLocalHour_gt
      (by decide)).2.2.2 [Trigger.warning, Trigger.alert, Trigger.warning] rfl⟩

/-- The invariant of the watchdog flags over `WatchdogReachable`. -/
theorem watchdogReachable_flags (localHour : Int → Nat → Int) (w : World)
    (h : WatchdogReachable localHour w) : w.guidAlert = true → w.guidWarn = false := by
  induction h with
  | start w hw _ => exact fun _ => hw
  | outside w w1 _ hw ha ih => exact fun h => hw.trans (ih (ha.symm.trans h))
  | warning w fuel w1 _ ha ht _ =>
    intro h
    rw [(triggerGuidWarning_flags localHour fuel w w1 ht).1, ha] at h
    exact absurd h (by decide)
  | alert w _ _ => exact fun _ => rfl
  | tick w newTime diff _ ih =>
    intro h
    rw [(guidWarningCheck_flags _ diff).1, (updateGameTime_flags w newTime).1]
    rw [(guidWarningCheck_flags _ diff).2, (updateGameTime_flags w newTime).2] at h
    exact ih h

/-- C19, as the code has it.  In every state reached from both flags clear through
`TriggerGuidAlert`, ticks, and `TriggerGuidWarning` called while the alert flag is
clear, alert = true implies warning = false; and in any state with the alert flag set
the warning check of `Update` does nothing. -/
theorem watchdog_flag_invariant (localHour : Int → Nat → Int) (w : World) (diff : Nat)
    (h : WatchdogReachable localHour w) :
    (w.guidAlert = true → w.guidWarn = false) ∧
    (w.guidAlert = true → guidWarningCheck w diff = w) := by
  refine ⟨watchdogReachable_flags localHour w h, fun ha => ?_⟩
  unfold guidWarningCheck
  rw [if_neg]
  rw [ha]
  rintro ⟨-, h2⟩
  exact absurd h2 (by decide)

/-- C19 as stated fails: from `demoWatch` (both flags clear) `TriggerGuidAlert` followed
by `TriggerGuidWarning` ends with both flags set, and a tick after it leaves both
set. -/
theorem watchdog_flag_invariant_counterexample :
    (demoWatch.guidWarn = false ∧ demoWatch.guidAlert = false) ∧
    (runTriggers demoLocalHour 4 demoWatch [Trigger.alert, Trigger.warning]).map
      (fun w => (w.guidAlert, w.guidWarn)) = some (true, true) ∧
    (runTriggers demoLocalHour 4 demoWatch [Trigger.alert, Trigger.warning]).map
      (fun w => ((guidWarningCheck (_UpdateGameTime w 100001) 1000).guidAlert,
        (guidWarningCheck (_UpdateGameTime w 100001) 1000).guidWarn)) = some (true, true) := by
  decide

/-- C19 as the code has it, at an instance: `demoWatch`, then `TriggerGuidWarning`
(giving `demoWarned`), then `TriggerGuidAlert`. -/
theorem watchdog_flag_invariant_witness :
    WatchdogReachable demoLocalHour (TriggerGuidAlert demoWarned) ∧
    (TriggerGuidAlert demoWarned).guidAlert = true ∧
    (TriggerGuidAlert demoWarned).guidWarn = false ∧
    guidWarningCheck (TriggerGuidAlert demoWarned) 1000 = TriggerGuidAlert demoWarned :=
  have hr : WatchdogReachable demoLocalHour (TriggerGuidAlert demoWarned) :=
    WatchdogReachable.alert demoWarned
      (WatchdogReachable.warning demoWatch 4 demoWarned
        (WatchdogReachable.start demoWatch rfl rfl) rfl rfl)
  ⟨hr, rfl,
    (watchdog_flag_invariant demoLocalHour (TriggerGuidAlert demoWarned) 1000 hr).1 rfl,
    (watchdog_flag_invariant demoLocalHour (TriggerGuidAlert demoWarned) 1000 hr).2 rfl⟩

/-- C20, as the code has it.  With the stop flag clear and no countdown running,
`TriggerGuidAlert` schedules a restart: countdown 300, mask `SHUTDOWN_MASK_RESTART`,
exit code `RESTART_EXIT_CODE`, announced by one `SERVER_MSG_RESTART_TIME` carrying the
configured alert restart reason.  With a countdown already running it leaves countdown,
mask, exit code, stop flag and messages as they were. -/
theorem alert_schedules_restart (w : World) :
    (w.stopEvent = false → w.shutdownTimer = 0 →
      (TriggerGuidAlert w).shutdownTimer = 300 ∧
      (TriggerGuidAlert w).shutdownMask = SHUTDOWN_MASK_RESTART ∧
      (TriggerGuidAlert w).exitCode = RESTART_EXIT_CODE ∧
      (TriggerGuidAlert w).stopEvent = false ∧
      (TriggerGuidAlert w).messages =
        w.messages ++
          [{ messageID := SERVER_MSG_RESTART_TIME
             stringParam := StringParam.countdown 300 w.alertRestartReason
             player := 0 }]) ∧
    (w.shutdownTimer ≠ 0 →
      (TriggerGuidAlert w).shutdownTimer = w.shutdownTimer ∧
      (TriggerGuidAlert w).shutdownMask = w.shutdownMask ∧
      (TriggerGuidAlert w).exitCode = w.exitCode ∧
      (TriggerGuidAlert w).stopEvent = w.stopEvent ∧
      (TriggerGuidAlert w).messages = w.messages) := by
  refine ⟨fun hs ht => ?_, fun ht => ?_⟩
  · have e : DoGuidAlertRestart w =
        ShutdownMsg
          { w with shutdownMask := SHUTDOWN_MASK_RESTART, exitCode := RESTART_EXIT_CODE, shutdownTimer := 300 }
          true 0 w.alertRestartReason := by
      unfold DoGuidAlertRestart ShutdownServ IsStopped
      rw [if_neg (fun h => h ht), if_neg (by rw [hs]; decide), if_neg (by decide)]
    obtain ⟨f1, f2, f3, f4, -, -, -, -⟩ := shutdownMsg_frame
      { w with shutdownMask := SHUTDOWN_MASK_RESTART, exitCode := RESTART_EXIT_CODE, shutdownTimer := 300 }
      true 0 w.alertRestartReason
    have hm := shutdownMsg_messages
      { w with shutdownMask := SHUTDOWN_MASK_RESTART, exitCode := RESTART_EXIT_CODE, shutdownTimer := 300 }
      true 0 w.alertRestartReason
    rw [if_pos ⟨(show SHUTDOWN_MASK_RESTART &&& SHUTDOWN_MASK_IDLE = 0 by decide), Or.inl rfl⟩,
      if_pos (show SHUTDOWN_MASK_RESTART &&& SHUTDOWN_MASK_RESTART ≠ 0 by decide)] at hm
    unfold TriggerGuidAlert
    rw [e]
    exact ⟨f2, f3, f4, f1.trans hs, hm⟩
  · have e : DoGuidAlertRestart w = w := by
      unfold DoGuidAlertRestart
      rw [if_pos ht]
    unfold TriggerGuidAlert
    rw [e]
    exact ⟨rfl, rfl, rfl, rfl, rfl⟩

/-- C20 as stated fails: with a non-restart countdown of 3600 s running and the stop
flag clear, `TriggerGuidAlert` leaves the countdown at 3600 with the restart bit clear,
the exit code `SHUTDOWN_EXIT_CODE` and no announcement. -/
theorem alert_schedules_restart_counterexample :
    (demoCountdown 3600 0 [1]).stopEvent = false ∧
    (TriggerGuidAlert (demoCountdown 3600 0 [1])).shutdownTimer = 3600 ∧
    (TriggerGuidAlert (demoCountdown 3600 0 [1])).shutdownMask &&& SHUTDOWN_MASK_RESTART = 0 ∧
    (TriggerGuidAlert (demoCountdown 3600 0 [1])).exitCode = SHUTDOWN_EXIT_CODE ∧
    (TriggerGuidAlert (demoCountdown 3600 0 [1])).messages = [] := by
  decide

/-- C20 as the code has it, at two instances: `demoWatch` (no countdown) and a world
with 900 s left of a countdown. -/
theorem alert_schedules_restart_witness :
    (demoWatch.stopEvent = false ∧ demoWatch.shutdownTimer = 0 ∧
      (demoCountdown 900 0 [1]).shutdownTimer ≠ 0) ∧
    ((TriggerGuidAlert demoWatch).shutdownTimer = 300 ∧
      (TriggerGuidAlert demoWatch).shutdownMask = SHUTDOWN_MASK_RESTART ∧
      (TriggerGuidAlert demoWatch).exitCode = RESTART_EXIT_CODE ∧
      (TriggerGuidAlert demoWatch).stopEvent = false ∧
      (TriggerGuidAlert demoWatch).messages =
        demoWatch.messages ++
          [{ messageID := SERVER_MSG_RESTART_TIME
             stringParam := StringParam.countdown 300 demoWatch.alertRestartReason
             player := 0 }]) ∧
    (TriggerGuidAlert (demoCountdown 900 0 [1])).shutdownTimer = 900 :=
  ⟨by decide, (alert_schedules_restart demoWatch).1 rfl rfl,
    ((alert_schedules_restart (demoCountdown 900 0 [1])).2 (by decide)).1⟩

/-! ## Reconnects: the whole of `AddSession_` -/

/-- `RemoveSession` on an account whose registered session is not null and not loading:
one `KickPlayer`. -/
theorem removeSession_kick (w : World) (id old : Nat)
    (hold : mapFind w.sessions id = some old) (ho : old ≠ 0)
    (hload : (w.heap old).playerLoading = false) :
    RemoveSession w id = ({ w with trace := w.trace ++ [Event.KickPlayer old] }, true) := by
  unfold RemoveSession
  rw [hold]
  simp [ho, hload]

/-- `AddSession_` for an account whose registered session `old` is not null and not
loading, with the session objects and the calls made: `old` is kicked, goes through
`RemoveQueuedPlayer` and is deleted; `s` is queued (flag set, position sent) or
initialized according to the queue test; `decrease_session` is false exactly when `old`
was queued. -/
theorem addSession_reconnect (w : World) (s old : Nat) (hs : s ≠ 0)
    (hold : mapFind w.sessions (w.heap s).accountId = some old) (ho : old ≠ 0)
    (hload : (w.heap old).playerLoading = false) :
    ∃ w1, AddSession_ w s = some w1 ∧
      (replaceOld (RemoveSession w (w.heap s).accountId).1 (w.heap s).accountId).2 =
        (!decide (old ∈ w.queuedPlayer)) ∧
      w1.heap =
        (if queueTest { w with sessions := mapSet w.sessions (w.heap s).accountId s } s
              (!decide (old ∈ w.queuedPlayer))
          then SetInQueue (RemoveQueuedPlayer w old).1.heap s true
          else (RemoveQueuedPlayer w old).1.heap) ∧
      eventsSince w w1 =
        [Event.KickPlayer old] ++ eventsSince w (RemoveQueuedPlayer w old).1 ++
          [Event.Delete old] ++
          (if queueTest { w with sessions := mapSet w.sessions (w.heap s).accountId s } s
                (!decide (old ∈ w.queuedPlayer))
            then [Event.SendAuthResponse s
                    (toInt32 (queuePosFrom s
                      ((RemoveQueuedPlayer w old).1.queuedPlayer ++ [s]) 1))]
            else [Event.InitializeSession s]) := by
  have hRS := removeSession_kick w _ old hold ho hload
  obtain ⟨v, hv⟩ : ∃ v : World, v = { (RemoveQueuedPlayer w old).1 with
      trace := (w.trace ++ [Event.KickPlayer old] ++
        eventsSince w (RemoveQueuedPlayer w old).1) ++ [Event.Delete old] } := ⟨_, rfl⟩
  have hRO : replaceOld { w with trace := w.trace ++ [Event.KickPlayer old] }
      (w.heap s).accountId = (v, !decide (old ∈ w.queuedPlayer)) := by
    unfold replaceOld
    simp only [hold]
    rw [removeQueuedPlayer_trace_irrelevant, removeQueuedPlayer_found, hv]
  have hattr := removeQueuedPlayer_heap_attrs w old s
  have hcfg := removeQueuedPlayer_config w old
  have v1 : v.sessions = w.sessions := by rw [hv]; exact removeQueuedPlayer_sessions w old
  have v2 : v.queuedPlayer = (RemoveQueuedPlayer w old).1.queuedPlayer := by rw [hv]
  have v3 : v.heap = (RemoveQueuedPlayer w old).1.heap := by rw [hv]
  have v4 : v.playerLimit = w.playerLimit := by
    rw [hv]; exact removeQueuedPlayer_playerLimit w old
  have v5 : v.trace = w.trace ++ ([Event.KickPlayer old] ++
      eventsSince w (RemoveQueuedPlayer w old).1 ++ [Event.Delete old]) := by rw [hv]; simp
  have v6 : v.disconnects = w.disconnects := by
    rw [hv]; exact removeQueuedPlayer_disconnects w old
  have v7 : v.gameTime = w.gameTime := by rw [hv]; exact hcfg.2.1
  have v8 : v.disconnectTolerance = w.disconnectTolerance := by rw [hv]; exact hcfg.1
  have va : (v.heap s).accountId = (w.heap s).accountId := by rw [v3]; exact hattr.1
  have vk : (v.heap s).skipQueue = (w.heap s).skipQueue := by rw [v3]; exact hattr.2.1
  have hAdd : AddSession_ w s = some (registerArrival v s (!decide (old ∈ w.queuedPlayer))) := by
    unfold AddSession_
    rw [hRS, hRO]
    simp [hs]
  obtain ⟨-, -, -, f4, f5⟩ := registerArrival_fields v s (!decide (old ∈ w.queuedPlayer))
  rw [va, v1] at f4 f5
  have hqt : queueTest { v with sessions := mapSet w.sessions (w.heap s).accountId s } s
        (!decide (old ∈ w.queuedPlayer)) ↔
      queueTest { w with sessions := mapSet w.sessions (w.heap s).accountId s } s
        (!decide (old ∈ w.queuedPlayer)) :=
    queueTest_congr _ _ s _ v4 rfl vk
      (hasRecentlyDisconnected_congr _ _ s v6 v7 v8 va)
  rw [if_congr hqt rfl rfl] at f4 f5
  refine ⟨_, hAdd, ?_, by rw [f4, v3], ?_⟩
  · rw [hRS, hRO]
  · rw [v5, v2, List.append_assoc] at f5
    rw [eventsSince_append w _ _ f5]

/-- C27. Reconnect double-counting.  With limit `L > 0`, a registry of `L` sessions of
which only `X` is queued (so `L - 1` are active), `X` not loading, and a new session
`s` for the account of `X` without skip-queue permission and not recently disconnected:
`AddSession_(s)` takes `X` out of the queue, keeps `decrease_session` false, compares
the full registry size `L` with the limit, and queues `s` at position 1 without
initializing anybody; afterwards still `L - 1` sessions are active. -/
theorem reconnect_double_counting (w : World) (s X : Nat) (hs : s ≠ 0) (hX : X ≠ 0)
    (hL : 0 < w.playerLimit) (hq : w.queuedPlayer = [X])
    (hN : w.sessions.length = w.playerLimit) (hsz : w.sessions.length < 4294967296)
    (hold : mapFind w.sessions (w.heap s).accountId = some X)
    (hload : (w.heap X).playerLoading = false)
    (hskip : (w.heap s).skipQueue = false)
    (hrecent : (HasRecentlyDisconnected w s).2 = false) :
    GetActiveSessionCount w = w.playerLimit - 1 ∧
    ∃ w1, AddSession_ w s = some w1 ∧
      (replaceOld (RemoveSession w (w.heap s).accountId).1 (w.heap s).accountId).2 = false ∧
      sessionsForAdmission { w with sessions := mapSet w.sessions (w.heap s).accountId s }
        false = w.playerLimit ∧
      mapFind w1.sessions (w.heap s).accountId = some s ∧
      w1.queuedPlayer = [s] ∧ (w1.heap s).inQueue = true ∧
      GetQueuePos w1 s = 1 ∧
      Event.SendAuthResponse s 1 ∈ eventsSince w w1 ∧
      initialized (eventsSince w w1) = [] ∧
      GetActiveSessionCount w1 = w.playerLimit - 1 := by
  have hmem : X ∈ w.queuedPlayer := by rw [hq]; exact List.mem_singleton.mpr rfl
  have hA : GetActiveSessionCount w = w.playerLimit - 1 := by
    unfold GetActiveSessionCount
    rw [u32sub_of_le (by rw [hq, hN]; exact hL) hsz, hq, hN]
    rfl
  have hlen : (mapSet w.sessions (w.heap s).accountId s).length = w.sessions.length :=
    mapSet_length_of_find_some _ _ _ _ hold
  have hNP : ¬ promotionTest w X := by
    rw [promotionTest_iff]
    rintro ⟨-, h2⟩
    rw [hq] at h2
    simp at h2
  have hqueue : (RemoveQueuedPlayer w X).1.queuedPlayer = [] := by
    rw [removeQueuedPlayer_queue, if_neg hNP, hq]
    simp
  have hdec : (!decide (X ∈ w.queuedPlayer)) = false := by simp [hmem]
  have hSA : sessionsForAdmission
      { w with sessions := mapSet w.sessions (w.heap s).accountId s } false =
        w.playerLimit := by
    unfold sessionsForAdmission GetActiveAndQueuedSessionCount
    simp only [Bool.false_eq_true, if_false]
    show u32 (mapSet w.sessions (w.heap s).accountId s).length = _
    rw [hlen, u32_of_lt hsz, hN]
  have hQ : queueTest { w with sessions := mapSet w.sessions (w.heap s).accountId s } s
      (!decide (X ∈ w.queuedPlayer)) := by
    rw [hdec]
    refine ⟨hL, ?_, hskip, ?_⟩
    · rw [hSA]; exact le_refl _
    · rw [hasRecentlyDisconnected_sessions]; exact hrecent
  obtain ⟨w1, hAdd, g1, -, g3, g4⟩ := addSession_replace w s X hs hold
    (removeSession_accept_of_not_loading w _ X hold hload)
  obtain ⟨w2, hAdd2, r1, r2, r3⟩ := addSession_reconnect w s X hs hold hX hload
  rw [hAdd] at hAdd2
  cases hAdd2
  rw [if_pos hQ] at g3 g4 r2 r3
  rw [hqueue] at g3 r3
  have hi0 : initialized (eventsSince w (RemoveQueuedPlayer w X).1) = [] := by
    rw [removeQueuedPlayer_initialized, if_neg hNP]
  refine ⟨hA, w1, hAdd, by rw [r1, hdec], hSA, by rw [g1]; exact mapFind_mapSet_self _ _ _,
    g3, ?_, ?_, ?_, by rw [g4, hi0]; rfl, ?_⟩
  · rw [r2]; unfold SetInQueue; simp
  · unfold GetQueuePos
    rw [g3]
    simp [queuePosFrom, toInt32]
  · rw [r3]
    simp [queuePosFrom, toInt32]
  · unfold GetActiveSessionCount
    rw [g1, g3, hlen, u32sub_of_le (by rw [hN]; exact hL) hsz, hN]
    rfl

/-- C27 at an instance: limit 2, session 1 active, session 2 queued, and session 9
arriving for account 2. -/
theorem reconnect_double_counting_witness :
    ((9 : Nat) ≠ 0 ∧ (2 : Nat) ≠ 0 ∧
      0 < (demoReconnect 2 [1, 2] [2] 9 2).playerLimit ∧
      (demoReconnect 2 [1, 2] [2] 9 2).queuedPlayer = [2] ∧
      (demoReconnect 2 [1, 2] [2] 9 2).sessions.length = 2) ∧
    GetActiveSessionCount (demoReconnect 2 [1, 2] [2] 9 2) = 1 ∧
    ∃ w1, AddSession_ (demoReconnect 2 [1, 2] [2] 9 2) 9 = some w1 ∧
      w1.queuedPlayer = [9] ∧ (w1.heap 9).inQueue = true ∧
      initialized (eventsSince (demoReconnect 2 [1, 2] [2] 9 2) w1) = [] ∧
      GetActiveSessionCount w1 = 1 :=
  have h := reconnect_double_counting (demoReconnect 2 [1, 2] [2] 9 2) 9 2 (by decide)
    (by decide) (by decide) rfl rfl (by decide) rfl rfl rfl rfl
  ⟨⟨by decide, by decide, by decide, rfl, rfl⟩, h.1,
    h.2.imp (fun _ hw => ⟨hw.1, hw.2.2.2.2.1, hw.2.2.2.2.2.1, hw.2.2.2.2.2.2.2.2.1,
      hw.2.2.2.2.2.2.2.2.2⟩)⟩

/-- C29. A reconnecting active player loses the slot to the queue head.  With limit
`L > 0`, `L` active sessions, a non-empty queue `q`, and a new session `s` for the
account of an active session `old` (not queued, not loading), `s` without skip-queue
permission and not recently disconnected: `AddSession_(s)` initializes the head of `q`
and nobody else, kicks and deletes `old`, and puts `s` at the tail of the queue with
its queued-flag set; afterwards `L` sessions are active and the queue is as long as
`q`. -/
theorem reconnect_loses_slot (w : World) (s old : Nat) (hs : s ≠ 0) (ho : old ≠ 0)
    (hL : 0 < w.playerLimit) (hne : w.queuedPlayer ≠ [])
    (hA : w.sessions.length = w.playerLimit + w.queuedPlayer.length)
    (hsz : w.sessions.length < 4294967296)
    (hold : mapFind w.sessions (w.heap s).accountId = some old)
    (hnq : old ∉ w.queuedPlayer) (hload : (w.heap old).playerLoading = false)
    (hskip : (w.heap s).skipQueue = false)
    (hrecent : (HasRecentlyDisconnected w s).2 = false) :
    GetActiveSessionCount w = w.playerLimit ∧
    ∃ w1, AddSession_ w s = some w1 ∧
      initialized (eventsSince w w1) = [w.queuedPlayer.headD 0] ∧
      Event.KickPlayer old ∈ eventsSince w w1 ∧ Event.Delete old ∈ eventsSince w w1 ∧
      mapFind w1.sessions (w.heap s).accountId = some s ∧
      w1.queuedPlayer = w.queuedPlayer.tail ++ [s] ∧ (w1.heap s).inQueue = true ∧
      GetActiveSessionCount w1 = w.playerLimit ∧
      w1.queuedPlayer.length = w.queuedPlayer.length ∧
      GetQueuedSessionCount w1 = GetQueuedSessionCount w := by
  have hpos : 0 < w.queuedPlayer.length := List.length_pos.mpr hne
  have hAc : GetActiveSessionCount w = w.playerLimit := by
    unfold GetActiveSessionCount
    rw [u32sub_of_le (by omega) hsz]; omega
  have hlen : (mapSet w.sessions (w.heap s).accountId s).length = w.sessions.length :=
    mapSet_length_of_find_some _ _ _ _ hold
  have hP : promotionTest w old := by
    rw [promotionTest_iff, sessionsForPromotion_eq, if_neg hnq, hAc,
      List.erase_of_not_mem hnq]
    exact ⟨Or.inr (by omega), hne⟩
  have hqueue : (RemoveQueuedPlayer w old).1.queuedPlayer = w.queuedPlayer.tail := by
    rw [removeQueuedPlayer_queue, if_pos hP, List.erase_of_not_mem hnq]
  have hdec : (!decide (old ∈ w.queuedPlayer)) = true := by simp [hnq]
  have hQ : queueTest { w with sessions := mapSet w.sessions (w.heap s).accountId s } s
      (!decide (old ∈ w.queuedPlayer)) := by
    rw [hdec, queueTest_iff, hlen, if_pos rfl]
    refine ⟨hL, ?_, hskip, hrecent⟩
    unfold u32; omega
  obtain ⟨w1, hAdd, g1, -, g3, g4⟩ := addSession_replace w s old hs hold
    (removeSession_accept_of_not_loading w _ old hold hload)
  obtain ⟨w2, hAdd2, -, r2, r3⟩ := addSession_reconnect w s old hs hold ho hload
  rw [hAdd] at hAdd2
  cases hAdd2
  rw [if_pos hQ] at g3 g4 r2 r3
  rw [hqueue] at g3
  have hi0 : initialized (eventsSince w (RemoveQueuedPlayer w old).1) =
      [w.queuedPlayer.headD 0] := by
    rw [removeQueuedPlayer_initialized, if_pos hP, List.erase_of_not_mem hnq]
  have hl1 : w1.queuedPlayer.length = w.queuedPlayer.length := by
    rw [g3]; simp; omega
  refine ⟨hAc, w1, hAdd, by rw [g4, hi0]; rfl, by rw [r3]; simp, by rw [r3]; simp,
    by rw [g1]; exact mapFind_mapSet_self _ _ _, g3, ?_, ?_, hl1, ?_⟩
  · rw [r2]; unfold SetInQueue; simp
  · unfold GetActiveSessionCount
    rw [hl1, g1, hlen, u32sub_of_le (by omega) hsz]; omega
  · unfold GetQueuedSessionCount
    rw [hl1]

/-- C29 at an instance: limit 2, sessions 1 and 2 active, sessions 3 and 4 queued, and
session 9 arriving for account 1. -/
theorem reconnect_loses_slot_witness :
    ((9 : Nat) ≠ 0 ∧ (1 : Nat) ≠ 0 ∧ 0 < (demoReconnect 2 [1, 2, 3, 4] [3, 4] 9 1).playerLimit ∧
      (demoReconnect 2 [1, 2, 3, 4] [3, 4] 9 1).queuedPlayer ≠ [] ∧
      1 ∉ (demoReconnect 2 [1, 2, 3, 4] [3, 4] 9 1).queuedPlayer) ∧
    GetActiveSessionCount (demoReconnect 2 [1, 2, 3, 4] [3, 4] 9 1) = 2 ∧
    ∃ w1, AddSession_ (demoReconnect 2 [1, 2, 3, 4] [3, 4] 9 1) 9 = some w1 ∧
      initialized (eventsSince (demoReconnect 2 [1, 2, 3, 4] [3, 4] 9 1) w1) = [3] ∧
      w1.queuedPlayer = [4, 9] ∧ (w1.heap 9).inQueue = true ∧
      GetActiveSessionCount w1 = 2 :=
  have h := reconnect_loses_slot (demoReconnect 2 [1, 2, 3, 4] [3, 4] 9 1) 9 1 (by decide)
    (by decide) (by decide) (by decide) rfl (by decide) rfl (by decide) rfl rfl rfl
  ⟨⟨by decide, by decide, by decide, by decide, by decide⟩, h.1,
    h.2.imp (fun _ hw => ⟨hw.1, hw.2.1, hw.2.2.2.2.2.1, hw.2.2.2.2.2.2.1,
      hw.2.2.2.2.2.2.2.1⟩)⟩

/-! ## Nobody waits while a slot is free -/

/-- The length of the queue after `RemoveQueuedPlayer(sess)`, with the promotion test
spelled out on the sizes of registry and queue. -/
theorem removeQueuedPlayer_length (w : World) (sess : Nat)
    (hsz : w.sessions.length < 4294967296)
    (hle : w.queuedPlayer.length ≤ w.sessions.length) (hL : 0 < w.playerLimit) :
    (RemoveQueuedPlayer w sess).1.queuedPlayer.length +
        (if sess ∈ w.queuedPlayer then 1 else 0) +
        (if (if sess ∈ w.queuedPlayer then w.sessions.length - w.queuedPlayer.length
              else w.sessions.length - w.queuedPlayer.length - 1) < w.playerLimit ∧
            (if sess ∈ w.queuedPlayer then 1 else 0) < w.queuedPlayer.length
          then 1 else 0) = w.queuedPlayer.length := by
  have hA : GetActiveSessionCount w = w.sessions.length - w.queuedPlayer.length :=
    u32sub_of_le hle hsz
  have hel : (w.queuedPlayer.erase sess).length + (if sess ∈ w.queuedPlayer then 1 else 0) =
      w.queuedPlayer.length := by
    by_cases hm : sess ∈ w.queuedPlayer
    · rw [if_pos hm, List.length_erase_of_mem hm]
      have := List.length_pos_of_mem hm
      omega
    · rw [if_neg hm, List.erase_of_not_mem hm]; rfl
  have hP : promotionTest w sess ↔
      ((if sess ∈ w.queuedPlayer then w.sessions.length - w.queuedPlayer.length
          else w.sessions.length - w.queuedPlayer.length - 1) < w.playerLimit ∧
        (if sess ∈ w.queuedPlayer then 1 else 0) < w.queuedPlayer.length) := by
    rw [promotionTest_iff, sessionsForPromotion_eq, hA, ← List.length_pos]
    constructor
    · rintro ⟨h1 | h1, h2⟩
      · omega
      · exact ⟨h1, by omega⟩
    · rintro ⟨h1, h2⟩
      exact ⟨Or.inr h1, by omega⟩
  rw [removeQueuedPlayer_queue, ← if_congr hP rfl rfl]
  by_cases hp : promotionTest w sess
  · have h2 := (hP.mp hp).2
    rw [if_pos hp, if_pos hp, List.length_tail]
    omega
  · rw [if_neg hp, if_neg hp]
    omega

theorem admission_removeFailedSession (L : Nat) (hL : 0 < L) (w : World) (id p : Nat)
    (h : admissionInvariant L w) (hp : (id, p) ∈ w.sessions) :
    admissionInvariant L (removeFailedSession w id p) := by
  refine ⟨capacity_removeFailedSession L hL w id p h.1 hp, ?_⟩
  obtain ⟨⟨ho, hlim, hsz, hcap⟩, hfull⟩ := h
  obtain ⟨f1, -, f3, -⟩ := removeFailedSession_fields w id p
  obtain ⟨n1, n2, n3, -, -⟩ := noteDisconnect_fields w p
  have hle := queue_length_le w ho
  have hpv : p ∈ w.sessions.map Prod.snd := List.mem_map.mpr ⟨_, hp, rfl⟩
  have hc1 := removeQueuedPlayer_length w p hsz hle (by rw [hlim]; exact hL)
  have hnot : p ∉ (noteDisconnect w p).queuedPlayer := by
    rw [n1]; exact not_mem_queue_after_remove w p ho.2.2.1
  have hc1le : (RemoveQueuedPlayer w p).1.queuedPlayer.length ≤ w.queuedPlayer.length := by
    omega
  have hc2 := removeQueuedPlayer_length (noteDisconnect w p) p (by rw [n2]; exact hsz)
    (by rw [n1, n2]; omega) (by rw [n3, hlim]; exact hL)
  rw [if_neg hnot, if_neg hnot, n1, n2, n3, hlim] at hc2
  rw [hlim] at hc1
  have hel := mapErase_length w.sessions id p hp
  have hfull2 : 0 < w.queuedPlayer.length → w.sessions.length = L + w.queuedPlayer.length :=
    fun h => hfull (List.length_pos.mp h)
  rw [f1, f3, ← List.length_pos]
  intro hpos
  by_cases hm : p ∈ w.queuedPlayer
  · have hq := List.length_pos_of_mem hm
    have := hfull2 hq
    rw [if_pos hm, if_pos hm] at hc1
    simp only [show ¬ (w.sessions.length - w.queuedPlayer.length < L) by omega,
      false_and, if_false] at hc1
    rw [if_neg (by omega)] at hc2
    omega
  · rw [if_neg hm, if_neg hm] at hc1
    have hlt := queue_length_lt w ho p hpv hm
    by_cases hq : 0 < w.queuedPlayer.length
    · have := hfull2 hq
      rw [if_pos (by omega)] at hc1
      rw [if_neg (by omega)] at hc2
      omega
    · omega

theorem admission_addSession (L : Nat) (hL : 0 < L) (w : World) (s : Nat) (w1 : World)
    (h : admissionInvariant L w) (hf : freshSession w s)
    (hroom : w.sessions.length + 1 < 4294967296)
    (hskip : (w.heap s).skipQueue = false)
    (hrecent : (HasRecentlyDisconnected w s).2 = false)
    (hadd : AddSession_ w s = some w1) : admissionInvariant L w1 := by
  refine ⟨capacity_addSession L hL w s w1 h.1 hf hroom hskip hrecent hadd, ?_⟩
  obtain ⟨⟨ho, hlim, hsz, hcap⟩, hfull⟩ := h
  have hle := queue_length_le w ho
  have hfull2 : 0 < w.queuedPlayer.length → w.sessions.length = L + w.queuedPlayer.length :=
    fun h => hfull (List.length_pos.mp h)
  rw [← List.length_pos]
  by_cases hacc : (RemoveSession w (w.heap s).accountId).2 = true
  · cases hfind : mapFind w.sessions (w.heap s).accountId with
    | none =>
      obtain ⟨w2, h2, g1, -, g3⟩ := addSession_new w s hf.1 hfind
      rw [hadd] at h2
      cases h2
      have hlen : (mapSet w.sessions (w.heap s).accountId s).length =
          w.sessions.length + 1 := by
        rw [mapSet_of_find_none _ _ _ hfind]; simp
      have hu : u32 (u32 (w.sessions.length + 1) + 4294967295) = w.sessions.length := by
        unfold u32; omega
      have hq : queueTest
            { w with sessions := mapSet w.sessions (w.heap s).accountId s } s true ↔
          (0 < L ∧ L ≤ w.sessions.length ∧ (w.heap s).skipQueue = false ∧
            (HasRecentlyDisconnected w s).2 = false) := by
        rw [queueTest_iff, hlen, if_pos rfl, hu, hlim]
      rw [g1, g3]
      simp only [List.length_append, List.length_singleton]
      by_cases hQ : queueTest
          { w with sessions := mapSet w.sessions (w.heap s).accountId s } s true
      · have := (hq.mp hQ).2.1
        rw [if_pos hQ]; simp only [List.length_singleton]
        intro _
        by_cases hq0 : 0 < w.queuedPlayer.length
        · have := hfull2 hq0; omega
        · omega
      · have : ¬ L ≤ w.sessions.length := fun hle => hQ (hq.mpr ⟨hL, hle, hskip, hrecent⟩)
        rw [if_neg hQ]; simp only [List.length_nil]
        intro hq0
        have := hfull2 (by omega); omega
    | some old =>
      obtain ⟨w2, h2, g1, -, g3, -⟩ := addSession_replace w s old hf.1 hfind hacc
      rw [hadd] at h2
      cases h2
      have hlen : (mapSet w.sessions (w.heap s).accountId s).length = w.sessions.length :=
        mapSet_length_of_find_some _ _ _ _ hfind
      have holdv : old ∈ w.sessions.map Prod.snd :=
        List.mem_map.mpr ⟨_, mapFind_some_mem _ _ _ hfind, rfl⟩
      have hq : queueTest
            { w with sessions := mapSet w.sessions (w.heap s).accountId s } s
              (!decide (old ∈ w.queuedPlayer)) ↔
          (0 < L ∧
            L ≤ (if old ∈ w.queuedPlayer then w.sessions.length
                  else w.sessions.length - 1) ∧
            (w.heap s).skipQueue = false ∧ (HasRecentlyDisconnected w s).2 = false) := by
        have hpos : 0 < w.sessions.length :=
          List.length_pos_of_mem (mapFind_some_mem _ _ _ hfind)
        have hu : u32 (u32 w.sessions.length + 4294967295) = w.sessions.length - 1 := by
          unfold u32; omega
        rw [queueTest_iff, hlen, hlim]
        by_cases hm : old ∈ w.queuedPlayer
        · simp [hm, u32_of_lt hsz]
        · simp [hm, hu]
      have hc1 := removeQueuedPlayer_length w old hsz hle (by rw [hlim]; exact hL)
      rw [hlim] at hc1
      rw [g1, g3, hlen]
      simp only [List.length_append]
      by_cases hm : old ∈ w.queuedPlayer
      · have hq0 := List.length_pos_of_mem hm
        have hN := hfull2 hq0
        rw [if_pos hm, if_pos hm] at hc1
        simp only [show ¬ (w.sessions.length - w.queuedPlayer.length < L) by omega,
          false_and, if_false] at hc1
        rw [if_pos hm] at hq
        have hQ := hq.mpr ⟨hL, by omega, hskip, hrecent⟩
        rw [if_pos hQ]; simp only [List.length_singleton]
        intro _; omega
      · have hlt := queue_length_lt w ho old holdv hm
        rw [if_neg hm, if_neg hm] at hc1
        rw [if_neg hm] at hq
        by_cases hq0 : 0 < w.queuedPlayer.length
        · have hN := hfull2 hq0
          rw [if_pos (by omega)] at hc1
          have hQ := hq.mpr ⟨hL, by omega, hskip, hrecent⟩
          rw [if_pos hQ]; simp only [List.length_singleton]
          intro _; omega
        · have hQ : ¬ queueTest
              { w with sessions := mapSet w.sessions (w.heap s).accountId s } s
                (!decide (old ∈ w.queuedPlayer)) := fun hQ => by
            have := (hq.mp hQ).2.1; omega
          rw [if_neg hQ]; simp only [List.length_nil]
          intro _; omega
  · have hacc2 : (RemoveSession w (w.heap s).accountId).2 = false := by
      cases hb : (RemoveSession w (w.heap s).accountId).2
      · rfl
      · exact absurd hb hacc
    rw [addSession_refused w s hf.1 hacc2] at hadd
    cases hadd
    exact hfull2

theorem admission_of_admitRemove (L : Nat) (hL : 0 < L) (w : World) (h : AdmitRemove L w) :
    admissionInvariant L w := by
  induction h with
  | start w hs hq hl =>
    refine ⟨capacity_of_admitRemove L hL w (AdmitRemove.start w hs hq hl), fun hne => ?_⟩
    exact absurd hq hne
  | outside w w1 hw hs hq hl ih =>
    refine ⟨capacity_of_admitRemove L hL w1 (AdmitRemove.outside w w1 hw hs hq hl), ?_⟩
    rw [hs, hq]; exact ih.2
  | addSession w s w1 _ hf hroom hskip hrecent hadd ih =>
    exact admission_addSession L hL w s w1 ih hf hroom hskip hrecent hadd
  | updateSessions w Update w1 _ hin hup ih =>
    rw [updateSessions_empty_inbox w Update hin] at hup
    cases hup
    exact sweepSessions_preserves (admissionInvariant L) Update
      (fun v id p hv hp => admission_removeFailedSession L hL v id p hv hp)
      w.sessions w ih ih.1.1.1 (fun e he => he)

/-- The admission invariant for the arrivals for which `HasRecentlyDisconnected` answers
`false`: in every world of `AdmitRemove L`, `L > 0`, `GetActiveSessionCount()` is at
most `L`, and it equals `L` whenever the queue is not empty. -/
theorem admission_invariant (L : Nat) (hL : 0 < L) (w : World) (h : AdmitRemove L w) :
    GetActiveSessionCount w ≤ L ∧
    (w.queuedPlayer ≠ [] → GetActiveSessionCount w = L) := by
  obtain ⟨⟨ho, -, hsz, hcap⟩, hfull⟩ := admission_of_admitRemove L hL w h
  have hle := queue_length_le w ho
  unfold GetActiveSessionCount
  rw [u32sub_of_le hle hsz]
  exact ⟨by omega, fun hne => by have := hfull hne; omega⟩

theorem admitRemove_scenarioReconnect : AdmitRemove 2 scenarioReconnect :=
  AdmitRemove.addSession scenarioArrival 9 scenarioReconnect
    (AdmitRemove.outside scenarioABC scenarioArrival admitRemove_scenarioABC rfl rfl rfl)
    (by decide) (by decide) (by decide) (by decide) rfl

/-- The admission invariant on the scenario of the spec followed by a reconnect of
account 1: the head of the queue (3) was promoted, the newcomer (9) waits, two sessions
are active. -/
theorem admission_invariant_scenario :
    (0 < 2 ∧ AdmitRemove 2 scenarioReconnect ∧ scenarioReconnect.queuedPlayer = [9]) ∧
    GetActiveSessionCount scenarioReconnect ≤ 2 ∧
    GetActiveSessionCount scenarioReconnect = 2 :=
  ⟨⟨by decide, admitRemove_scenarioReconnect, by decide⟩,
    (admission_invariant 2 (by decide) scenarioReconnect admitRemove_scenarioReconnect).1,
    (admission_invariant 2 (by decide) scenarioReconnect admitRemove_scenarioReconnect).2
      (by decide)⟩

/-- C28, the code at the failing input.  Limit 1 and tolerance 60 s; account 1 was
admitted, removed at game time 1000 and account 2 admitted, so one session is active;
at game time 5000 a new connection of account 1 arrives, without skip-queue permission,
4000 s after the disconnect on record.  `HasRecentlyDisconnected` answers `true`, the
queue is passed by, and two sessions are active under the limit 1. -/
theorem admission_late_return :
    returnLater.playerLimit = 1 ∧ returnLater.disconnectTolerance = 60 ∧
    returnLater.disconnects = [(1, 1000)] ∧ returnLater.gameTime - 1000 ≥ 60 ∧
    returnLater.sessions = [(2, 2)] ∧ returnLater.queuedPlayer = [] ∧
    GetActiveSessionCount returnLater = 1 ∧
    (returnLater.heap 9).accountId = 1 ∧ (returnLater.heap 9).skipQueue = false ∧
    freshSession returnLater 9 ∧
    (HasRecentlyDisconnected returnLater 9).2 = true ∧
    AddSession_ returnLater 9 = some returnBack ∧
    returnBack.sessions = [(2, 2), (1, 9)] ∧ returnBack.queuedPlayer = [] ∧
    GetActiveSessionCount returnBack = 2 ∧
    ¬ (GetActiveSessionCount returnBack ≤ returnBack.playerLimit) :=
  ⟨by decide, by decide, by decide, by decide, by decide, by decide, by decide, by decide,
    by decide, by decide, by decide, rfl, by decide, by decide, by decide, by decide⟩

/-! ## The queued-flag -/

theorem removeSession_frame (w : World) (id : Nat) :
    (RemoveSession w id).1.heap = w.heap ∧
    (RemoveSession w id).1.sessions = w.sessions ∧
    (RemoveSession w id).1.queuedPlayer = w.queuedPlayer := by
  unfold RemoveSession
  split
  · split
    · split <;> exact ⟨rfl, rfl, rfl⟩
    · exact ⟨rfl, rfl, rfl⟩
  · exact ⟨rfl, rfl, rfl⟩

theorem setInQueue_true_of_true (heap : Nat → WorldSession) (s x : Nat)
    (h : (heap x).inQueue = true) : (SetInQueue heap s true x).inQueue = true := by
  unfold SetInQueue
  split
  · rfl
  · exact h

/-- The sessions left in the queue by `RemoveQueuedPlayer` keep their flags. -/
theorem flagged_removeQueuedPlayer (w : World) (sess : Nat) (hnd : w.queuedPlayer.Nodup)
    (h : ∀ x ∈ w.queuedPlayer, (w.heap x).inQueue = true) :
    ∀ x ∈ (RemoveQueuedPlayer w sess).1.queuedPlayer,
      ((RemoveQueuedPlayer w sess).1.heap x).inQueue = true := by
  intro x hx
  have hx1 := (removeQueuedPlayer_queue_sublist w sess).subset hx
  have hx2 := (List.Nodup.mem_erase_iff hnd).mp hx1
  rw [removeQueuedPlayer_heap]
  split
  · unfold SetInQueue
    rw [if_neg hx2.1]
    exact h x hx2.2
  · exact h x hx2.2

theorem queuedFlagged_removeQueuedPlayer (w : World) (sess : Nat) (h : queuedFlagged w) :
    queuedFlagged (RemoveQueuedPlayer w sess).1 :=
  ⟨ownership_removeQueuedPlayer w sess h.1,
    flagged_removeQueuedPlayer w sess h.1.2.2.1 h.2⟩

theorem queuedFlagged_removeFailedSession (w : World) (id p : Nat) (h : queuedFlagged w)
    (hp : (id, p) ∈ w.sessions) : queuedFlagged (removeFailedSession w id p) := by
  refine ⟨(ownership_removeFailedSession w id p h.1 hp).1, ?_⟩
  obtain ⟨n1, -, -, -, n5⟩ := noteDisconnect_fields w p
  obtain ⟨-, -, f3, -⟩ := removeFailedSession_fields w id p
  have h1 := queuedFlagged_removeQueuedPlayer w p h
  have hnd : (noteDisconnect w p).queuedPlayer.Nodup := by rw [n1]; exact h1.1.2.2.1
  have hfl : ∀ x ∈ (noteDisconnect w p).queuedPlayer,
      ((noteDisconnect w p).heap x).inQueue = true := by
    rw [n1, n5]; exact h1.2
  have h2 := flagged_removeQueuedPlayer (noteDisconnect w p) p hnd hfl
  intro x hx
  rw [f3] at hx
  exact h2 x hx

theorem queuedFlagged_addSession (w : World) (s : Nat) (w1 : World) (h : queuedFlagged w)
    (hf : freshSession w s) (hadd : AddSession_ w s = some w1) : queuedFlagged w1 := by
  refine ⟨ownership_addSession w s w1 h.1 hf hadd, ?_⟩
  obtain ⟨r1, -, r3⟩ := removeSession_frame w (w.heap s).accountId
  unfold AddSession_ at hadd
  rw [if_neg hf.1] at hadd
  split at hadd
  · cases hadd
    intro x hx
    show ((RemoveSession w (w.heap s).accountId).1.heap x).inQueue = true
    rw [r1]
    exact h.2 x (r3 ▸ hx)
  · cases hadd
    -- the world after the block around `old`
    have hv : (replaceOld (RemoveSession w (w.heap s).accountId).1
          (w.heap s).accountId).1.queuedPlayer.Nodup ∧
        ∀ x ∈ (replaceOld (RemoveSession w (w.heap s).accountId).1
            (w.heap s).accountId).1.queuedPlayer,
          ((replaceOld (RemoveSession w (w.heap s).accountId).1
            (w.heap s).accountId).1.heap x).inQueue = true := by
      have hnd : (RemoveSession w (w.heap s).accountId).1.queuedPlayer.Nodup := by
        rw [r3]; exact h.1.2.2.1
      have hfl : ∀ x ∈ (RemoveSession w (w.heap s).accountId).1.queuedPlayer,
          ((RemoveSession w (w.heap s).accountId).1.heap x).inQueue = true := by
        rw [r1, r3]; exact h.2
      unfold replaceOld
      split
      · rename_i old _
        exact ⟨hnd.sublist ((removeQueuedPlayer_queue_sublist _ old).trans
            (List.erase_sublist _ _)),
          flagged_removeQueuedPlayer _ old hnd hfl⟩
      · exact ⟨hnd, hfl⟩
    obtain ⟨-, -, f3, f4, -⟩ := registerArrival_fields
      (replaceOld (RemoveSession w (w.heap s).accountId).1 (w.heap s).accountId).1 s
      (replaceOld (RemoveSession w (w.heap s).accountId).1 (w.heap s).accountId).2
    intro x hx
    rw [f3] at hx
    rw [f4]
    split
    · rename_i hQ
      rw [if_pos hQ] at hx
      rcases List.mem_append.mp hx with hx | hx
      · exact setInQueue_true_of_true _ _ _ (hv.2 x hx)
      · rw [List.mem_singleton.mp hx]
        unfold SetInQueue
        simp
    · rename_i hQ
      rw [if_neg hQ, List.append_nil] at hx
      exact hv.2 x hx

theorem queuedFlagged_of_flagHistory (w : World) (h : FlagHistory w) : queuedFlagged w := by
  induction h with
  | start w hs hq =>
    refine ⟨?_, fun x hx => ?_⟩
    · unfold ownership
      rw [hs, hq]
      exact ⟨List.nodup_nil, List.nodup_nil, List.nodup_nil,
        fun x hx => absurd hx (List.not_mem_nil _)⟩
    · rw [hq] at hx; exact absurd hx (List.not_mem_nil _)
  | outside w w1 _ hs hq hfl ih =>
    refine ⟨ownership_of_same w w1 hs hq ih.1, fun x hx => ?_⟩
    rw [hfl]; exact ih.2 x (hq ▸ hx)
  | addSession w s w1 _ hf hadd ih => exact queuedFlagged_addSession w s w1 ih hf hadd
  | addQueuedPlayer w sess _ hreg hnq ih =>
    refine ⟨?_, fun x hx => ?_⟩
    · obtain ⟨o1, o2, o3, o4⟩ := ih.1
      refine ⟨o1, o2, ?_, fun x hx => ?_⟩
      · show (w.queuedPlayer ++ [sess]).Nodup
        exact List.nodup_append.mpr ⟨o3, List.nodup_singleton _,
          fun a ha hb => hnq ((List.mem_singleton.mp hb) ▸ ha)⟩
      · rcases List.mem_append.mp (hx : x ∈ w.queuedPlayer ++ [sess]) with hx | hx
        · exact o4 x hx
        · rw [List.mem_singleton.mp hx]; exact hreg
    · show (SetInQueue w.heap sess true x).inQueue = true
      rcases List.mem_append.mp (hx : x ∈ w.queuedPlayer ++ [sess]) with hx | hx
      · exact setInQueue_true_of_true _ _ _ (ih.2 x hx)
      · rw [List.mem_singleton.mp hx]
        unfold SetInQueue
        simp
  | removeQueuedPlayer w sess _ ih => exact queuedFlagged_removeQueuedPlayer w sess ih
  | updateSessions w Update w1 _ hin hup ih =>
    rw [updateSessions_empty_inbox w Update hin] at hup
    cases hup
    exact sweepSessions_preserves queuedFlagged Update
      (fun v id p hv hp => queuedFlagged_removeFailedSession v id p hv hp)
      w.sessions w ih ih.1.1 (fun e he => he)
  | kickAll w _ ih =>
    exact ⟨ownership_kickAll w ih.1, fun x hx => absurd hx (List.not_mem_nil _)⟩

theorem flagHistory_scenarioABC : FlagHistory scenarioABC :=
  FlagHistory.addSession scenarioAB 3 scenarioABC
    (FlagHistory.addSession scenarioA 2 scenarioAB
      (FlagHistory.addSession scenarioStart 1 scenarioA
        (FlagHistory.start scenarioStart rfl rfl) (by decide) rfl)
      (by decide) rfl)
    (by decide) rfl

/-- C26, as the code has it.  In every world reached from an empty registry through
`AddSession_` on new connections, `AddQueuedPlayer` on a registered session that is not
queued, `RemoveQueuedPlayer`, the session removal of `UpdateSessions` and `KickAll`,
every session in the Admission Queue is held by the registry and has its queued-flag
set. -/
theorem queued_sessions_are_flagged (w : World) (h : FlagHistory w) :
    ∀ x ∈ w.queuedPlayer, x ∈ w.sessions.map Prod.snd ∧ (w.heap x).inQueue = true :=
  fun x hx =>
    ⟨(queuedFlagged_of_flagHistory w h).1.2.2.2 x hx, (queuedFlagged_of_flagHistory w h).2 x hx⟩

/-- C26 as stated fails: after the scenario of the spec (capacity 2, sessions 1, 2, 3
admitted, 3 queued) and `KickAll`, session 3 is still held by the registry with its
queued-flag set, and the queue is empty. -/
theorem queued_flag_counterexample :
    FlagHistory (KickAll scenarioABC) ∧
    3 ∈ (KickAll scenarioABC).sessions.map Prod.snd ∧
    ((KickAll scenarioABC).heap 3).inQueue = true ∧
    3 ∉ (KickAll scenarioABC).queuedPlayer :=
  ⟨FlagHistory.kickAll scenarioABC flagHistory_scenarioABC, by decide, by decide, by decide⟩

/-- C26 as the code has it, on the scenario of the spec: session 3 waits in the queue,
is registered and carries the flag. -/
theorem queued_sessions_are_flagged_witness :
    (FlagHistory scenarioABC ∧ 3 ∈ scenarioABC.queuedPlayer) ∧
    3 ∈ scenarioABC.sessions.map Prod.snd ∧ (scenarioABC.heap 3).inQueue = true :=
  ⟨⟨flagHistory_scenarioABC, by decide⟩,
    queued_sessions_are_flagged scenarioABC flagHistory_scenarioABC 3 (by decide)⟩

/-! ## The countdown over a run of ticks -/

/-- `ShutdownServ` with a delay, on a world that is not stopped. -/
theorem shutdownServ_scheduled (w : World) (time options exitcode : Nat) (reason : String)
    (hs : w.stopEvent = false) (ht : 0 < time) :
    (ShutdownServ w time options exitcode reason).stopEvent = false ∧
    (ShutdownServ w time options exitcode reason).shutdownTimer = time ∧
    (ShutdownServ w time options exitcode reason).shutdownMask = options ∧
    (ShutdownServ w time options exitcode reason).exitCode = exitcode := by
  unfold ShutdownServ IsStopped
  rw [if_neg (by rw [hs]; decide), if_neg (by omega)]
  obtain ⟨f1, f2, f3, f4, -, -, -, -⟩ := shutdownMsg_frame
    { w with shutdownMask := options, exitCode := exitcode, shutdownTimer := time } true 0 reason
  exact ⟨f1.trans hs, f2, f3, f4⟩

/-- The countdown after one tick: a countdown of 0 stays 0 and a positive one stays
positive and does not grow. -/
theorem updateGameTime_timer (w : World) (newTime : Int) :
    (w.shutdownTimer = 0 → (_UpdateGameTime w newTime).shutdownTimer = 0) ∧
    (0 < w.shutdownTimer →
      0 < (_UpdateGameTime w newTime).shutdownTimer ∧
      (_UpdateGameTime w newTime).shutdownTimer ≤ w.shutdownTimer) := by
  unfold _UpdateGameTime
  split
  · rename_i h
    split
    · split
      · exact ⟨fun h0 => h0, fun hp => ⟨hp, le_refl _⟩⟩
      · exact ⟨fun h0 => absurd h0 (by omega), fun hp => ⟨Nat.one_pos, hp⟩⟩
    · rename_i hlt
      rw [(shutdownMsg_frame _ false 0 "").2.1]
      exact ⟨fun h0 => absurd h0 (by omega),
        fun hp => ⟨Nat.sub_pos_of_lt (Nat.lt_of_not_le hlt), Nat.sub_le _ _⟩⟩
  · exact ⟨fun h0 => h0, fun hp => ⟨hp, le_refl _⟩⟩

/-- A tick that leaves the countdown running: the elapsed seconds are taken off. -/
theorem updateGameTime_running (w : World) (newTime : Int) (hs : w.stopEvent = false)
    (hlt : elapsedSeconds w newTime < w.shutdownTimer) :
    (_UpdateGameTime w newTime).stopEvent = false ∧
    (_UpdateGameTime w newTime).shutdownTimer = w.shutdownTimer - elapsedSeconds w newTime := by
  unfold _UpdateGameTime IsStopped
  by_cases he : 0 < elapsedSeconds w newTime
  · rw [if_pos ⟨hs, by omega, he⟩, if_neg (by omega)]
    exact ⟨((shutdownMsg_frame _ false 0 "").1).trans hs, (shutdownMsg_frame _ false 0 "").2.1⟩
  · rw [if_neg (fun h => he h.2.2)]
    exact ⟨hs, by show w.shutdownTimer = _; omega⟩

/-- Once set, the stop flag stays set over every run of ticks. -/
theorem runTicks_stopped (ticks : List (List (Nat × Nat) × Int)) :
    ∀ w : World, w.stopEvent = true → (runTicks w ticks).stopEvent = true := by
  induction ticks with
  | nil => exact fun w h => h
  | cons x rest ih =>
    obtain ⟨registry, newTime⟩ := x
    intro w h
    unfold runTicks
    exact ih _ ((updateGameTime_stopEvent _ newTime).mpr (Or.inl h))

/-- The countdown of a shutdown without the idle bit over a run of ticks, in terms of
the sum of the elapsed seconds the ticks observe. -/
theorem runTicks_countdown (ticks : List (List (Nat × Nat) × Int)) :
    ∀ w : World, w.shutdownMask &&& SHUTDOWN_MASK_IDLE = 0 → w.stopEvent = false →
      0 < w.shutdownTimer →
      ((elapsedOfTicks w ticks).sum < w.shutdownTimer →
        (runTicks w ticks).stopEvent = false ∧
        (runTicks w ticks).shutdownTimer = w.shutdownTimer - (elapsedOfTicks w ticks).sum) ∧
      (w.shutdownTimer ≤ (elapsedOfTicks w ticks).sum →
        (runTicks w ticks).stopEvent = true) := by
  induction ticks with
  | nil =>
    intro w _ hs ht
    have e0 : (elapsedOfTicks w []).sum = 0 := rfl
    rw [e0]
    exact ⟨fun _ => ⟨hs, rfl⟩, fun h => absurd h (by omega)⟩
  | cons x rest ih =>
    obtain ⟨registry, newTime⟩ := x
    intro w hidle hs ht
    obtain ⟨v, hv⟩ : ∃ v : World, v = { w with sessions := registry } := ⟨_, rfl⟩
    have v1 : v.shutdownMask = w.shutdownMask := by rw [hv]
    have v2 : v.stopEvent = false := by rw [hv]; exact hs
    have v3 : v.shutdownTimer = w.shutdownTimer := by rw [hv]
    have e1 : elapsedOfTicks w ((registry, newTime) :: rest) =
        elapsedSeconds v newTime :: elapsedOfTicks (_UpdateGameTime v newTime) rest := by
      rw [hv]; rfl
    have e2 : runTicks w ((registry, newTime) :: rest) =
        runTicks (_UpdateGameTime v newTime) rest := by
      rw [hv]; rfl
    rw [e1, e2, List.sum_cons, ← v3]
    by_cases hlt : elapsedSeconds v newTime < v.shutdownTimer
    · obtain ⟨r1, r2⟩ := updateGameTime_running v newTime v2 hlt
      obtain ⟨i1, i2⟩ := ih (_UpdateGameTime v newTime)
        (by rw [updateGameTime_mask, v1]; exact hidle) r1 (by rw [r2]; omega)
      rw [r2] at i1 i2
      refine ⟨fun h => ?_, fun h => i2 (by omega)⟩
      obtain ⟨j1, j2⟩ := i1 (by omega)
      exact ⟨j1, by rw [j2]; omega⟩
    · have hst : (_UpdateGameTime v newTime).stopEvent = true :=
        (updateGameTime_stopEvent v newTime).mpr
          (Or.inr ⟨by omega, by omega, by omega, Or.inl (by rw [v1]; exact hidle)⟩)
      exact ⟨fun h => absurd h (by omega), fun _ => runTicks_stopped rest _ hst⟩

theorem elapsedOfTicks_take (ticks : List (List (Nat × Nat) × Int)) :
    ∀ (w : World) (k : Nat),
      elapsedOfTicks w (ticks.take k) = (elapsedOfTicks w ticks).take k := by
  induction ticks with
  | nil => intro w k; simp [elapsedOfTicks]
  | cons x rest ih =>
    obtain ⟨registry, newTime⟩ := x
    intro w k
    cases k with
    | zero => simp [elapsedOfTicks]
    | succ n => simp [elapsedOfTicks, ih]

/-- C23. The countdown neither drifts nor underflows.  After `ShutdownServ(T, options,
exitcode)` with `T > 0`, the idle bit clear and the stop flag clear, and `k` ticks that
observe the elapsed seconds `e1, ..., ek`: while `e1 + ... + ek < T` the stop flag is
clear and the countdown is exactly `T - (e1 + ... + ek)`; the stop flag is set after
tick `k` exactly when `T <= e1 + ... + ek`, so at the first such tick and at none
before.  A tick of any world keeps a countdown of 0 at 0 and leaves a positive
countdown positive and no larger than before. -/
theorem countdown_no_drift (w : World) (T options exitcode : Nat) (reason : String)
    (ticks : List (List (Nat × Nat) × Int)) (k : Nat)
    (hT : 0 < T) (hidle : options &&& SHUTDOWN_MASK_IDLE = 0) (hs : w.stopEvent = false) :
    (((elapsedOfTicks (ShutdownServ w T options exitcode reason) ticks).take k).sum < T →
      (runTicks (ShutdownServ w T options exitcode reason) (ticks.take k)).stopEvent = false ∧
      (runTicks (ShutdownServ w T options exitcode reason) (ticks.take k)).shutdownTimer =
        T - ((elapsedOfTicks (ShutdownServ w T options exitcode reason) ticks).take k).sum ∧
      (runTicks (ShutdownServ w T options exitcode reason) (ticks.take k)).shutdownTimer +
        ((elapsedOfTicks (ShutdownServ w T options exitcode reason) ticks).take k).sum = T) ∧
    ((runTicks (ShutdownServ w T options exitcode reason) (ticks.take k)).stopEvent = true ↔
      T ≤ ((elapsedOfTicks (ShutdownServ w T options exitcode reason) ticks).take k).sum) ∧
    (∀ (v : World) (newTime : Int),
      (v.shutdownTimer = 0 → (_UpdateGameTime v newTime).shutdownTimer = 0) ∧
      (0 < v.shutdownTimer →
        0 < (_UpdateGameTime v newTime).shutdownTimer ∧
        (_UpdateGameTime v newTime).shutdownTimer ≤ v.shutdownTimer)) := by
  obtain ⟨s1, s2, s3, -⟩ := shutdownServ_scheduled w T options exitcode reason hs hT
  obtain ⟨c1, c2⟩ := runTicks_countdown (ticks.take k)
    (ShutdownServ w T options exitcode reason) (by rw [s3]; exact hidle) s1
    (by rw [s2]; exact hT)
  rw [elapsedOfTicks_take, s2] at c1 c2
  refine ⟨fun h => ?_, ⟨fun h => ?_, c2⟩, fun v newTime => updateGameTime_timer v newTime⟩
  · obtain ⟨j1, j2⟩ := c1 h
    exact ⟨j1, j2, by rw [j2]; omega⟩
  · by_contra hlt
    rw [(c1 (by omega)).1] at h
    exact Bool.noConfusion h

/-- C23 at an instance: a shutdown in 10 s, then ticks at the game times 3, 3, 7 and 12,
which observe 3, 0, 4 and 5 elapsed seconds.  After three ticks 3 s are left; the
fourth tick sets the stop flag. -/
theorem countdown_no_drift_witness :
    ((0 : Nat) < 10 ∧ (0 : Nat) &&& SHUTDOWN_MASK_IDLE = 0 ∧
      (demoCountdown 0 0 [1]).stopEvent = false ∧
      elapsedOfTicks (ShutdownServ (demoCountdown 0 0 [1]) 10 0 SHUTDOWN_EXIT_CODE "")
        [([(1, 1)], 3), ([(1, 1)], 3), ([(1, 1)], 7), ([(1, 1)], 12)] = [3, 0, 4, 5]) ∧
    ((runTicks (ShutdownServ (demoCountdown 0 0 [1]) 10 0 SHUTDOWN_EXIT_CODE "")
        ([([(1, 1)], 3), ([(1, 1)], 3), ([(1, 1)], 7), ([(1, 1)], 12)].take 3)).stopEvent = false ∧
      (runTicks (ShutdownServ (demoCountdown 0 0 [1]) 10 0 SHUTDOWN_EXIT_CODE "")
        ([([(1, 1)], 3), ([(1, 1)], 3), ([(1, 1)], 7), ([(1, 1)], 12)].take 3)).shutdownTimer = 3) ∧
    (runTicks (ShutdownServ (demoCountdown 0 0 [1]) 10 0 SHUTDOWN_EXIT_CODE "")
      ([([(1, 1)], 3), ([(1, 1)], 3), ([(1, 1)], 7), ([(1, 1)], 12)].take 4)).stopEvent = true :=
  ⟨⟨by decide, by decide, by decide, by decide⟩,
    ⟨((countdown_no_drift (demoCountdown 0 0 [1]) 10 0 SHUTDOWN_EXIT_CODE ""
        [([(1, 1)], 3), ([(1, 1)], 3), ([(1, 1)], 7), ([(1, 1)], 12)] 3
        (by decide) (by decide) (by decide)).1 (by decide)).1,
     ((countdown_no_drift (demoCountdown 0 0 [1]) 10 0 SHUTDOWN_EXIT_CODE ""
        [([(1, 1)], 3), ([(1, 1)], 3), ([(1, 1)], 7), ([(1, 1)], 12)] 3
        (by decide) (by decide) (by decide)).1 (by decide)).2.1.trans (by decide)⟩,
    (countdown_no_drift (demoCountdown 0 0 [1]) 10 0 SHUTDOWN_EXIT_CODE ""
      [([(1, 1)], 3), ([(1, 1)], 3), ([(1, 1)], 7), ([(1, 1)], 12)] 4
      (by decide) (by decide) (by decide)).2.1.mpr (by decide)⟩

/-! ## The timer loop -/

/-- What the loop body does to one timer. -/
theorem advanceTimer_timers (w : World) (diff i j : Nat) :
    (advanceTimer w diff i).timers j =
      if j = i then
        (if (w.timers i).current ≥ 0 then
          { interval := (w.timers i).interval, current := (w.timers i).current + (diff : Int) }
         else { interval := (w.timers i).interval, current := 0 })
      else w.timers j := by
  unfold advanceTimer setTimer IntervalTimer.GetCurrent IntervalTimer.Update
    IntervalTimer.SetCurrent
  by_cases hc : (w.timers i).current ≥ 0 <;> by_cases hj : j = i <;> simp [hc, hj]

/-- The loop body writes the timer table only. -/
theorem advanceTimer_frame (w : World) (diff i : Nat) :
    (advanceTimer w diff i).stopEvent = w.stopEvent ∧
    (advanceTimer w diff i).driverCalls = w.driverCalls ∧
    (advanceTimer w diff i).preserveCustomChannels = w.preserveCustomChannels ∧
    (advanceTimer w diff i).logdbClearTime = w.logdbClearTime ∧
    (advanceTimer w diff i).autobroadcastOn = w.autobroadcastOn ∧
    (advanceTimer w diff i).mailTimer = w.mailTimer ∧
    (advanceTimer w diff i).mailTimerExpires = w.mailTimerExpires := by
  unfold advanceTimer setTimer
  split <;> exact ⟨rfl, rfl, rfl, rfl, rfl, rfl, rfl⟩

/-- The loop over a list of distinct indices: each listed timer is advanced from its
own old value, the others are left alone. -/
theorem advance_fold_timers (diff : Nat) (l : List Nat) (hnd : l.Nodup) :
    ∀ (w : World) (j : Nat),
      ((l.foldl (fun v i => advanceTimer v diff i) w).timers j =
        if j ∈ l then
          (if (w.timers j).current ≥ 0 then
            { interval := (w.timers j).interval,
              current := (w.timers j).current + (diff : Int) }
           else { interval := (w.timers j).interval, current := 0 })
        else w.timers j) ∧
      (l.foldl (fun v i => advanceTimer v diff i) w).stopEvent = w.stopEvent ∧
      (l.foldl (fun v i => advanceTimer v diff i) w).driverCalls = w.driverCalls := by
  induction l with
  | nil => intro w j; simp
  | cons i rest ih =>
    intro w j
    obtain ⟨hi, hrest⟩ := List.nodup_cons.mp hnd
    obtain ⟨t1, t2, t3⟩ := ih hrest (advanceTimer w diff i) j
    obtain ⟨f1, f2, -⟩ := advanceTimer_frame w diff i
    rw [List.foldl_cons]
    refine ⟨?_, by rw [t2, f1], by rw [t3, f2]⟩
    rw [t1, advanceTimer_timers]
    by_cases hj : j = i
    · subst hj
      simp [hi]
    · simp [hj]

theorem advanceTimers_timers (w : World) (diff j : Nat) :
    (advanceTimers w diff).timers j =
      if j < WUPDATE_COUNT then
        (if (w.timers j).current ≥ 0 then
          { interval := (w.timers j).interval,
            current := (w.timers j).current + (diff : Int) }
         else { interval := (w.timers j).interval, current := 0 })
      else w.timers j := by
  unfold advanceTimers
  rw [(advance_fold_timers diff (List.range WUPDATE_COUNT) (List.nodup_range _) w j).1]
  simp only [List.mem_range]

theorem advanceTimers_frame (w : World) (diff : Nat) :
    (advanceTimers w diff).stopEvent = w.stopEvent ∧
    (advanceTimers w diff).driverCalls = w.driverCalls := by
  unfold advanceTimers
  exact (advance_fold_timers diff (List.range WUPDATE_COUNT) (List.nodup_range _) w 0).2

/-- C24. The timer loop at the start of `Update(diff)`: a timer of the table whose
current value was at least 0 has it increased by exactly `diff`; one whose current
value was negative has current value 0; no period is changed; no current value is
negative afterwards; and the new value of a timer is a function of its own old value
and `diff` (two worlds that agree on a timer agree on it after the loop). -/
theorem timer_advance_step (w : World) (diff i : Nat) (hi : i < WUPDATE_COUNT) :
    ((w.timers i).current ≥ 0 →
      ((advanceTimers w diff).timers i).current = (w.timers i).current + (diff : Int)) ∧
    ((w.timers i).current < 0 → ((advanceTimers w diff).timers i).current = 0) ∧
    ((advanceTimers w diff).timers i).interval = (w.timers i).interval ∧
    0 ≤ ((advanceTimers w diff).timers i).current ∧
    (∀ v : World, v.timers i = w.timers i →
      (advanceTimers v diff).timers i = (advanceTimers w diff).timers i) := by
  have h := advanceTimers_timers w diff i
  rw [if_pos hi] at h
  refine ⟨fun hc => ?_, fun hc => ?_, ?_, ?_, fun v hv => ?_⟩
  · rw [h, if_pos hc]
  · rw [h, if_neg (by omega)]
  · rw [h]; split <;> rfl
  · rw [h]
    split
    · rename_i hc
      show 0 ≤ (w.timers i).current + (diff : Int)
      omega
    · exact le_refl _
  · rw [h, advanceTimers_timers v diff i, if_pos hi, hv]

/-- C24 at an instance: in `demoTimers` a tick of 50 ms takes `WUPDATE_AUCTIONS` from
990 to 1040 and the disabled `WUPDATE_UPTIME` from -5 to 0. -/
theorem timer_advance_step_witness :
    (WUPDATE_AUCTIONS < WUPDATE_COUNT ∧ WUPDATE_UPTIME < WUPDATE_COUNT ∧
      (demoTimers.timers WUPDATE_AUCTIONS).current ≥ 0 ∧
      (demoTimers.timers WUPDATE_UPTIME).current < 0) ∧
    ((advanceTimers demoTimers 50).timers WUPDATE_AUCTIONS).current = 1040 ∧
    ((advanceTimers demoTimers 50).timers WUPDATE_UPTIME).current = 0 :=
  ⟨by decide,
    ((timer_advance_step demoTimers 50 WUPDATE_AUCTIONS (by decide)).1 (by decide)).trans
      (by decide),
    (timer_advance_step demoTimers 50 WUPDATE_UPTIME (by decide)).2.1 (by decide)⟩

/-! ## The timer blocks of `Update` -/

/-- The shape shared by the plain timer blocks. -/
theorem fire_spec (w : World) (i : Nat) (d : Driver) (j : Nat) :
    ((if (w.timers i).Passed = true then callDriver (resetTimer w i) d else w).timers j =
      if j = i ∧ (w.timers i).Passed = true then (w.timers i).Reset else w.timers j) ∧
    (if (w.timers i).Passed = true then callDriver (resetTimer w i) d else w).driverCalls =
      w.driverCalls ++ (if (w.timers i).Passed = true then [d] else []) ∧
    (if (w.timers i).Passed = true then callDriver (resetTimer w i) d else w).stopEvent =
      w.stopEvent ∧
    (if (w.timers i).Passed = true then callDriver (resetTimer w i) d
      else w).preserveCustomChannels = w.preserveCustomChannels ∧
    (if (w.timers i).Passed = true then callDriver (resetTimer w i) d
      else w).logdbClearTime = w.logdbClearTime ∧
    (if (w.timers i).Passed = true then callDriver (resetTimer w i) d
      else w).autobroadcastOn = w.autobroadcastOn := by
  by_cases hp : (w.timers i).Passed = true <;>
    simp [hp, resetTimer, setTimer, callDriver]

theorem whoListBlock_spec (w : World) (j : Nat) :
    ((whoListBlock w).timers j =
      if j = WUPDATE_WHO_LIST ∧ (w.timers WUPDATE_WHO_LIST).Passed = true
        then (w.timers WUPDATE_WHO_LIST).Reset else w.timers j) ∧
    (whoListBlock w).driverCalls = w.driverCalls ++
      (if (w.timers WUPDATE_WHO_LIST).Passed = true then [Driver.WhoListUpdate] else []) ∧
    (whoListBlock w).stopEvent = w.stopEvent ∧
    (whoListBlock w).preserveCustomChannels = w.preserveCustomChannels ∧
    (whoListBlock w).logdbClearTime = w.logdbClearTime ∧
    (whoListBlock w).autobroadcastOn = w.autobroadcastOn :=
  fire_spec w WUPDATE_WHO_LIST Driver.WhoListUpdate j

theorem auctionsPendingBlock_spec (w : World) (j : Nat) :
    ((auctionsPendingBlock w).timers j =
      if j = WUPDATE_AUCTIONS_PENDING ∧ (w.timers WUPDATE_AUCTIONS_PENDING).Passed = true
        then (w.timers WUPDATE_AUCTIONS_PENDING).Reset else w.timers j) ∧
    (auctionsPendingBlock w).driverCalls = w.driverCalls ++
      (if (w.timers WUPDATE_AUCTIONS_PENDING).Passed = true
        then [Driver.UpdatePendingAuctions] else []) ∧
    (auctionsPendingBlock w).stopEvent = w.stopEvent ∧
    (auctionsPendingBlock w).preserveCustomChannels = w.preserveCustomChannels ∧
    (auctionsPendingBlock w).logdbClearTime = w.logdbClearTime ∧
    (auctionsPendingBlock w).autobroadcastOn = w.autobroadcastOn :=
  fire_spec w WUPDATE_AUCTIONS_PENDING Driver.UpdatePendingAuctions j

theorem ahbotBlock_spec (w : World) (j : Nat) :
    ((ahbotBlock w).timers j =
      if j = WUPDATE_AHBOT ∧ (w.timers WUPDATE_AHBOT).Passed = true
        then (w.timers WUPDATE_AHBOT).Reset else w.timers j) ∧
    (ahbotBlock w).driverCalls = w.driverCalls ++
      (if (w.timers WUPDATE_AHBOT).Passed = true then [Driver.AuctionBotUpdate] else []) ∧
    (ahbotBlock w).stopEvent = w.stopEvent ∧
    (ahbotBlock w).preserveCustomChannels = w.preserveCustomChannels ∧
    (ahbotBlock w).logdbClearTime = w.logdbClearTime ∧
    (ahbotBlock w).autobroadcastOn = w.autobroadcastOn :=
  fire_spec w WUPDATE_AHBOT Driver.AuctionBotUpdate j

theorem fileChangesBlock_spec (w : World) (j : Nat) :
    ((fileChangesBlock w).timers j =
      if j = WUPDATE_CHECK_FILECHANGES ∧ (w.timers WUPDATE_CHECK_FILECHANGES).Passed = true
        then (w.timers WUPDATE_CHECK_FILECHANGES).Reset else w.timers j) ∧
    (fileChangesBlock w).driverCalls = w.driverCalls ++
      (if (w.timers WUPDATE_CHECK_FILECHANGES).Passed = true
        then [Driver.ScriptReloadUpdate] else []) ∧
    (fileChangesBlock w).stopEvent = w.stopEvent ∧
    (fileChangesBlock w).preserveCustomChannels = w.preserveCustomChannels ∧
    (fileChangesBlock w).logdbClearTime = w.logdbClearTime ∧
    (fileChangesBlock w).autobroadcastOn = w.autobroadcastOn :=
  fire_spec w WUPDATE_CHECK_FILECHANGES Driver.ScriptReloadUpdate j

theorem uptimeBlock_spec (w : World) (j : Nat) :
    ((uptimeBlock w).timers j =
      if j = WUPDATE_UPTIME ∧ (w.timers WUPDATE_UPTIME).Passed = true
        then (w.timers WUPDATE_UPTIME).Reset else w.timers j) ∧
    (uptimeBlock w).driverCalls = w.driverCalls ++
      (if (w.timers WUPDATE_UPTIME).Passed = true then [Driver.UptimeUpdate] else []) ∧
    (uptimeBlock w).stopEvent = w.stopEvent ∧
    (uptimeBlock w).preserveCustomChannels = w.preserveCustomChannels ∧
    (uptimeBlock w).logdbClearTime = w.logdbClearTime ∧
    (uptimeBlock w).autobroadcastOn = w.autobroadcastOn :=
  fire_spec w WUPDATE_UPTIME Driver.UptimeUpdate j

theorem deleteCharsBlock_spec (w : World) (j : Nat) :
    ((deleteCharsBlock w).timers j =
      if j = WUPDATE_DELETECHARS ∧ (w.timers WUPDATE_DELETECHARS).Passed = true
        then (w.timers WUPDATE_DELETECHARS).Reset else w.timers j) ∧
    (deleteCharsBlock w).driverCalls = w.driverCalls ++
      (if (w.timers WUPDATE_DELETECHARS).Passed = true
        then [Driver.DeleteOldCharacters] else []) ∧
    (deleteCharsBlock w).stopEvent = w.stopEvent ∧
    (deleteCharsBlock w).preserveCustomChannels = w.preserveCustomChannels ∧
    (deleteCharsBlock w).logdbClearTime = w.logdbClearTime ∧
    (deleteCharsBlock w).autobroadcastOn = w.autobroadcastOn :=
  fire_spec w WUPDATE_DELETECHARS Driver.DeleteOldCharacters j

theorem corpsesBlock_spec (w : World) (j : Nat) :
    ((corpsesBlock w).timers j =
      if j = WUPDATE_CORPSES ∧ (w.timers WUPDATE_CORPSES).Passed = true
        then (w.timers WUPDATE_CORPSES).Reset else w.timers j) ∧
    (corpsesBlock w).driverCalls = w.driverCalls ++
      (if (w.timers WUPDATE_CORPSES).Passed = true then [Driver.RemoveOldCorpses] else []) ∧
    (corpsesBlock w).stopEvent = w.stopEvent ∧
    (corpsesBlock w).preserveCustomChannels = w.preserveCustomChannels ∧
    (corpsesBlock w).logdbClearTime = w.logdbClearTime ∧
    (corpsesBlock w).autobroadcastOn = w.autobroadcastOn :=
  fire_spec w WUPDATE_CORPSES Driver.RemoveOldCorpses j

theorem pingDbBlock_spec (w : World) (j : Nat) :
    ((pingDbBlock w).timers j =
      if j = WUPDATE_PINGDB ∧ (w.timers WUPDATE_PINGDB).Passed = true
        then (w.timers WUPDATE_PINGDB).Reset else w.timers j) ∧
    (pingDbBlock w).driverCalls = w.driverCalls ++
      (if (w.timers WUPDATE_PINGDB).Passed = true then [Driver.PingDB] else []) ∧
    (pingDbBlock w).stopEvent = w.stopEvent ∧
    (pingDbBlock w).preserveCustomChannels = w.preserveCustomChannels ∧
    (pingDbBlock w).logdbClearTime = w.logdbClearTime ∧
    (pingDbBlock w).autobroadcastOn = w.autobroadcastOn :=
  fire_spec w WUPDATE_PINGDB Driver.PingDB j

theorem channelSaveBlock_spec (w : World) (j : Nat) :
    ((channelSaveBlock w).timers j =
      if j = WUPDATE_CHANNEL_SAVE ∧
          (w.stopEvent = true ∨ (w.timers WUPDATE_CHANNEL_SAVE).Passed = true)
        then (w.timers WUPDATE_CHANNEL_SAVE).Reset else w.timers j) ∧
    (channelSaveBlock w).driverCalls = w.driverCalls ++
      (if (w.stopEvent = true ∨ (w.timers WUPDATE_CHANNEL_SAVE).Passed = true) ∧
          w.preserveCustomChannels = true then [Driver.SaveChannels] else []) ∧
    (channelSaveBlock w).stopEvent = w.stopEvent ∧
    (channelSaveBlock w).preserveCustomChannels = w.preserveCustomChannels ∧
    (channelSaveBlock w).logdbClearTime = w.logdbClearTime ∧
    (channelSaveBlock w).autobroadcastOn = w.autobroadcastOn := by
  unfold channelSaveBlock IsStopped
  by_cases hc : w.stopEvent = true ∨ (w.timers WUPDATE_CHANNEL_SAVE).Passed = true <;>
    by_cases hp : w.preserveCustomChannels = true <;>
    simp [hc, hp, resetTimer, setTimer, callDriver]

theorem auctionsBlock_spec (w : World) (j : Nat) :
    ((auctionsBlock w).timers j =
      if j = WUPDATE_AUCTIONS ∧ (w.timers WUPDATE_AUCTIONS).Passed = true
        then (w.timers WUPDATE_AUCTIONS).Reset else w.timers j) ∧
    (auctionsBlock w).driverCalls = w.driverCalls ++
      (if (w.timers WUPDATE_AUCTIONS).Passed = true then
        (if w.mailTimer + 1 > w.mailTimerExpires then [Driver.ReturnOrDeleteOldMails]
          else []) ++ [Driver.AuctionUpdate]
       else []) ∧
    (auctionsBlock w).stopEvent = w.stopEvent ∧
    (auctionsBlock w).preserveCustomChannels = w.preserveCustomChannels ∧
    (auctionsBlock w).logdbClearTime = w.logdbClearTime ∧
    (auctionsBlock w).autobroadcastOn = w.autobroadcastOn := by
  unfold auctionsBlock
  by_cases hc : (w.timers WUPDATE_AUCTIONS).Passed = true <;>
    by_cases hm : w.mailTimer + 1 > w.mailTimerExpires <;>
    simp [hc, hm, resetTimer, setTimer, callDriver]

theorem cleanDbBlock_spec (w : World) (j : Nat) :
    ((cleanDbBlock w).timers j =
      if j = WUPDATE_CLEANDB ∧
          (w.logdbClearTime > 0 ∧ (w.timers WUPDATE_CLEANDB).Passed = true)
        then (w.timers WUPDATE_CLEANDB).Reset else w.timers j) ∧
    (cleanDbBlock w).driverCalls = w.driverCalls ++
      (if w.logdbClearTime > 0 ∧ (w.timers WUPDATE_CLEANDB).Passed = true
        then [Driver.CleanLogs] else []) ∧
    (cleanDbBlock w).stopEvent = w.stopEvent ∧
    (cleanDbBlock w).preserveCustomChannels = w.preserveCustomChannels ∧
    (cleanDbBlock w).logdbClearTime = w.logdbClearTime ∧
    (cleanDbBlock w).autobroadcastOn = w.autobroadcastOn := by
  unfold cleanDbBlock
  by_cases hc : w.logdbClearTime > 0 <;>
    by_cases hp : (w.timers WUPDATE_CLEANDB).Passed = true <;>
    simp [hc, hp, resetTimer, setTimer, callDriver]

theorem autobroadcastBlock_spec (w : World) (j : Nat) :
    ((autobroadcastBlock w).timers j =
      if j = WUPDATE_AUTOBROADCAST ∧
          (w.autobroadcastOn = true ∧ (w.timers WUPDATE_AUTOBROADCAST).Passed = true)
        then (w.timers WUPDATE_AUTOBROADCAST).Reset else w.timers j) ∧
    (autobroadcastBlock w).driverCalls = w.driverCalls ++
      (if w.autobroadcastOn = true ∧ (w.timers WUPDATE_AUTOBROADCAST).Passed = true
        then [Driver.SendAutoBroadcast] else []) ∧
    (autobroadcastBlock w).stopEvent = w.stopEvent ∧
    (autobroadcastBlock w).preserveCustomChannels = w.preserveCustomChannels ∧
    (autobroadcastBlock w).logdbClearTime = w.logdbClearTime ∧
    (autobroadcastBlock w).autobroadcastOn = w.autobroadcastOn := by
  unfold autobroadcastBlock
  by_cases hc : w.autobroadcastOn = true <;>
    by_cases hp : (w.timers WUPDATE_AUTOBROADCAST).Passed = true <;>
    simp [hc, hp, resetTimer, setTimer, callDriver]

theorem eventsBlock_spec (w : World) (nextGameEvent j : Nat) :
    ((eventsBlock w nextGameEvent).timers j =
      if j = WUPDATE_EVENTS ∧ (w.timers WUPDATE_EVENTS).Passed = true
        then { interval := (nextGameEvent : Int), current := 0 } else w.timers j) ∧
    (eventsBlock w nextGameEvent).driverCalls = w.driverCalls ++
      (if (w.timers WUPDATE_EVENTS).Passed = true then [Driver.GameEventUpdate] else []) ∧
    (eventsBlock w nextGameEvent).stopEvent = w.stopEvent ∧
    (eventsBlock w nextGameEvent).preserveCustomChannels = w.preserveCustomChannels ∧
    (eventsBlock w nextGameEvent).logdbClearTime = w.logdbClearTime ∧
    (eventsBlock w nextGameEvent).autobroadcastOn = w.autobroadcastOn := by
  unfold eventsBlock
  by_cases hc : (w.timers WUPDATE_EVENTS).Passed = true <;>
    by_cases hj : j = WUPDATE_EVENTS <;>
    simp [hc, hj, resetTimer, setTimer, callDriver, IntervalTimer.Reset,
      IntervalTimer.SetInterval]

theorem whoListBlock_mail (w : World) :
    (whoListBlock w).mailTimer = w.mailTimer ∧
    (whoListBlock w).mailTimerExpires = w.mailTimerExpires := by
  unfold whoListBlock
  split <;> exact ⟨rfl, rfl⟩

theorem channelSaveBlock_mail (w : World) :
    (channelSaveBlock w).mailTimer = w.mailTimer ∧
    (channelSaveBlock w).mailTimerExpires = w.mailTimerExpires := by
  unfold channelSaveBlock
  split
  · split <;> exact ⟨rfl, rfl⟩
  · exact ⟨rfl, rfl⟩

theorem dispatchTimers_calls (v : World) (n : Nat) :
    (dispatchTimers v n).driverCalls =
      v.driverCalls ++
        ((if (v.timers WUPDATE_WHO_LIST).Passed = true then [Driver.WhoListUpdate] else []) ++
         (if (v.stopEvent = true ∨ (v.timers WUPDATE_CHANNEL_SAVE).Passed = true) ∧
              v.preserveCustomChannels = true then [Driver.SaveChannels] else []) ++
         (if (v.timers WUPDATE_AUCTIONS).Passed = true then
            (if v.mailTimer + 1 > v.mailTimerExpires then [Driver.ReturnOrDeleteOldMails]
              else []) ++ [Driver.AuctionUpdate]
          else []) ++
         (if (v.timers WUPDATE_AUCTIONS_PENDING).Passed = true
            then [Driver.UpdatePendingAuctions] else []) ++
         (if (v.timers WUPDATE_AHBOT).Passed = true then [Driver.AuctionBotUpdate] else []) ++
         (if (v.timers WUPDATE_CHECK_FILECHANGES).Passed = true
            then [Driver.ScriptReloadUpdate] else []) ++
         (if (v.timers WUPDATE_UPTIME).Passed = true then [Driver.UptimeUpdate] else []) ++
         (if v.logdbClearTime > 0 ∧ (v.timers WUPDATE_CLEANDB).Passed = true
            then [Driver.CleanLogs] else []) ++
         (if v.autobroadcastOn = true ∧ (v.timers WUPDATE_AUTOBROADCAST).Passed = true
            then [Driver.SendAutoBroadcast] else []) ++
         (if (v.timers WUPDATE_DELETECHARS).Passed = true
            then [Driver.DeleteOldCharacters] else []) ++
         (if (v.timers WUPDATE_CORPSES).Passed = true then [Driver.RemoveOldCorpses] else []) ++
         (if (v.timers WUPDATE_EVENTS).Passed = true then [Driver.GameEventUpdate] else []) ++
         (if (v.timers WUPDATE_PINGDB).Passed = true then [Driver.PingDB] else [])) := by
  unfold dispatchTimers
  simp only [fun w j => (whoListBlock_spec w j).1, fun w => (whoListBlock_spec w 0).2.1,
    fun w => (whoListBlock_spec w 0).2.2.1, fun w => (whoListBlock_spec w 0).2.2.2.1,
    fun w => (whoListBlock_spec w 0).2.2.2.2.1, fun w => (whoListBlock_spec w 0).2.2.2.2.2,
    fun w j => (channelSaveBlock_spec w j).1, fun w => (channelSaveBlock_spec w 0).2.1,
    fun w => (channelSaveBlock_spec w 0).2.2.1, fun w => (channelSaveBlock_spec w 0).2.2.2.1,
    fun w => (channelSaveBlock_spec w 0).2.2.2.2.1,
    fun w => (channelSaveBlock_spec w 0).2.2.2.2.2,
    fun w j => (auctionsBlock_spec w j).1, fun w => (auctionsBlock_spec w 0).2.1,
    fun w => (auctionsBlock_spec w 0).2.2.1, fun w => (auctionsBlock_spec w 0).2.2.2.1,
    fun w => (auctionsBlock_spec w 0).2.2.2.2.1, fun w => (auctionsBlock_spec w 0).2.2.2.2.2,
    fun w j => (auctionsPendingBlock_spec w j).1,
    fun w => (auctionsPendingBlock_spec w 0).2.1,
    fun w => (auctionsPendingBlock_spec w 0).2.2.1,
    fun w => (auctionsPendingBlock_spec w 0).2.2.2.1,
    fun w => (auctionsPendingBlock_spec w 0).2.2.2.2.1,
    fun w => (auctionsPendingBlock_spec w 0).2.2.2.2.2,
    fun w j => (ahbotBlock_spec w j).1, fun w => (ahbotBlock_spec w 0).2.1,
    fun w => (ahbotBlock_spec w 0).2.2.1, fun w => (ahbotBlock_spec w 0).2.2.2.1,
    fun w => (ahbotBlock_spec w 0).2.2.2.2.1, fun w => (ahbotBlock_spec w 0).2.2.2.2.2,
    fun w j => (fileChangesBlock_spec w j).1, fun w => (fileChangesBlock_spec w 0).2.1,
    fun w => (fileChangesBlock_spec w 0).2.2.1, fun w => (fileChangesBlock_spec w 0).2.2.2.1,
    fun w => (fileChangesBlock_spec w 0).2.2.2.2.1,
    fun w => (fileChangesBlock_spec w 0).2.2.2.2.2,
    fun w j => (uptimeBlock_spec w j).1, fun w => (uptimeBlock_spec w 0).2.1,
    fun w => (uptimeBlock_spec w 0).2.2.1, fun w => (uptimeBlock_spec w 0).2.2.2.1,
    fun w => (uptimeBlock_spec w 0).2.2.2.2.1, fun w => (uptimeBlock_spec w 0).2.2.2.2.2,
    fun w j => (cleanDbBlock_spec w j).1, fun w => (cleanDbBlock_spec w 0).2.1,
    fun w => (cleanDbBlock_spec w 0).2.2.1, fun w => (cleanDbBlock_spec w 0).2.2.2.1,
    fun w => (cleanDbBlock_spec w 0).2.2.2.2.1, fun w => (cleanDbBlock_spec w 0).2.2.2.2.2,
    fun w j => (autobroadcastBlock_spec w j).1, fun w => (autobroadcastBlock_spec w 0).2.1,
    fun w => (autobroadcastBlock_spec w 0).2.2.1,
    fun w => (autobroadcastBlock_spec w 0).2.2.2.1,
    fun w => (autobroadcastBlock_spec w 0).2.2.2.2.1,
    fun w => (autobroadcastBlock_spec w 0).2.2.2.2.2,
    fun w j => (deleteCharsBlock_spec w j).1, fun w => (deleteCharsBlock_spec w 0).2.1,
    fun w => (deleteCharsBlock_spec w 0).2.2.1, fun w => (deleteCharsBlock_spec w 0).2.2.2.1,
    fun w => (deleteCharsBlock_spec w 0).2.2.2.2.1,
    fun w => (deleteCharsBlock_spec w 0).2.2.2.2.2,
    fun w j => (corpsesBlock_spec w j).1, fun w => (corpsesBlock_spec w 0).2.1,
    fun w => (corpsesBlock_spec w 0).2.2.1, fun w => (corpsesBlock_spec w 0).2.2.2.1,
    fun w => (corpsesBlock_spec w 0).2.2.2.2.1, fun w => (corpsesBlock_spec w 0).2.2.2.2.2,
    fun w n j => (eventsBlock_spec w n j).1, fun w n => (eventsBlock_spec w n 0).2.1,
    fun w n => (eventsBlock_spec w n 0).2.2.1, fun w n => (eventsBlock_spec w n 0).2.2.2.1,
    fun w n => (eventsBlock_spec w n 0).2.2.2.2.1,
    fun w n => (eventsBlock_spec w n 0).2.2.2.2.2,
    fun w j => (pingDbBlock_spec w j).1, fun w => (pingDbBlock_spec w 0).2.1,
    fun w => (whoListBlock_mail w).1, fun w => (whoListBlock_mail w).2,
    fun w => (channelSaveBlock_mail w).1, fun w => (channelSaveBlock_mail w).2]
  simp [WUPDATE_AUCTIONS, WUPDATE_AUCTIONS_PENDING, WUPDATE_UPTIME, WUPDATE_CORPSES,
    WUPDATE_EVENTS, WUPDATE_CLEANDB, WUPDATE_AUTOBROADCAST, WUPDATE_MAILBOXQUEUE,
    WUPDATE_DELETECHARS, WUPDATE_AHBOT, WUPDATE_PINGDB, WUPDATE_CHECK_FILECHANGES,
    WUPDATE_WHO_LIST, WUPDATE_CHANNEL_SAVE]

theorem dispatchTimers_timers (v : World) (n j : Nat) :
    (dispatchTimers v n).timers j =
      if j = WUPDATE_PINGDB ∧ (v.timers WUPDATE_PINGDB).Passed = true then
        (v.timers WUPDATE_PINGDB).Reset
      else if j = WUPDATE_EVENTS ∧ (v.timers WUPDATE_EVENTS).Passed = true then
        { interval := (n : Int), current := 0 }
      else if j = WUPDATE_CORPSES ∧ (v.timers WUPDATE_CORPSES).Passed = true then
        (v.timers WUPDATE_CORPSES).Reset
      else if j = WUPDATE_DELETECHARS ∧ (v.timers WUPDATE_DELETECHARS).Passed = true then
        (v.timers WUPDATE_DELETECHARS).Reset
      else if j = WUPDATE_AUTOBROADCAST ∧
          (v.autobroadcastOn = true ∧ (v.timers WUPDATE_AUTOBROADCAST).Passed = true) then
        (v.timers WUPDATE_AUTOBROADCAST).Reset
      else if j = WUPDATE_CLEANDB ∧
          (v.logdbClearTime > 0 ∧ (v.timers WUPDATE_CLEANDB).Passed = true) then
        (v.timers WUPDATE_CLEANDB).Reset
      else if j = WUPDATE_UPTIME ∧ (v.timers WUPDATE_UPTIME).Passed = true then
        (v.timers WUPDATE_UPTIME).Reset
      else if j = WUPDATE_CHECK_FILECHANGES ∧
          (v.timers WUPDATE_CHECK_FILECHANGES).Passed = true then
        (v.timers WUPDATE_CHECK_FILECHANGES).Reset
      else if j = WUPDATE_AHBOT ∧ (v.timers WUPDATE_AHBOT).Passed = true then
        (v.timers WUPDATE_AHBOT).Reset
      else if j = WUPDATE_AUCTIONS_PENDING ∧
          (v.timers WUPDATE_AUCTIONS_PENDING).Passed = true then
        (v.timers WUPDATE_AUCTIONS_PENDING).Reset
      else if j = WUPDATE_AUCTIONS ∧ (v.timers WUPDATE_AUCTIONS).Passed = true then
        (v.timers WUPDATE_AUCTIONS).Reset
      else if j = WUPDATE_CHANNEL_SAVE ∧
          (v.stopEvent = true ∨ (v.timers WUPDATE_CHANNEL_SAVE).Passed = true) then
        (v.timers WUPDATE_CHANNEL_SAVE).Reset
      else if j = WUPDATE_WHO_LIST ∧ (v.timers WUPDATE_WHO_LIST).Passed = true then
        (v.timers WUPDATE_WHO_LIST).Reset
      else v.timers j := by
  unfold dispatchTimers
  simp only [fun w j => (whoListBlock_spec w j).1, fun w => (whoListBlock_spec w 0).2.1,
    fun w => (whoListBlock_spec w 0).2.2.1, fun w => (whoListBlock_spec w 0).2.2.2.1,
    fun w => (whoListBlock_spec w 0).2.2.2.2.1, fun w => (whoListBlock_spec w 0).2.2.2.2.2,
    fun w j => (channelSaveBlock_spec w j).1, fun w => (channelSaveBlock_spec w 0).2.1,
    fun w => (channelSaveBlock_spec w 0).2.2.1, fun w => (channelSaveBlock_spec w 0).2.2.2.1,
    fun w => (channelSaveBlock_spec w 0).2.2.2.2.1,
    fun w => (channelSaveBlock_spec w 0).2.2.2.2.2,
    fun w j => (auctionsBlock_spec w j).1, fun w => (auctionsBlock_spec w 0).2.1,
    fun w => (auctionsBlock_spec w 0).2.2.1, fun w => (auctionsBlock_spec w 0).2.2.2.1,
    fun w => (auctionsBlock_spec w 0).2.2.2.2.1, fun w => (auctionsBlock_spec w 0).2.2.2.2.2,
    fun w j => (auctionsPendingBlock_spec w j).1,
    fun w => (auctionsPendingBlock_spec w 0).2.1,
    fun w => (auctionsPendingBlock_spec w 0).2.2.1,
    fun w => (auctionsPendingBlock_spec w 0).2.2.2.1,
    fun w => (auctionsPendingBlock_spec w 0).2.2.2.2.1,
    fun w => (auctionsPendingBlock_spec w 0).2.2.2.2.2,
    fun w j => (ahbotBlock_spec w j).1, fun w => (ahbotBlock_spec w 0).2.1,
    fun w => (ahbotBlock_spec w 0).2.2.1, fun w => (ahbotBlock_spec w 0).2.2.2.1,
    fun w => (ahbotBlock_spec w 0).2.2.2.2.1, fun w => (ahbotBlock_spec w 0).2.2.2.2.2,
    fun w j => (fileChangesBlock_spec w j).1, fun w => (fileChangesBlock_spec w 0).2.1,
    fun w => (fileChangesBlock_spec w 0).2.2.1, fun w => (fileChangesBlock_spec w 0).2.2.2.1,
    fun w => (fileChangesBlock_spec w 0).2.2.2.2.1,
    fun w => (fileChangesBlock_spec w 0).2.2.2.2.2,
    fun w j => (uptimeBlock_spec w j).1, fun w => (uptimeBlock_spec w 0).2.1,
    fun w => (uptimeBlock_spec w 0).2.2.1, fun w => (uptimeBlock_spec w 0).2.2.2.1,
    fun w => (uptimeBlock_spec w 0).2.2.2.2.1, fun w => (uptimeBlock_spec w 0).2.2.2.2.2,
    fun w j => (cleanDbBlock_spec w j).1, fun w => (cleanDbBlock_spec w 0).2.1,
    fun w => (cleanDbBlock_spec w 0).2.2.1, fun w => (cleanDbBlock_spec w 0).2.2.2.1,
    fun w => (cleanDbBlock_spec w 0).2.2.2.2.1, fun w => (cleanDbBlock_spec w 0).2.2.2.2.2,
    fun w j => (autobroadcastBlock_spec w j).1, fun w => (autobroadcastBlock_spec w 0).2.1,
    fun w => (autobroadcastBlock_spec w 0).2.2.1,
    fun w => (autobroadcastBlock_spec w 0).2.2.2.1,
    fun w => (autobroadcastBlock_spec w 0).2.2.2.2.1,
    fun w => (autobroadcastBlock_spec w 0).2.2.2.2.2,
    fun w j => (deleteCharsBlock_spec w j).1, fun w => (deleteCharsBlock_spec w 0).2.1,
    fun w => (deleteCharsBlock_spec w 0).2.2.1, fun w => (deleteCharsBlock_spec w 0).2.2.2.1,
    fun w => (deleteCharsBlock_spec w 0).2.2.2.2.1,
    fun w => (deleteCharsBlock_spec w 0).2.2.2.2.2,
    fun w j => (corpsesBlock_spec w j).1, fun w => (corpsesBlock_spec w 0).2.1,
    fun w => (corpsesBlock_spec w 0).2.2.1, fun w => (corpsesBlock_spec w 0).2.2.2.1,
    fun w => (corpsesBlock_spec w 0).2.2.2.2.1, fun w => (corpsesBlock_spec w 0).2.2.2.2.2,
    fun w n j => (eventsBlock_spec w n j).1, fun w n => (eventsBlock_spec w n 0).2.1,
    fun w n => (eventsBlock_spec w n 0).2.2.1, fun w n => (eventsBlock_spec w n 0).2.2.2.1,
    fun w n => (eventsBlock_spec w n 0).2.2.2.2.1,
    fun w n => (eventsBlock_spec w n 0).2.2.2.2.2,
    fun w j => (pingDbBlock_spec w j).1, fun w => (pingDbBlock_spec w 0).2.1,
    fun w => (whoListBlock_mail w).1, fun w => (whoListBlock_mail w).2,
    fun w => (channelSaveBlock_mail w).1, fun w => (channelSaveBlock_mail w).2]
  simp [WUPDATE_AUCTIONS, WUPDATE_AUCTIONS_PENDING, WUPDATE_UPTIME, WUPDATE_CORPSES,
    WUPDATE_EVENTS, WUPDATE_CLEANDB, WUPDATE_AUTOBROADCAST, WUPDATE_MAILBOXQUEUE,
    WUPDATE_DELETECHARS, WUPDATE_AHBOT, WUPDATE_PINGDB, WUPDATE_CHECK_FILECHANGES,
    WUPDATE_WHO_LIST, WUPDATE_CHANNEL_SAVE]

theorem advance_fold_config (diff : Nat) (l : List Nat) :
    ∀ w : World,
      (l.foldl (fun v i => advanceTimer v diff i) w).preserveCustomChannels =
        w.preserveCustomChannels ∧
      (l.foldl (fun v i => advanceTimer v diff i) w).logdbClearTime = w.logdbClearTime ∧
      (l.foldl (fun v i => advanceTimer v diff i) w).autobroadcastOn = w.autobroadcastOn := by
  induction l with
  | nil => intro w; exact ⟨rfl, rfl, rfl⟩
  | cons i rest ih =>
    intro w
    obtain ⟨t1, t2, t3⟩ := ih (advanceTimer w diff i)
    obtain ⟨-, -, f3, f4, f5, -, -⟩ := advanceTimer_frame w diff i
    rw [List.foldl_cons]
    exact ⟨t1.trans f3, t2.trans f4, t3.trans f5⟩

theorem advanceTimers_config (w : World) (diff : Nat) :
    (advanceTimers w diff).preserveCustomChannels = w.preserveCustomChannels ∧
    (advanceTimers w diff).logdbClearTime = w.logdbClearTime ∧
    (advanceTimers w diff).autobroadcastOn = w.autobroadcastOn :=
  advance_fold_config diff (List.range WUPDATE_COUNT) w

theorem count_if (c : Prop) [Decidable c] (d : Driver) (l : List Driver) :
    List.count d (if c then l else []) = if c then List.count d l else 0 := by
  split <;> simp

/-- A timer at 0 with a positive period has not passed. -/
theorem not_passed_of_reset (t : IntervalTimer) (hc : t.current = 0) (hi : 0 < t.interval) :
    t.Passed = false := by
  unfold IntervalTimer.Passed
  rw [hc]
  exact decide_eq_false (by omega)

/-- C25, as the code has it.  After the timer loop of `Update(diff)`: each of the ten
timers of `timerDrivers` that has passed has its callout made exactly once and stands
at 0 afterwards (so it has not passed when its period is positive), and one that has
not passed is left alone with no callout.  `WUPDATE_CHANNEL_SAVE` is reset when it has
passed or the server is stopped, and the channels are saved only under
`CONFIG_PRESERVE_CUSTOM_CHANNELS`.  `WUPDATE_CLEANDB` and `WUPDATE_AUTOBROADCAST` are
looked at only when `CONFIG_LOGDB_CLEARTIME > 0` and `CONFIG_AUTOBROADCAST` hold.
`WUPDATE_MAILBOXQUEUE` is never looked at and keeps its value. -/
theorem timers_fire_and_reset (w : World) (diff n : Nat) :
    (∀ e ∈ timerDrivers,
      (((advanceTimers w diff).timers e.1).Passed = true →
        (UpdateTimers w diff n).driverCalls.count e.2 = w.driverCalls.count e.2 + 1 ∧
        ((UpdateTimers w diff n).timers e.1).current = 0 ∧
        (0 < ((UpdateTimers w diff n).timers e.1).interval →
          ((UpdateTimers w diff n).timers e.1).Passed = false)) ∧
      (((advanceTimers w diff).timers e.1).Passed = false →
        (UpdateTimers w diff n).driverCalls.count e.2 = w.driverCalls.count e.2 ∧
        (UpdateTimers w diff n).timers e.1 = (advanceTimers w diff).timers e.1)) ∧
    ((w.stopEvent = true ∨
        ((advanceTimers w diff).timers WUPDATE_CHANNEL_SAVE).Passed = true) →
      ((UpdateTimers w diff n).timers WUPDATE_CHANNEL_SAVE).current = 0 ∧
      (UpdateTimers w diff n).driverCalls.count Driver.SaveChannels =
        w.driverCalls.count Driver.SaveChannels +
          (if w.preserveCustomChannels = true then 1 else 0)) ∧
    (w.stopEvent = false →
      ((advanceTimers w diff).timers WUPDATE_CHANNEL_SAVE).Passed = false →
      (UpdateTimers w diff n).timers WUPDATE_CHANNEL_SAVE =
        (advanceTimers w diff).timers WUPDATE_CHANNEL_SAVE ∧
      (UpdateTimers w diff n).driverCalls.count Driver.SaveChannels =
        w.driverCalls.count Driver.SaveChannels) ∧
    ((0 < w.logdbClearTime ∧ ((advanceTimers w diff).timers WUPDATE_CLEANDB).Passed = true) →
      ((UpdateTimers w diff n).timers WUPDATE_CLEANDB).current = 0 ∧
      (UpdateTimers w diff n).driverCalls.count Driver.CleanLogs =
        w.driverCalls.count Driver.CleanLogs + 1) ∧
    ((w.logdbClearTime = 0 ∨ ((advanceTimers w diff).timers WUPDATE_CLEANDB).Passed = false) →
      (UpdateTimers w diff n).timers WUPDATE_CLEANDB =
        (advanceTimers w diff).timers WUPDATE_CLEANDB ∧
      (UpdateTimers w diff n).driverCalls.count Driver.CleanLogs =
        w.driverCalls.count Driver.CleanLogs) ∧
    ((w.autobroadcastOn = true ∧
        ((advanceTimers w diff).timers WUPDATE_AUTOBROADCAST).Passed = true) →
      ((UpdateTimers w diff n).timers WUPDATE_AUTOBROADCAST).current = 0 ∧
      (UpdateTimers w diff n).driverCalls.count Driver.SendAutoBroadcast =
        w.driverCalls.count Driver.SendAutoBroadcast + 1) ∧
    ((w.autobroadcastOn = false ∨
        ((advanceTimers w diff).timers WUPDATE_AUTOBROADCAST).Passed = false) →
      (UpdateTimers w diff n).timers WUPDATE_AUTOBROADCAST =
        (advanceTimers w diff).timers WUPDATE_AUTOBROADCAST ∧
      (UpdateTimers w diff n).driverCalls.count Driver.SendAutoBroadcast =
        w.driverCalls.count Driver.SendAutoBroadcast) ∧
    (UpdateTimers w diff n).timers WUPDATE_MAILBOXQUEUE =
      (advanceTimers w diff).timers WUPDATE_MAILBOXQUEUE := by
  obtain ⟨v, hv⟩ : ∃ v : World, v = advanceTimers w diff := ⟨_, rfl⟩
  obtain ⟨a1, a2⟩ := advanceTimers_frame w diff
  obtain ⟨a3, a4, a5⟩ := advanceTimers_config w diff
  rw [← hv] at a1 a2 a3 a4 a5
  have hU : UpdateTimers w diff n = dispatchTimers v n := by rw [hv]; rfl
  rw [hU, ← hv, ← a1, ← a2, ← a3, ← a4, ← a5]
  clear hU hv a1 a2 a3 a4 a5
  refine ⟨fun e he => ?_, ?_, ?_, ?_, ?_, ?_, ?_, ?_⟩
  · simp only [timerDrivers, List.mem_cons, List.mem_singleton, List.not_mem_nil,
      or_false] at he
    have hnp : ∀ t : IntervalTimer, t.current = 0 → 0 < t.interval → t.Passed = false :=
      not_passed_of_reset
    rcases he with rfl | rfl | rfl | rfl | rfl | rfl | rfl | rfl | rfl | rfl <;>
      refine ⟨fun hp => ⟨?_, ?_, ?_⟩, fun hp => ⟨?_, ?_⟩⟩ <;>
      first
      | (intro hi; refine hnp _ ?_ hi
         rw [dispatchTimers_timers]
         simp [hp, IntervalTimer.Reset, WUPDATE_AUCTIONS, WUPDATE_AUCTIONS_PENDING,
           WUPDATE_UPTIME, WUPDATE_CORPSES, WUPDATE_EVENTS, WUPDATE_CLEANDB,
           WUPDATE_AUTOBROADCAST, WUPDATE_MAILBOXQUEUE, WUPDATE_DELETECHARS, WUPDATE_AHBOT,
           WUPDATE_PINGDB, WUPDATE_CHECK_FILECHANGES, WUPDATE_WHO_LIST,
           WUPDATE_CHANNEL_SAVE] at hp ⊢)
      | (rw [dispatchTimers_calls]
         simp [hp, count_if, List.count_append, WUPDATE_AUCTIONS, WUPDATE_AUCTIONS_PENDING,
           WUPDATE_UPTIME, WUPDATE_CORPSES, WUPDATE_EVENTS, WUPDATE_CLEANDB,
           WUPDATE_AUTOBROADCAST, WUPDATE_MAILBOXQUEUE, WUPDATE_DELETECHARS, WUPDATE_AHBOT,
           WUPDATE_PINGDB, WUPDATE_CHECK_FILECHANGES, WUPDATE_WHO_LIST,
           WUPDATE_CHANNEL_SAVE] at hp ⊢)
      | (rw [dispatchTimers_timers]
         simp [hp, IntervalTimer.Reset, WUPDATE_AUCTIONS, WUPDATE_AUCTIONS_PENDING,
           WUPDATE_UPTIME, WUPDATE_CORPSES, WUPDATE_EVENTS, WUPDATE_CLEANDB,
           WUPDATE_AUTOBROADCAST, WUPDATE_MAILBOXQUEUE, WUPDATE_DELETECHARS, WUPDATE_AHBOT,
           WUPDATE_PINGDB, WUPDATE_CHECK_FILECHANGES, WUPDATE_WHO_LIST,
           WUPDATE_CHANNEL_SAVE] at hp ⊢)
  · intro hc
    rw [dispatchTimers_timers, dispatchTimers_calls]
    simp only [WUPDATE_AUCTIONS, WUPDATE_AUCTIONS_PENDING,
      WUPDATE_UPTIME, WUPDATE_CORPSES, WUPDATE_EVENTS, WUPDATE_CLEANDB,
      WUPDATE_AUTOBROADCAST, WUPDATE_MAILBOXQUEUE, WUPDATE_DELETECHARS, WUPDATE_AHBOT,
      WUPDATE_PINGDB, WUPDATE_CHECK_FILECHANGES, WUPDATE_WHO_LIST,
      WUPDATE_CHANNEL_SAVE] at hc ⊢
    by_cases hp : v.preserveCustomChannels = true <;>
      simp [hc, hp, count_if, List.count_append, IntervalTimer.Reset]
  · intro hs hp
    rw [dispatchTimers_timers, dispatchTimers_calls]
    simp only [WUPDATE_AUCTIONS, WUPDATE_AUCTIONS_PENDING,
      WUPDATE_UPTIME, WUPDATE_CORPSES, WUPDATE_EVENTS, WUPDATE_CLEANDB,
      WUPDATE_AUTOBROADCAST, WUPDATE_MAILBOXQUEUE, WUPDATE_DELETECHARS, WUPDATE_AHBOT,
      WUPDATE_PINGDB, WUPDATE_CHECK_FILECHANGES, WUPDATE_WHO_LIST,
      WUPDATE_CHANNEL_SAVE] at hp ⊢
    simp [hs, hp, count_if, List.count_append]
  · rintro ⟨hc, hp⟩
    rw [dispatchTimers_timers, dispatchTimers_calls]
    simp only [WUPDATE_AUCTIONS, WUPDATE_AUCTIONS_PENDING,
      WUPDATE_UPTIME, WUPDATE_CORPSES, WUPDATE_EVENTS, WUPDATE_CLEANDB,
      WUPDATE_AUTOBROADCAST, WUPDATE_MAILBOXQUEUE, WUPDATE_DELETECHARS, WUPDATE_AHBOT,
      WUPDATE_PINGDB, WUPDATE_CHECK_FILECHANGES, WUPDATE_WHO_LIST,
      WUPDATE_CHANNEL_SAVE] at hp ⊢
    simp [hc, hp, count_if, List.count_append, IntervalTimer.Reset]
  · intro hc
    rw [dispatchTimers_timers, dispatchTimers_calls]
    simp only [WUPDATE_AUCTIONS, WUPDATE_AUCTIONS_PENDING,
      WUPDATE_UPTIME, WUPDATE_CORPSES, WUPDATE_EVENTS, WUPDATE_CLEANDB,
      WUPDATE_AUTOBROADCAST, WUPDATE_MAILBOXQUEUE, WUPDATE_DELETECHARS, WUPDATE_AHBOT,
      WUPDATE_PINGDB, WUPDATE_CHECK_FILECHANGES, WUPDATE_WHO_LIST,
      WUPDATE_CHANNEL_SAVE] at hc ⊢
    rcases hc with hc | hc <;>
      simp [hc, count_if, List.count_append]
  · rintro ⟨hc, hp⟩
    rw [dispatchTimers_timers, dispatchTimers_calls]
    simp only [WUPDATE_AUCTIONS, WUPDATE_AUCTIONS_PENDING,
      WUPDATE_UPTIME, WUPDATE_CORPSES, WUPDATE_EVENTS, WUPDATE_CLEANDB,
      WUPDATE_AUTOBROADCAST, WUPDATE_MAILBOXQUEUE, WUPDATE_DELETECHARS, WUPDATE_AHBOT,
      WUPDATE_PINGDB, WUPDATE_CHECK_FILECHANGES, WUPDATE_WHO_LIST,
      WUPDATE_CHANNEL_SAVE] at hp ⊢
    simp [hc, hp, count_if, List.count_append, IntervalTimer.Reset]
  · intro hc
    rw [dispatchTimers_timers, dispatchTimers_calls]
    simp only [WUPDATE_AUCTIONS, WUPDATE_AUCTIONS_PENDING,
      WUPDATE_UPTIME, WUPDATE_CORPSES, WUPDATE_EVENTS, WUPDATE_CLEANDB,
      WUPDATE_AUTOBROADCAST, WUPDATE_MAILBOXQUEUE, WUPDATE_DELETECHARS, WUPDATE_AHBOT,
      WUPDATE_PINGDB, WUPDATE_CHECK_FILECHANGES, WUPDATE_WHO_LIST,
      WUPDATE_CHANNEL_SAVE] at hc ⊢
    rcases hc with hc | hc <;>
      simp [hc, count_if, List.count_append]
  · rw [dispatchTimers_timers]
    simp [WUPDATE_AUCTIONS, WUPDATE_AUCTIONS_PENDING,
      WUPDATE_UPTIME, WUPDATE_CORPSES, WUPDATE_EVENTS, WUPDATE_CLEANDB,
      WUPDATE_AUTOBROADCAST, WUPDATE_MAILBOXQUEUE, WUPDATE_DELETECHARS, WUPDATE_AHBOT,
      WUPDATE_PINGDB, WUPDATE_CHECK_FILECHANGES, WUPDATE_WHO_LIST,
      WUPDATE_CHANNEL_SAVE]

/-- C25 as stated fails: in `demoTimers` a tick of 1000 ms makes every timer pass;
after the tick `WUPDATE_MAILBOXQUEUE`, `WUPDATE_CLEANDB` (with `CONFIG_LOGDB_CLEARTIME`
0) and `WUPDATE_AUTOBROADCAST` (with `CONFIG_AUTOBROADCAST` off) have still passed and
no callout was made for them. -/
theorem timers_fire_and_reset_counterexample :
    WUPDATE_MAILBOXQUEUE < WUPDATE_COUNT ∧
    ((advanceTimers demoTimers 1000).timers WUPDATE_MAILBOXQUEUE).Passed = true ∧
    ((UpdateTimers demoTimers 1000 0).timers WUPDATE_MAILBOXQUEUE).Passed = true ∧
    ((advanceTimers demoTimers 1000).timers WUPDATE_CLEANDB).Passed = true ∧
    ((UpdateTimers demoTimers 1000 0).timers WUPDATE_CLEANDB).Passed = true ∧
    ((advanceTimers demoTimers 1000).timers WUPDATE_AUTOBROADCAST).Passed = true ∧
    ((UpdateTimers demoTimers 1000 0).timers WUPDATE_AUTOBROADCAST).Passed = true ∧
    (UpdateTimers demoTimers 1000 0).driverCalls =
      [Driver.WhoListUpdate, Driver.AuctionUpdate, Driver.UpdatePendingAuctions,
       Driver.AuctionBotUpdate, Driver.ScriptReloadUpdate,
       Driver.DeleteOldCharacters, Driver.RemoveOldCorpses, Driver.GameEventUpdate,
       Driver.PingDB] := by
  decide

/-- C25 as the code has it, at an instance: in `demoTimers` a tick of 50 ms makes
`WUPDATE_AUCTIONS` pass (990 + 50 >= 1000) and no other timer; the auction callout is
made once, the timer stands at 0 and has not passed. -/
theorem timers_fire_and_reset_witness :
    ((WUPDATE_AUCTIONS, Driver.AuctionUpdate) ∈ timerDrivers ∧
      (WUPDATE_WHO_LIST, Driver.WhoListUpdate) ∈ timerDrivers ∧
      ((advanceTimers demoTimers 50).timers WUPDATE_AUCTIONS).Passed = true ∧
      ((advanceTimers demoTimers 50).timers WUPDATE_WHO_LIST).Passed = false) ∧
    ((UpdateTimers demoTimers 50 7).driverCalls.count Driver.AuctionUpdate = 1 ∧
      ((UpdateTimers demoTimers 50 7).timers WUPDATE_AUCTIONS).current = 0 ∧
      ((UpdateTimers demoTimers 50 7).timers WUPDATE_AUCTIONS).Passed = false) ∧
    (UpdateTimers demoTimers 50 7).driverCalls.count Driver.WhoListUpdate = 0 :=
  ⟨⟨by decide, by decide, rfl, rfl⟩,
    ⟨(((timers_fire_and_reset demoTimers 50 7).1 (WUPDATE_AUCTIONS, Driver.AuctionUpdate)
        (by decide)).1 rfl).1,
     (((timers_fire_and_reset demoTimers 50 7).1 (WUPDATE_AUCTIONS, Driver.AuctionUpdate)
        (by decide)).1 rfl).2.1,
     (((timers_fire_and_reset demoTimers 50 7).1 (WUPDATE_AUCTIONS, Driver.AuctionUpdate)
        (by decide)).1 rfl).2.2 (by decide)⟩,
    (((timers_fire_and_reset demoTimers 50 7).1 (WUPDATE_WHO_LIST, Driver.WhoListUpdate)
        (by decide)).2 rfl).1⟩

/-! ## The command inbox -/

/-- The kick loop of `BanAccount`: the registry is not written, and the sessions kicked
are, in the order of the rows, the registered sessions whose player name differs from
the author. -/
theorem kickRows_spec (playerName : Nat → String) (author : String) (rows : List Nat) :
    ∀ w : World,
      (kickRows playerName author w rows).sessions = w.sessions ∧
      (kickRows playerName author w rows).queuedPlayer = w.queuedPlayer ∧
      (kickRows playerName author w rows).trace =
        w.trace ++
          ((rows.map (FindSession w)).filter
            (fun p => decide (p ≠ 0 ∧ playerName p ≠ author))).map Event.KickPlayer := by
  induction rows with
  | nil => intro w; simp [kickRows]
  | cons a rest ih =>
    intro w
    by_cases hk : FindSession w a ≠ 0 ∧ playerName (FindSession w a) ≠ author
    · obtain ⟨v, hv⟩ : ∃ v : World,
        v = { w with trace := w.trace ++ [Event.KickPlayer (FindSession w a)] } := ⟨_, rfl⟩
      have e : kickRows playerName author w (a :: rest) = kickRows playerName author v rest := by
        rw [hv, kickRows, if_pos hk]
      have hF : FindSession v = FindSession w := by rw [hv]; rfl
      obtain ⟨i1, i2, i3⟩ := ih v
      rw [hF] at i3
      rw [e]
      refine ⟨by rw [i1, hv], by rw [i2, hv], ?_⟩
      rw [i3, hv]
      simp [hk]
    · have e : kickRows playerName author w (a :: rest) = kickRows playerName author w rest := by
        rw [kickRows, if_neg hk]
      obtain ⟨i1, i2, i3⟩ := ih w
      rw [e]
      refine ⟨i1, i2, ?_⟩
      rw [i3]
      simp [hk]

/-- C22. The result of `BanAccount`, with the answers of the database as inputs, is
decided in this order: `BAN_EXISTS` exactly for mode `BAN_ACCOUNT` on an account
already banned; else `BAN_SYNTAX_ERROR` exactly for a mode that is none of `BAN_IP`,
`BAN_ACCOUNT`, `BAN_CHARACTER`; else `BAN_NOTFOUND` exactly when the account query has
no row and the mode is not `BAN_IP`; else `BAN_SUCCESS`.  The four codes are distinct.
With a result other than `BAN_SUCCESS` the world is left as it is; with `BAN_SUCCESS`
the registry is left as it is and the sessions kicked are exactly the registered
sessions of the matched accounts whose player name differs from the author. -/
theorem banAccount_result (w : World) (mode : BanMode) (isBanned : Bool)
    (rows : List Nat) (playerName : Nat → String) (author : String) :
    ((BanAccount w mode isBanned rows playerName author).2 = BanReturn.BAN_EXISTS ↔
      (mode = BanMode.BAN_ACCOUNT ∧ isBanned = true)) ∧
    ((BanAccount w mode isBanned rows playerName author).2 = BanReturn.BAN_SYNTAX_ERROR ↔
      (¬ (mode = BanMode.BAN_ACCOUNT ∧ isBanned = true) ∧
        mode ≠ BanMode.BAN_IP ∧ mode ≠ BanMode.BAN_ACCOUNT ∧ mode ≠ BanMode.BAN_CHARACTER)) ∧
    ((BanAccount w mode isBanned rows playerName author).2 = BanReturn.BAN_NOTFOUND ↔
      (¬ (mode = BanMode.BAN_ACCOUNT ∧ isBanned = true) ∧
        (mode = BanMode.BAN_ACCOUNT ∨ mode = BanMode.BAN_CHARACTER) ∧ rows = [])) ∧
    ((BanAccount w mode isBanned rows playerName author).2 = BanReturn.BAN_SUCCESS ↔
      (¬ (mode = BanMode.BAN_ACCOUNT ∧ isBanned = true) ∧
        (mode = BanMode.BAN_IP ∨
          ((mode = BanMode.BAN_ACCOUNT ∨ mode = BanMode.BAN_CHARACTER) ∧ rows ≠ [])))) ∧
    (BanReturn.BAN_EXISTS ≠ BanReturn.BAN_SYNTAX_ERROR ∧
      BanReturn.BAN_EXISTS ≠ BanReturn.BAN_NOTFOUND ∧
      BanReturn.BAN_EXISTS ≠ BanReturn.BAN_SUCCESS ∧
      BanReturn.BAN_SYNTAX_ERROR ≠ BanReturn.BAN_NOTFOUND ∧
      BanReturn.BAN_SYNTAX_ERROR ≠ BanReturn.BAN_SUCCESS ∧
      BanReturn.BAN_NOTFOUND ≠ BanReturn.BAN_SUCCESS) ∧
    ((BanAccount w mode isBanned rows playerName author).2 ≠ BanReturn.BAN_SUCCESS →
      (BanAccount w mode isBanned rows playerName author).1 = w) ∧
    ((BanAccount w mode isBanned rows playerName author).2 = BanReturn.BAN_SUCCESS →
      (BanAccount w mode isBanned rows playerName author).1.sessions = w.sessions ∧
      (BanAccount w mode isBanned rows playerName author).1.trace =
        w.trace ++
          ((rows.map (FindSession w)).filter
            (fun p => decide (p ≠ 0 ∧ playerName p ≠ author))).map Event.KickPlayer) := by
  obtain ⟨k1, -, k3⟩ := kickRows_spec playerName author rows w
  refine ⟨?_, ?_, ?_, ?_, by decide, ?_, ?_⟩ <;>
    (unfold BanAccount
     cases mode <;> cases isBanned <;> by_cases hr : rows = [] <;>
       simp [hr, k1, k3, kickRows])

/-- C22 at an instance: sessions 1, 2, 3 are registered, session 3 plays "admin"; an IP
ban by "admin" that matches the accounts 2, 5 and 3 kicks session 2 only; a character
ban without a row answers `BAN_NOTFOUND` and kicks nobody. -/
theorem banAccount_result_witness :
    (BanAccount (demoWorld 0 [1, 2, 3] []) BanMode.BAN_IP false [2, 5, 3] demoNames
        "admin").2 = BanReturn.BAN_SUCCESS ∧
    (BanAccount (demoWorld 0 [1, 2, 3] []) BanMode.BAN_IP false [2, 5, 3] demoNames
        "admin").1.trace = [Event.KickPlayer 2] ∧
    (BanAccount (demoWorld 0 [1, 2, 3] []) BanMode.BAN_CHARACTER false [] demoNames
        "admin").2 = BanReturn.BAN_NOTFOUND ∧
    (BanAccount (demoWorld 0 [1, 2, 3] []) BanMode.BAN_CHARACTER false [] demoNames
        "admin").1.trace = [] :=
  have h1 := banAccount_result (demoWorld 0 [1, 2, 3] []) BanMode.BAN_IP false [2, 5, 3]
    demoNames "admin"
  have h2 := banAccount_result (demoWorld 0 [1, 2, 3] []) BanMode.BAN_CHARACTER false []
    demoNames "admin"
  ⟨h1.2.2.2.1.mpr (by decide), ((h1.2.2.2.2.2.2 (h1.2.2.2.1.mpr (by decide))).2).trans
      (by decide),
    h2.2.2.1.mpr (by decide),
    by rw [h2.2.2.2.2.2.1 (by rw [h2.2.2.1.mpr (by decide)]; decide)]; rfl⟩

/-! ## The automatic broadcast -/

/-- C30, the code at the failing input: the table holds the single entry 5 with weight 0
and the text "hello".  `urand(0, 1)` can return 0 or 1; for either draw
`SendAutoBroadcast` sends the empty text and adds an entry for the drawn number to the
table. -/
theorem sendAutoBroadcast_unloaded_entry :
    demoBroadcast.autobroadcasts = [(5, "hello")] ∧
    demoBroadcast.autobroadcastsWeights = [(5, 0)] ∧
    (SendAutoBroadcast (fun _ _ => 0) demoBroadcast).broadcasts =
      [BroadcastCall.SendWorldText ""] ∧
    (SendAutoBroadcast (fun _ _ => 0) demoBroadcast).autobroadcasts =
      [(0, ""), (5, "hello")] ∧
    (SendAutoBroadcast (fun _ max => max) demoBroadcast).broadcasts =
      [BroadcastCall.SendWorldText ""] ∧
    (SendAutoBroadcast (fun _ max => max) demoBroadcast).autobroadcasts =
      [(1, ""), (5, "hello")] := by
  decide

/-- With a non-zero weight in the table the draw picks by cumulative weight: in
`demoWeighted` (weights 0, 2, 1 for the ids 1, 2, 3) the draws 0 and 1 send "two", the
draw 2 sends "three", and the table is left as it is. -/
theorem sendAutoBroadcast_weighted_example :
    (SendAutoBroadcast (fun _ _ => 0) demoWeighted).broadcasts =
      [BroadcastCall.SendWorldText "two"] ∧
    (SendAutoBroadcast (fun _ _ => 1) demoWeighted).broadcasts =
      [BroadcastCall.SendWorldText "two"] ∧
    (SendAutoBroadcast (fun _ max => max) demoWeighted).broadcasts =
      [BroadcastCall.SendWorldText "three"] ∧
    (SendAutoBroadcast (fun _ max => max) demoWeighted).autobroadcasts =
      demoWeighted.autobroadcasts := by
  decide

end Trinity
